import Mathlib

/-!
# Robot gateway: request correlation and session context tracking

A shallow embedding of the Go sources

* `sdk/client/response_handler.go` (the request/response correlator),
* `openclaw-adapter/internal/session/context_manager.go` (the session context tracker),
* `openclaw-adapter/internal/openclaw/websocket_client.go` (the agent-side client: request
  bookkeeping, response handling, streaming events, connection and queue of frames),
* `sdk/client/websocket_client.go`, `sdk/client/connection_manager.go` and
  `sdk/client/robot_service_client.go` (the gateway-side client and its manager),
* `openclaw-adapter/internal/filter`, `openclaw-adapter/internal/converter` and
  `openclaw-adapter/internal/bridge/bridge.go` (the filters, the converter and the bridge),

followed by theorems about them.

Conventions of the embedding.

* A Go `map[string]V` is an association list with the operations `get`, `delete`, `set`;
  a well-formed map lists every key once (`GoMap.WF`).  A `range` loop walks the entries of
  the map as they were when the loop started; the loops modelled here delete only the entry
  they are visiting, so every entry is visited exactly once.
* A pointer that may be `nil` is an `Option`.
* `time.Now().UnixMilli()` is an explicit argument `now`; `int64` subtraction wraps.
* Every method body that runs under the object's mutex is one atomic step; the receive loop
  of the agent-side client handles one frame at a time, so each of its handlers is one step.
* A call on the `MessageHandler` of the client is an output of the step that makes it, as
  are the goroutines a method starts and the channels and connections it closes.
* A run-time panic (nil dereference, `close` of a closed channel) is an error result.
* What the two gateways and the context do while a method waits is an explicit argument.
-/

namespace RobotGateway

/-! ## Go maps with string keys -/

/-- A Go `map[string]V`, as the list of its entries. -/
abbrev GoMap (V : Type) := List (String × V)

namespace GoMap

variable {V : Type}

/-- The lookup `m[k]`: the entry stored under `k`, or `none` when the key is absent. -/
def get : GoMap V → String → Option V
  | [], _ => none
  | (k', v) :: rest, k => if k' = k then some v else get rest k

/-- The builtin `delete(m, k)`. -/
def delete : GoMap V → String → GoMap V
  | [], _ => []
  | (k', v) :: rest, k => if k' = k then delete rest k else (k', v) :: delete rest k

/-- The assignment `m[k] = v`. -/
def set (m : GoMap V) (k : String) (v : V) : GoMap V :=
  (k, v) :: delete m k

/-- The keys of the map, in the order of its entries. -/
def keys (m : GoMap V) : List String := m.map Prod.fst

/-- Well-formedness of a map: no key is listed twice. -/
def WF (m : GoMap V) : Prop := (keys m).Nodup

instance (m : GoMap V) : Decidable (WF m) := by
  unfold WF; infer_instance

end GoMap

/-! ## 64-bit integers -/

/-- Reduction of an integer to the range of `int64` (two's complement wrap-around). -/
def wrapInt64 (x : Int) : Int := (x + 2 ^ 63) % 2 ^ 64 - 2 ^ 63

/-- The `int64` subtraction `a - b`. -/
def subInt64 (a b : Int) : Int := wrapInt64 (a - b)

/-! ## Session context tracker (`session/context_manager.go`) -/

/-- The constant `DefaultSessionKey`. -/
def DefaultSessionKey : String := "main"

/-- The struct `SessionContext`. -/
structure SessionContext where
  SessionKey : String
  SenderID : String
  ThreadID : String
  IsGroup : Bool
  Timestamp : Int
  deriving DecidableEq, Repr

/-- The struct `ContextManager` (its mutex is implicit: every method is one atomic step). -/
structure ContextManager where
  sessions : GoMap SessionContext
  runIDMap : GoMap String
  deriving DecidableEq, Repr

/-- The constructor `NewContextManager`. -/
def NewContextManager : ContextManager :=
  { sessions := [], runIDMap := [] }

namespace ContextManager

/-- The method `RegisterSession`; `now` is the reading of `time.Now().UnixMilli()`. -/
def RegisterSession (m : ContextManager) (now : Int)
    (sessionKey senderID threadID : String) (isGroup : Bool) : ContextManager :=
  let session : SessionContext :=
    { SessionKey := sessionKey, SenderID := senderID, ThreadID := threadID,
      IsGroup := isGroup, Timestamp := now }
  { m with sessions := m.sessions.set sessionKey session }

/-- The method `GetSession`. -/
def GetSession (m : ContextManager) (sessionKey : String) : Option SessionContext :=
  m.sessions.get sessionKey

/-- The method `AssociateRunID`. -/
def AssociateRunID (m : ContextManager) (runID sessionKey : String) : ContextManager :=
  { m with runIDMap := m.runIDMap.set runID sessionKey }

/-- The method `GetContextByRunID`. -/
def GetContextByRunID (m : ContextManager) (runID : String) : Option SessionContext :=
  match m.runIDMap.get runID with
  | none => none
  | some sessionKey => m.GetSession sessionKey

/-- The method `GetDefaultSessionContext`. -/
def GetDefaultSessionContext (m : ContextManager) : Option SessionContext :=
  m.GetSession DefaultSessionKey

/-- The test `now-session.Timestamp > timeoutMs` of the expiry loop. -/
def sessionExpired (now timeoutMs : Int) (session : SessionContext) : Bool :=
  decide (subInt64 now session.Timestamp > timeoutMs)

/-- The first loop of `CleanupExpiredSessions`: one iteration, on the entry `(key, session)`. -/
def expireStep (now timeoutMs : Int) (acc : GoMap SessionContext × Int)
    (entry : String × SessionContext) : GoMap SessionContext × Int :=
  if sessionExpired now timeoutMs entry.2 then (acc.1.delete entry.1, acc.2 + 1) else acc

/-- The second loop of `CleanupExpiredSessions`: one iteration, on the entry
`(runID, sessionKey)`. -/
def orphanStep (sessions : GoMap SessionContext) (acc : GoMap String)
    (entry : String × String) : GoMap String :=
  if (sessions.get entry.2).isNone then acc.delete entry.1 else acc

/-- The method `CleanupExpiredSessions`: the tracker afterwards and the returned count. -/
def CleanupExpiredSessions (m : ContextManager) (now timeoutMs : Int) : ContextManager × Int :=
  let r := m.sessions.foldl (expireStep now timeoutMs) (m.sessions, 0)
  let runIDMap := m.runIDMap.foldl (orphanStep r.1) m.runIDMap
  ({ sessions := r.1, runIDMap := runIDMap }, r.2)

/-- The method `GetSessionCount`. -/
def GetSessionCount (m : ContextManager) : Int := m.sessions.length

end ContextManager

/-! ## Request/response correlator (`sdk/client/response_handler.go`) -/

/-- The struct `protocol.ResponseMessage`.  The field `Result` (an `interface{}`) is an
optional uninterpreted text; `none` is the nil interface. -/
structure ResponseMessage where
  RequestID : String
  Code : Int
  Msg : String
  Result : Option String := none
  deriving DecidableEq, Repr

/-- The struct `ResponseHandler`.  A value of type `chan *protocol.ResponseMessage` is a
handle (an index) into `chans`, the table of all channels made so far; the entry of a handle
is the list of messages sent on the channel and not read by the caller.  Every channel is
made with capacity 1.  `timeout` is the configured duration in nanoseconds. -/
structure ResponseHandler where
  pendingRequests : GoMap Nat
  timeout : Nat
  chans : List (List ResponseMessage)
  deriving DecidableEq, Repr

/-- The constructor `NewResponseHandlerWithTimeout`. -/
def NewResponseHandlerWithTimeout (timeout : Nat) : ResponseHandler :=
  { pendingRequests := [], timeout := timeout, chans := [] }

/-- The constructor `NewResponseHandler` (30 seconds). -/
def NewResponseHandler : ResponseHandler :=
  NewResponseHandlerWithTimeout (30 * 1000000000)

namespace ResponseHandler

/-- The messages sitting in the channel `ch`. -/
def received (h : ResponseHandler) (ch : Nat) : List ResponseMessage :=
  (h.chans[ch]?).getD []

/-- The statement `ch <- msg` on a channel of capacity 1 that nobody is reading: it goes
through when the buffer is empty, and otherwise blocks for ever (`none`), with the mutex of
the handler held. -/
def chanSend (h : ResponseHandler) (ch : Nat) (msg : ResponseMessage) :
    Option ResponseHandler :=
  match h.chans[ch]? with
  | some [] => some { h with chans := h.chans.set ch [msg] }
  | _ => none

/-- The method `RegisterRequest`, without its goroutine: the handler afterwards and the
channel returned.  The goroutine is `timeoutWatchdog`, run at some later moment. -/
def RegisterRequest (h : ResponseHandler) (requestID : String) : ResponseHandler × Nat :=
  let ch := h.chans.length
  ({ h with chans := h.chans ++ [[]], pendingRequests := h.pendingRequests.set requestID ch },
   ch)

/-- The goroutine started by `RegisterRequest requestID`, from the moment its sleep ends. -/
def timeoutWatchdog (h : ResponseHandler) (requestID : String) : Option ResponseHandler :=
  match h.pendingRequests.get requestID with
  | some ch =>
    (chanSend h ch { RequestID := requestID, Code := -1, Msg := "Request timeout" }).map
      (fun h1 => { h1 with pendingRequests := h1.pendingRequests.delete requestID })
  | none => some h

/-- The method `HandleResponse`. -/
def HandleResponse (h : ResponseHandler) (response : ResponseMessage) :
    Option ResponseHandler :=
  match h.pendingRequests.get response.RequestID with
  | some ch =>
    (chanSend h ch response).map
      (fun h1 => { h1 with pendingRequests := h1.pendingRequests.delete response.RequestID })
  | none => some h

/-- The body of the loop of `Clear`, on the entry `(id, ch)`. -/
def clearStep (h : ResponseHandler) (entry : String × Nat) : Option ResponseHandler :=
  (chanSend h entry.2 { RequestID := entry.1, Code := -1, Msg := "Connection closed" }).map
    (fun h1 => { h1 with pendingRequests := h1.pendingRequests.delete entry.1 })

/-- The loop of `Clear` over the entries still to be visited. -/
def clearLoop : List (String × Nat) → ResponseHandler → Option ResponseHandler
  | [], h => some h
  | entry :: rest, h =>
    match clearStep h entry with
    | some h1 => clearLoop rest h1
    | none => none

/-- The method `Clear`. -/
def Clear (h : ResponseHandler) : Option ResponseHandler :=
  clearLoop h.pendingRequests h

/-- The atomic steps taken on one handler. -/
inductive Op where
  | register (requestID : String)
  | response (msg : ResponseMessage)
  | watchdog (requestID : String)
  | clear
  deriving DecidableEq, Repr

/-- One step. -/
def step (h : ResponseHandler) : Op → Option ResponseHandler
  | .register requestID => some (h.RegisterRequest requestID).1
  | .response msg => h.HandleResponse msg
  | .watchdog requestID => h.timeoutWatchdog requestID
  | .clear => h.Clear

/-- A sequence of steps, from left to right; `none` when one of them blocks. -/
def run : ResponseHandler → List Op → Option ResponseHandler
  | h, [] => some h
  | h, op :: rest =>
    match step h op with
    | some h1 => run h1 rest
    | none => none

/-- The request ids registered in a sequence of steps, in order. -/
def registeredIDs : List Op → List String
  | [] => []
  | .register requestID :: rest => requestID :: registeredIDs rest
  | _ :: rest => registeredIDs rest

/-- Whether a step is one of those that answer the request `requestID`: `HandleResponse` for
that id, the watchdog of that id, or `Clear`. -/
def answers (requestID : String) : Op → Bool
  | .register _ => false
  | .response msg => decide (msg.RequestID = requestID)
  | .watchdog id => decide (id = requestID)
  | .clear => true

/-- The handler once the two statements `ch <- msg; delete(h.pendingRequests, id)` have gone
through. -/
def delivered (h : ResponseHandler) (id : String) (ch : Nat) (msg : ResponseMessage) :
    ResponseHandler :=
  { h with chans := h.chans.set ch [msg], pendingRequests := h.pendingRequests.delete id }

/-- The synthetic response written by `Clear` for the request `id`. -/
def closedResponse (id : String) : ResponseMessage :=
  { RequestID := id, Code := -1, Msg := "Connection closed" }

/-- The invariant of a handler: the registry is a well-formed map, no channel is registered
under two ids, every registered channel is empty, and no channel holds more than one
message. -/
structure Inv (h : ResponseHandler) : Prop where
  wf : h.pendingRequests.WF
  inj : (h.pendingRequests.map Prod.snd).Nodup
  empty : ∀ (id : String) (ch : Nat), (id, ch) ∈ h.pendingRequests → h.chans[ch]? = some []
  cap : ∀ (ch : Nat) (buf : List ResponseMessage), h.chans[ch]? = some buf → buf.length ≤ 1

end ResponseHandler

/-! ## Agent-side client (`openclaw/websocket_client.go`, `openclaw/protocol.go`) -/

/-- The struct `PendingRequest`. -/
structure PendingRequest where
  Method : String
  SenderID : String := ""
  ThreadID : String := ""
  IsGroup : Bool := false
  Timestamp : Int
  deriving DecidableEq, Repr

/-- The struct `MessageContext`. -/
structure MessageContext where
  SenderID : String
  ThreadID : String
  IsGroup : Bool
  Timestamp : Int
  LastText : String := ""
  deriving DecidableEq, Repr

/-- The struct `OpenclawChannel`. -/
structure OpenclawChannel where
  ID : String := ""
  ThreadID : String := ""
  PeerID : String := ""
  PeerName : String := ""
  IsGroup : Bool := false
  deriving DecidableEq, Repr

/-- The struct `OpenclawMention`. -/
structure OpenclawMention where
  ID : String
  Name : String := ""
  deriving DecidableEq, Repr

/-- The struct `OpenclawMessage`; the values of `Extra` written by the client are strings. -/
structure OpenclawMessage where
  ID : Int := 0
  Text : String := ""
  Timestamp : Int := 0
  MediaURL : String := ""
  MediaType : String := ""
  Extra : GoMap String := []
  Mentions : List OpenclawMention := []
  deriving DecidableEq, Repr

/-- The struct `OpenclawOutMessage`.  `SendMessage` reads `message.Channel` and
`message.Message` without a nil test, so the messages of the model carry both; `Session` is
the id of the `OpenclawSession`, `none` for the nil pointer. -/
structure OpenclawOutMessage where
  type : String := ""
  Channel : OpenclawChannel
  Message : OpenclawMessage
  Session : Option String := none
  deriving DecidableEq, Repr

/-- The struct `OpenclawInMessage` (`Meta` is not used by the client). -/
structure OpenclawInMessage where
  type : String := ""
  Channel : Option OpenclawChannel := none
  Message : Option OpenclawMessage := none
  Error : String := ""
  deriving DecidableEq, Repr

/-- The calls made on the `MessageHandler` of the client. -/
inductive HandlerCall where
  | OnConnected
  | OnDisconnected (code : Int) (reason : String)
  | OnResponse (response : OpenclawInMessage)
  | OnTyping (typing : OpenclawInMessage)
  | OnError (error : String)
  deriving DecidableEq, Repr

/-- The object `payload` of a decoded `res` frame: `runId` is `payload["runId"].(string)`,
`none` when the key is absent or its value is not a string. -/
structure ResponsePayload where
  runId : Option String := none
  deriving DecidableEq, Repr

/-- A decoded frame of type `res`: `id` and `ok` are `jsonMsg["id"].(string)` and
`jsonMsg["ok"].(bool)` (the zero value when absent or of another type); `payload` is
`jsonMsg["payload"].(map[string]interface{})`, `none` when that assertion fails. -/
structure ResponseFrame where
  id : String := ""
  ok : Bool := false
  payload : Option ResponsePayload := none
  deriving DecidableEq, Repr

/-- The object `payload["data"]` of an `agent` event; a field is `none` when the key is
absent or its value is not a string. -/
structure AgentData where
  text : Option String := none
  phase : Option String := none
  deriving DecidableEq, Repr

/-- The object `payload` of an `agent` event. -/
structure AgentPayload where
  runId : Option String := none
  stream : Option String := none
  data : Option AgentData := none
  deriving DecidableEq, Repr

/-- A decoded `agent` event; `payload` is `none` when `jsonMsg["payload"]` is not an
object. -/
structure AgentEvent where
  payload : Option AgentPayload := none
  deriving DecidableEq, Repr

/-- The object `payload` of a `chat` event. -/
structure ChatPayload where
  runId : Option String := none
  state : Option String := none
  deriving DecidableEq, Repr

/-- A decoded `chat` event. -/
structure ChatEvent where
  payload : Option ChatPayload := none
  deriving DecidableEq, Repr

/-- The struct `Attachment`. -/
structure Attachment where
  type : String
  URL : String
  deriving DecidableEq, Repr

/-- The struct `ChatSendParams`; the field `IdempotencyKey`, a fresh uuid, is left out. -/
structure ChatSendParams where
  SessionKey : String
  Message : String
  Attachments : List Attachment := []
  deriving DecidableEq, Repr

/-- The struct `ClientInfo`. -/
structure ClientInfo where
  ID : String
  Version : String
  Platform : String
  Mode : String
  deriving DecidableEq, Repr

/-- The struct `ConnectParams`; `Auth` is the token of the `AuthInfo`, `none` for the nil
pointer. -/
structure ConnectParams where
  MinProtocol : Nat
  MaxProtocol : Nat
  Client : ClientInfo
  Role : String
  Scopes : List String
  Auth : Option String
  UserAgent : String
  deriving DecidableEq, Repr

/-- The values stored in the field `Params` of a `RequestMessage` by the client. -/
inductive RequestParams where
  | chatSend (params : ChatSendParams)
  | connect (params : ConnectParams)
  deriving DecidableEq, Repr

/-- The struct `RequestMessage`.  The bytes handed to `c.send` are the JSON text of such a
value; the model keeps the value. -/
structure RequestMessage where
  type : String
  ID : String
  Method : String
  Params : RequestParams
  deriving DecidableEq, Repr

/-- The ways in which a call of the program fails to return: a run-time panic, or a channel
send that blocks for ever. -/
inductive Fault where
  | nilDereference
  | closeOfClosedChannel
  | blocksForever
  deriving DecidableEq, Repr

/-- The capacity of the channel `sendChan` made by `NewWebSocketClient`. -/
def sendChanCapacity : Nat := 100

/-- The struct `WebSocketClient`: `hasHandler` is `messageHandler != nil`,
`sessionContextMgr` is `none` for a nil tracker, `isAuthenticated` and `isOpen` are the two
flags, `token` is `c.config.Token`, `conn` is `c.conn != nil`, `sendChan` holds the frames
queued for the write loop, oldest first, and `stopChanClosed`, `heartbeatStopChanClosed` say
whether `close` has been called on the two stop channels.  The logger and the heartbeat time
are left out. -/
structure WebSocketClient where
  hasHandler : Bool
  sessionContextMgr : Option ContextManager
  isAuthenticated : Bool
  pendingRequests : GoMap PendingRequest
  messageContexts : GoMap MessageContext
  token : String := ""
  conn : Bool := false
  isOpen : Bool := false
  sendChan : List RequestMessage := []
  stopChanClosed : Bool := false
  heartbeatStopChanClosed : Bool := false
  deriving DecidableEq, Repr

/-- What a method of the client does to the world outside its own fields, in order: the
closing of a stop channel, the close frame written to the connection, the closing of the
connection, and the calls on the `MessageHandler`. -/
inductive Effect where
  | closeStopChan
  | closeHeartbeatStopChan
  | writeCloseMessage
  | closeConn
  | handler (call : HandlerCall)
  deriving DecidableEq, Repr

/-- The constructor `NewWebSocketClient`, for the token of the configuration, a handler
that is nil or not, and the tracker. -/
def NewWebSocketClient (token : String) (hasHandler : Bool)
    (sessionMgr : Option ContextManager) : WebSocketClient :=
  { hasHandler := hasHandler, sessionContextMgr := sessionMgr, isAuthenticated := false,
    pendingRequests := [], messageContexts := [], token := token }

namespace WebSocketClient

/-- The calls `if c.messageHandler != nil { ... }`. -/
def notify (c : WebSocketClient) (call : HandlerCall) : List HandlerCall :=
  if c.hasHandler then [call] else []

/-- The method `IsAuthenticated`. -/
def IsAuthenticated (c : WebSocketClient) : Bool := c.isAuthenticated

/-- The method `send`: the frame joins the queue when the queue has room.  On a full queue
the call waits for five seconds and then drops the frame with a warning; a call that gets
room in time is a call made after the step of the write loop that made the room. -/
def send (c : WebSocketClient) (data : RequestMessage) : WebSocketClient :=
  if c.sendChan.length < sendChanCapacity then { c with sendChan := c.sendChan ++ [data] }
  else c

/-- The method `Connect`; `dial` is the result of `dialer.Dial`, `none` for success and the
error text otherwise.  The two loops started on success are the other steps of the client. -/
def Connect (c : WebSocketClient) (dial : Option String) : Except String WebSocketClient :=
  if c.isOpen then .error "already connected"
  else
    match dial with
    | some err => .error ("failed to connect: " ++ err)
    | none => .ok { c with conn := true, isOpen := true }

/-- The method `CloseConnection`: the client afterwards and what the call released, or the
panic of `close` on a channel that is closed already. -/
def CloseConnection (c : WebSocketClient) : Except Fault (WebSocketClient × List Effect) :=
  if !c.isOpen then .ok (c, [])
  else if c.stopChanClosed || c.heartbeatStopChanClosed then .error .closeOfClosedChannel
  else
    let c1 := { c with isOpen := false, isAuthenticated := false, stopChanClosed := true,
                       heartbeatStopChanClosed := true }
    if c.conn then
      .ok ({ c1 with conn := false },
           [.closeStopChan, .closeHeartbeatStopChan, .writeCloseMessage, .closeConn])
    else .ok (c1, [.closeStopChan, .closeHeartbeatStopChan])

/-- The end of `readLoop` when `conn.ReadMessage` fails with the error text `err`: the
handler is told of the error, the loop returns, and the deferred `CloseConnection` runs. -/
def readLoopFailure (c : WebSocketClient) (err : String) :
    Except Fault (WebSocketClient × List Effect) :=
  match c.CloseConnection with
  | .ok (c1, released) => .ok (c1, (c.notify (.OnError err)).map Effect.handler ++ released)
  | .error fault => .error fault

/-- The method `SendMessage`; `requestID` is the fresh `uuid.New().String()` and `now` the
clock.  The result is the error text or the client afterwards. -/
def SendMessage (c : WebSocketClient) (now : Int) (requestID : String)
    (message : OpenclawOutMessage) (senderID : String) : Except String WebSocketClient :=
  if !c.isAuthenticated then .error "not authenticated"
  else
    let mgr :=
      match c.sessionContextMgr with
      | some m =>
        if senderID ≠ "" then
          let threadID :=
            if message.Channel.ThreadID = "" then senderID else message.Channel.ThreadID
          some (m.RegisterSession now DefaultSessionKey senderID threadID
            message.Channel.IsGroup)
        else some m
      | none => none
    let params : ChatSendParams :=
      { SessionKey := "main", Message := message.Message.Text,
        Attachments :=
          if message.Message.MediaURL ≠ "" then
            [{ type := message.Message.MediaType, URL := message.Message.MediaURL }]
          else [] }
    let req : RequestMessage :=
      { type := "req", ID := requestID, Method := "chat.send", Params := .chatSend params }
    let pending : PendingRequest :=
      { Method := "chat.send", SenderID := senderID, ThreadID := message.Channel.ThreadID,
        IsGroup := message.Channel.IsGroup, Timestamp := now }
    .ok (send { c with sessionContextMgr := mgr,
                       pendingRequests := c.pendingRequests.set requestID pending } req)

/-- The method `sendConnectRequest`; `requestID` is the fresh uuid and `now` the clock. -/
def sendConnectRequest (c : WebSocketClient) (now : Int) (requestID : String) :
    WebSocketClient :=
  let params : ConnectParams :=
    { MinProtocol := 3, MaxProtocol := 3,
      Client := { ID := "cli", Version := "1.0.0", Platform := "go", Mode := "cli" },
      Role := "operator", Scopes := ["operator.read", "operator.write"],
      Auth := if c.token ≠ "" then some c.token else none,
      UserAgent := "openclaw-adapter/1.0.0" }
  let req : RequestMessage :=
    { type := "req", ID := requestID, Method := "connect", Params := .connect params }
  let pending : PendingRequest := { Method := "connect", Timestamp := now }
  send { c with pendingRequests := c.pendingRequests.set requestID pending } req

/-- The method `handleChallenge`. -/
def handleChallenge (c : WebSocketClient) (now : Int) (requestID : String) :
    WebSocketClient :=
  c.sendConnectRequest now requestID

/-- The method `handleResponse`. -/
def handleResponse (c : WebSocketClient) (now : Int) (frame : ResponseFrame) :
    WebSocketClient × List HandlerCall :=
  match c.pendingRequests.get frame.id with
  | none => (c, [])
  | some pending =>
    if pending.Method = "connect" then
      let c1 := { c with pendingRequests := c.pendingRequests.delete frame.id }
      if frame.ok then
        ({ c1 with isAuthenticated := true }, c.notify .OnConnected)
      else
        (c1, c.notify (.OnError "Authentication failed"))
    else if pending.Method = "chat.send" then
      let c1 := { c with pendingRequests := c.pendingRequests.delete frame.id }
      match frame.payload with
      | some payload =>
        match payload.runId with
        | some runID =>
          let context : MessageContext :=
            { SenderID := pending.SenderID, ThreadID := pending.ThreadID,
              IsGroup := pending.IsGroup, Timestamp := now }
          ({ c1 with
              messageContexts := c1.messageContexts.set runID context,
              sessionContextMgr :=
                c1.sessionContextMgr.map (fun m => m.AssociateRunID runID DefaultSessionKey) },
           [])
        | none => (c1, [])
      | none => (c1, [])
    else (c, [])

/-- The lookup at the head of `handleAgentEvent` ("Get context"): the context found for
`runID`, if any, and the map of message contexts after the lookup (a context built from the
tracker is stored under `runID`). -/
def lookupContext (c : WebSocketClient) (now : Int) (runID : String) :
    Option MessageContext × GoMap MessageContext :=
  match c.messageContexts.get runID with
  | some context => (some context, c.messageContexts)
  | none =>
    match c.sessionContextMgr with
    | none => (none, c.messageContexts)
    | some m =>
      let sessionCtx :=
        match m.GetContextByRunID runID with
        | some s => some s
        | none => m.GetDefaultSessionContext
      match sessionCtx with
      | some s =>
        let context : MessageContext :=
          { SenderID := s.SenderID, ThreadID := s.ThreadID, IsGroup := s.IsGroup,
            Timestamp := now }
        (some context, c.messageContexts.set runID context)
      | none => (none, c.messageContexts)

/-- The text read from `payload["data"]["text"]` (empty when absent). -/
def eventText (payload : AgentPayload) : String :=
  match payload.data with
  | some data => data.text.getD ""
  | none => ""

/-- The state computed by `handleAgentEvent` from `phase` and `stream`. -/
def eventState (payload : AgentPayload) : String :=
  let state :=
    match payload.data with
    | some data =>
      match data.phase with
      | some phase =>
        if phase = "start" then "start" else if phase = "end" then "completed" else ""
      | none => ""
    | none => ""
  if payload.stream.getD "" = "assistant" ∧ state = "" then "generating" else state

/-- The method `handleAgentEvent`. -/
def handleAgentEvent (c : WebSocketClient) (now : Int) (event : AgentEvent) :
    WebSocketClient × List HandlerCall :=
  match event.payload with
  | none => (c, [])
  | some payload =>
    let runID := payload.runId.getD ""
    if runID = "" then (c, [])
    else
      match c.lookupContext now runID with
      | (none, _) => (c, [])
      | (some context0, contexts0) =>
        let text0 := eventText payload
        let state := eventState payload
        let context :=
          if text0 ≠ "" then { context0 with LastText := text0 } else context0
        let contexts1 := if text0 ≠ "" then contexts0.set runID context else contexts0
        let text :=
          if state = "completed" ∧ text0 = "" ∧ context.LastText ≠ "" then context.LastText
          else text0
        let response : OpenclawInMessage :=
          { type := "streaming",
            Channel := some { PeerID := context.SenderID, ThreadID := context.ThreadID,
                              IsGroup := context.IsGroup },
            Message := some { Text := text,
                              Extra := [("streamId", runID), ("state", state)] } }
        let contexts2 := if state = "completed" then contexts1.delete runID else contexts1
        ({ c with messageContexts := contexts2 }, c.notify (.OnResponse response))

/-- The method `handleChatEvent`. -/
def handleChatEvent (c : WebSocketClient) (event : ChatEvent) : WebSocketClient :=
  match event.payload with
  | none => c
  | some payload =>
    let runID := payload.runId.getD ""
    let state := payload.state.getD ""
    if state = "final" ∨ state = "error" then
      { c with messageContexts := c.messageContexts.delete runID }
    else c

/-- The body of the loop of `cleanupExpiredContexts`, on the entry `(id, ctx)`. -/
def expireContextStep (now : Int) (acc : GoMap MessageContext)
    (entry : String × MessageContext) : GoMap MessageContext :=
  if subInt64 now entry.2.Timestamp > 5 * 60 * 1000 then acc.delete entry.1 else acc

/-- The method `cleanupExpiredContexts`. -/
def cleanupExpiredContexts (c : WebSocketClient) (now : Int) : WebSocketClient :=
  { c with messageContexts := c.messageContexts.foldl (expireContextStep now) c.messageContexts }

/-- What happens on the client between two events of interest. -/
inductive Op where
  | send (now : Int) (requestID : String) (message : OpenclawOutMessage) (senderID : String)
  | response (now : Int) (frame : ResponseFrame)
  | agent (now : Int) (event : AgentEvent)
  | chat (event : ChatEvent)
  | cleanup (now : Int)
  deriving DecidableEq, Repr

/-- One step of the client; a `SendMessage` that returns an error changes nothing. -/
def step (c : WebSocketClient) : Op → WebSocketClient
  | .send now requestID message senderID =>
    match c.SendMessage now requestID message senderID with
    | .ok c1 => c1
    | .error _ => c
  | .response now frame => (c.handleResponse now frame).1
  | .agent now event => (c.handleAgentEvent now event).1
  | .chat event => c.handleChatEvent event
  | .cleanup now => c.cleanupExpiredContexts now

/-- A sequence of steps, from left to right. -/
def run (c : WebSocketClient) (ops : List Op) : WebSocketClient :=
  ops.foldl step c

/-- Whether a step is the response that reveals the run id `runID`. -/
def reveals (runID : String) : Op → Bool
  | .response _ frame =>
    match frame.payload with
    | some payload => decide (payload.runId = some runID)
    | none => false
  | _ => false

/-- An `agent` event for the run `runID` with the given text and phase. -/
def agentEventOf (runID : String) (stream : Option String) (text phase : Option String) :
    AgentEvent :=
  { payload := some { runId := some runID, stream := stream,
                      data := some { text := text, phase := phase } } }

/-- The texts carried by the agent events of the run `runID` among the steps `ops`, in
their order of arrival (the empty text for an event without text). -/
def runTexts (runID : String) (ops : List Op) : List String :=
  ops.filterMap (fun op =>
    match op with
    | .agent _ event =>
      match event.payload with
      | some payload =>
        if payload.runId = some runID then some (eventText payload) else none
      | none => none
    | _ => none)

/-- The last non-empty text among a list of texts, if there is one. -/
def lastNonEmpty (texts : List String) : Option String :=
  texts.foldl (fun acc t => if t ≠ "" then some t else acc) none

/-- Whether the message context of the run `runID` is present in the state `c` and in every
state reached along the steps `ops`: the context is never removed on the way. -/
def contextKept (runID : String) : WebSocketClient → List Op → Bool
  | c, [] => (c.messageContexts.get runID).isSome
  | c, op :: rest => (c.messageContexts.get runID).isSome && contextKept runID (c.step op) rest

/-- The text and the state carried by a reply. -/
def replyTextState (response : OpenclawInMessage) : Option (String × Option String) :=
  response.Message.map (fun m => (m.Text, m.Extra.get "state"))

end WebSocketClient

/-! ## Gateway-side client (`sdk/client/websocket_client.go`, `sdk/client/connection_manager.go`) -/

/-- The struct `protocol.ConnectMessage`; `Code` is `none` for the nil pointer. -/
structure ConnectMessage where
  type : String := "connect"
  RobotID : String := ""
  Secret : String := ""
  Code : Option Int := none
  Msg : String := ""
  deriving DecidableEq, Repr

/-- The method `IsSuccess` of `ConnectMessage`. -/
def ConnectMessage.IsSuccess (c : ConnectMessage) : Bool :=
  match c.Code with
  | some code => code == 0
  | none => false

/-- The constructor `protocol.NewConnectRequest`. -/
def NewConnectRequest (robotID secret : String) : ConnectMessage :=
  { type := "connect", RobotID := robotID, Secret := secret }

/-- The frames queued by the gateway-side client: the JSON text of a
`protocol.RequestMessage`, whose parameters are kept as uninterpreted texts, or of a
`protocol.ConnectMessage`. -/
inductive GatewayFrame where
  | request (RequestID Method : String) (Params : List String)
  | connect (msg : ConnectMessage)
  deriving DecidableEq, Repr

/-- What the gateway-side client and its manager do outside their own fields, in order:
goroutines started, channels closed, frames written to the connection, the connection
closed, the call of `connManager.onDisconnected`, and the call of
`messageHandler.OnConnectionChanged`. -/
inductive GatewayEffect where
  | startLoops
  | startHeartbeat
  | stopHeartbeat
  | reauthenticate
  | scheduleReconnect
  | closeStopChan
  | writeCloseMessage
  | closeConn
  | onDisconnected
  | connectionChanged (connected : Bool)
  deriving DecidableEq, Repr

/-- The flags and credentials of the struct `ConnectionManager`; `hasHandler` is
`messageHandler != nil`.  The client of the manager is the `RobotGatewayClient` that holds
it, and the two stop channels of the manager are open whenever a method starts. -/
structure ConnectionManager where
  hasHandler : Bool
  running : Bool := false
  connected : Bool := false
  authenticated : Bool := false
  robotID : String := ""
  robotSecret : String := ""
  deriving DecidableEq, Repr

namespace ConnectionManager

/-- The method `IsAuthenticated`. -/
def IsAuthenticated (cm : ConnectionManager) : Bool := cm.authenticated

/-- The method `IsRunning`. -/
def IsRunning (cm : ConnectionManager) : Bool := cm.running

/-- The method `GetRobotID`. -/
def GetRobotID (cm : ConnectionManager) : String := cm.robotID

/-- The method `clearCredentials`. -/
def clearCredentials (cm : ConnectionManager) : ConnectionManager :=
  { cm with robotID := "", robotSecret := "" }

/-- The method `scheduleReconnect`: the goroutine it starts, if any. -/
def scheduleReconnect (cm : ConnectionManager) : List GatewayEffect :=
  if !cm.IsRunning then [] else [.scheduleReconnect]

/-- The calls `if cm.messageHandler != nil { cm.messageHandler.OnConnectionChanged(..) }`. -/
def notify (cm : ConnectionManager) (connected : Bool) : List GatewayEffect :=
  if cm.hasHandler then [.connectionChanged connected] else []

/-- The method `onConnected`. -/
def onConnected (cm : ConnectionManager) : ConnectionManager × List GatewayEffect :=
  let cm1 := { cm with connected := true }
  if cm1.robotID ≠ "" && cm1.robotSecret ≠ "" && !cm1.IsAuthenticated then
    (cm1, [.reauthenticate])
  else (cm1, [])

/-- The method `onAuthenticated`. -/
def onAuthenticated (cm : ConnectionManager) : ConnectionManager × List GatewayEffect :=
  ({ cm with authenticated := true }, cm.notify true)

/-- The method `onAuthenticationFailed`. -/
def onAuthenticationFailed (cm : ConnectionManager) :
    ConnectionManager × List GatewayEffect :=
  ({ cm.clearCredentials with authenticated := false, running := false },
   .stopHeartbeat :: cm.notify false)

/-- The method `onDisconnected`. -/
def onDisconnected (cm : ConnectionManager) : ConnectionManager × List GatewayEffect :=
  let wasAuthenticated := cm.IsAuthenticated
  let cm1 := { cm with connected := false, authenticated := false }
  let changed := if wasAuthenticated then cm1.notify false else []
  let hasCreds := cm1.robotID ≠ "" && cm1.robotSecret ≠ ""
  if cm1.IsRunning && hasCreds then (cm1, changed ++ cm1.scheduleReconnect)
  else (cm1, changed)

end ConnectionManager

/-- The struct `RobotGatewayClient`: `connManager` is `none` for the nil pointer, `conn` is
`c.conn != nil`, `sendChan` holds the frames queued for the write loop, oldest first.  The
channel `stopChan` is open whenever a method starts (`Close` replaces it after closing it);
the handler of the client is never nil; the channel `authFuture` is left out. -/
structure RobotGatewayClient where
  connManager : Option ConnectionManager
  responseHandler : ResponseHandler := NewResponseHandler
  conn : Bool := false
  isOpen : Bool := false
  isAuth : Bool := false
  sendChan : List GatewayFrame := []
  deriving DecidableEq, Repr

/-- The constructor `NewRobotGatewayClient`. -/
def NewRobotGatewayClient (connManager : Option ConnectionManager) : RobotGatewayClient :=
  { connManager := connManager }

namespace RobotGatewayClient

/-- The method `IsOpen`. -/
def IsOpen (c : RobotGatewayClient) : Bool := c.isOpen

/-- The method `IsAuthenticated`. -/
def IsAuthenticated (c : RobotGatewayClient) : Bool := c.isAuth

/-- The method `setAuthenticated`. -/
def setAuthenticated (c : RobotGatewayClient) (auth : Bool) : RobotGatewayClient :=
  { c with isAuth := auth }

/-- The method `send`, on a queue of capacity 100: as for the agent-side client, the frame
is dropped when the queue is full. -/
def send (c : RobotGatewayClient) (data : GatewayFrame) : RobotGatewayClient :=
  if c.sendChan.length < 100 then { c with sendChan := c.sendChan ++ [data] } else c

/-- A callback of the manager, run on the manager of the client when there is one. -/
def callManager (c : RobotGatewayClient)
    (callback : ConnectionManager → ConnectionManager × List GatewayEffect) :
    RobotGatewayClient × List GatewayEffect :=
  match c.connManager with
  | some cm => ({ c with connManager := some (callback cm).1 }, (callback cm).2)
  | none => (c, [])

/-- The method `Connect`; `dial` is the result of `dialer.Dial`, `none` for success. -/
def Connect (c : RobotGatewayClient) (dial : Option String) :
    Except String (RobotGatewayClient × List GatewayEffect) :=
  if c.isOpen then .error "already connected"
  else
    match dial with
    | some err => .error ("failed to connect: " ++ err)
    | none =>
      let c1 := { c with conn := true, isOpen := true }
      .ok ((c1.callManager ConnectionManager.onConnected).1,
           .startLoops :: (c1.callManager ConnectionManager.onConnected).2)

/-- The method `Close`; `none` when `responseHandler.Clear` blocks. -/
def Close (c : RobotGatewayClient) : Option (RobotGatewayClient × List GatewayEffect) :=
  if !c.isOpen then some (c, [])
  else
    match c.responseHandler.Clear with
    | none => none
    | some h =>
      let c1 := { c with isOpen := false, responseHandler := h }
      let released : List GatewayEffect :=
        if c1.conn then [.closeStopChan, .writeCloseMessage, .closeConn] else [.closeStopChan]
      let c2 := { c1 with conn := false }
      match c2.connManager with
      | some cm =>
        some ({ c2 with connManager := some cm.onDisconnected.1 },
              released ++ .onDisconnected :: cm.onDisconnected.2)
      | none => some (c2, released)

/-- The method `SendConnect`. -/
def SendConnect (c : RobotGatewayClient) (robotID secret : String) : RobotGatewayClient :=
  c.send (.connect (NewConnectRequest robotID secret))

/-- The method `SendRequest`; `requestID` is the fresh uuid.  The result is the error text,
or the client afterwards with the channel returned. -/
def SendRequest (c : RobotGatewayClient) (requestID method : String) (params : List String) :
    Except String (RobotGatewayClient × Nat) :=
  if !c.IsAuthenticated then .error "not authenticated"
  else
    let c1 := { c with responseHandler := (c.responseHandler.RegisterRequest requestID).1 }
    .ok (c1.send (.request requestID method params),
         (c.responseHandler.RegisterRequest requestID).2)

/-- The method `handleConnectResponse`. -/
def handleConnectResponse (c : RobotGatewayClient) (msg : ConnectMessage) :
    RobotGatewayClient × List GatewayEffect :=
  if msg.IsSuccess then
    (c.setAuthenticated true).callManager ConnectionManager.onAuthenticated
  else
    (c.setAuthenticated false).callManager ConnectionManager.onAuthenticationFailed

end RobotGatewayClient

/-- What the gateway does while `ConnectWithTimeout` runs: it cannot be reached (every dial
fails with the error text), or it accepts the connection and then either stays silent until
the timeout or answers the connect request with `protocol.NewConnectResponse(code, msg)`. -/
inductive GatewayBehaviour where
  | unreachable (err : String)
  | silent
  | answers (code : Int) (msg : String)
  deriving DecidableEq, Repr

/-- The result of `dialer.Dial` against a gateway. -/
def GatewayBehaviour.dial : GatewayBehaviour → Option String
  | .unreachable err => some err
  | _ => none

/-- The constructor `protocol.NewConnectResponse`. -/
def NewConnectResponse (code : Int) (msg : String) : ConnectMessage :=
  { type := "connect", Code := some code, Msg := msg }

namespace ConnectionManager

/-! The methods of the manager that call into its client.  The manager `cm` and its client
point at each other; the pair is the client value `c`, with `c.connManager = some cm`. -/

/-- The method `IsConnected`. -/
def IsConnected (c : RobotGatewayClient) : Bool :=
  match c.connManager with
  | some cm => cm.connected && c.IsOpen
  | none => false

/-- The method `IsRunning`, read through the client. -/
def running? (c : RobotGatewayClient) : Bool :=
  match c.connManager with
  | some cm => cm.IsRunning
  | none => false

/-- The method `IsAuthenticated`, read through the client. -/
def authenticated? (c : RobotGatewayClient) : Bool :=
  match c.connManager with
  | some cm => cm.IsAuthenticated
  | none => false

/-- The method `connect`. -/
def connect (c : RobotGatewayClient) (dial : Option String) :
    RobotGatewayClient × List GatewayEffect :=
  match c.connManager with
  | none => (c, [])
  | some cm =>
    if !cm.IsRunning then (c, [])
    else
      match c.Connect dial with
      | .ok r => r
      | .error _ => (c, cm.scheduleReconnect)

/-- The method `Start`. -/
def Start (c : RobotGatewayClient) (dial : Option String) :
    RobotGatewayClient × List GatewayEffect :=
  match c.connManager with
  | none => (c, [])
  | some cm =>
    if cm.running then (c, [])
    else
      let c1 := { c with connManager := some { cm with running := true } }
      ((connect c1 dial).1, .startHeartbeat :: (connect c1 dial).2)

/-- The method `Stop`; `none` when `Close` blocks. -/
def Stop (c : RobotGatewayClient) : Option (RobotGatewayClient × List GatewayEffect) :=
  match c.connManager with
  | none => some (c, [])
  | some cm =>
    if !cm.running then some (c, [])
    else
      let cm1 := { cm with running := false, authenticated := false }.clearCredentials
      match { c with connManager := some cm1 }.Close with
      | some (c1, effects) => some (c1, .stopHeartbeat :: effects)
      | none => none

/-- The statements `cm.robotID = robotID; cm.robotSecret = secret` of `ConnectWithTimeout`. -/
def storeCredentials (c : RobotGatewayClient) (robotID secret : String) :
    RobotGatewayClient :=
  { c with connManager :=
      c.connManager.map (fun cm => { cm with robotID := robotID, robotSecret := secret }) }

/-- The method `ConnectWithTimeout` against a gateway of the given behaviour: the pair
afterwards, the boolean returned and the effects; `none` when `Close` blocks.  No other
goroutine changes the flags meanwhile: so the wait for the connection, once entered, ends
with the timeout, and the poll for the authentication sees the flag as it is after
`SendConnect` or, when the gateway answers, after the read loop has handled the answer. -/
def ConnectWithTimeout (c : RobotGatewayClient) (robotID secret : String)
    (gateway : GatewayBehaviour) : Option (RobotGatewayClient × Bool × List GatewayEffect) :=
  let started := Start c gateway.dial
  if !IsConnected started.1 && running? started.1 then
    (Stop started.1).map (fun r => (r.1, false, started.2 ++ r.2))
  else
    let c2 := started.1.SendConnect robotID secret
    if authenticated? c2 then some (storeCredentials c2 robotID secret, true, started.2)
    else
      match gateway with
      | .answers code msg =>
        let handled := c2.handleConnectResponse (NewConnectResponse code msg)
        if authenticated? handled.1 then
          some (storeCredentials handled.1 robotID secret, true, started.2 ++ handled.2)
        else
          (Stop handled.1).map (fun r => (r.1, false, started.2 ++ handled.2 ++ r.2))
      | _ => (Stop c2).map (fun r => (r.1, false, started.2 ++ r.2))

end ConnectionManager

/-- The struct `RobotServiceClient`: `connectionManager` is the manager with its client. -/
structure RobotServiceClient where
  connectionManager : RobotGatewayClient
  timeout : Nat
  deriving DecidableEq, Repr

/-- The constructor `NewRobotServiceClient`, for a handler that is nil or not. -/
def NewRobotServiceClient (hasHandler : Bool) : RobotServiceClient :=
  { connectionManager := NewRobotGatewayClient (some { hasHandler := hasHandler }),
    timeout := 30 * 1000000000 }

namespace RobotServiceClient

/-- The method `Connect`. -/
def Connect (c : RobotServiceClient) (robotID secret : String) (gateway : GatewayBehaviour) :
    Option (RobotServiceClient × Bool × List GatewayEffect) :=
  (ConnectionManager.ConnectWithTimeout c.connectionManager robotID secret gateway).map
    (fun r => ({ c with connectionManager := r.1 }, r.2.1, r.2.2))

/-- The method `GetRobotID`. -/
def GetRobotID (c : RobotServiceClient) : String :=
  match c.connectionManager.connManager with
  | some cm => cm.GetRobotID
  | none => ""

/-- The method `Close`. -/
def Close (c : RobotServiceClient) : Option (RobotServiceClient × List GatewayEffect) :=
  (ConnectionManager.Stop c.connectionManager).map
    (fun r => ({ c with connectionManager := r.1 }, r.2))

end RobotServiceClient

/-! ## Push messages, configuration and filters
(`sdk/protocol/types.go`, `config/config.go`, `filter/whitelist_filter.go`,
`filter/group_filter.go`) -/

/-- The function `strings.HasPrefix`. -/
def startsWith (s pre : String) : Bool := pre.toList.isPrefixOf s.toList

/-- The function `strings.HasSuffix`. -/
def endsWith (s suf : String) : Bool := suf.toList.isSuffixOf s.toList

/-- The function `strings.Contains`. -/
def containsText (s sub : String) : Bool :=
  s.toList.tails.any (fun t => sub.toList.isPrefixOf t)

/-- The struct `protocol.Conversation`. -/
structure Conversation where
  type : Int
  Target : String
  Line : Int := 0
  deriving DecidableEq, Repr

/-- A value found in a decoded JSON object: a number, given as the integer that the Go
conversions `int(v)` and `int64(v)` make of it, a string, or anything else. -/
inductive JsonValue where
  | number (truncated : Int)
  | text (s : String)
  | other
  deriving DecidableEq, Repr

/-- The struct `protocol.MessagePayload`, with the fields that the adapter reads.
`decodedExtra` is what `json.Unmarshal` makes of a non-empty `Extra`: the object, or `none`
when `Extra` is not the text of a JSON object. -/
structure MessagePayload where
  type : Int
  SearchableContent : String := ""
  Content : String := ""
  RemoteMediaURL : String := ""
  Extra : String := ""
  decodedExtra : Option (GoMap JsonValue) := none
  deriving DecidableEq, Repr

/-- The struct `protocol.OutputMessageData`, with the fields that the adapter reads. -/
structure OutputMessageData where
  Sender : String
  Conv : Option Conversation
  Payload : Option MessagePayload
  Timestamp : Int := 0
  deriving DecidableEq, Repr

/-- The struct `protocol.PushMessage`. -/
structure PushMessage where
  type : String := "message"
  Data : Option OutputMessageData
  deriving DecidableEq, Repr

/-- The struct `config.WildfireConfig`: the credentials. -/
structure WildfireConfig where
  RobotID : String
  RobotSecret : String
  deriving DecidableEq, Repr

/-- The struct `config.OpenclawConfig`: the token. -/
structure OpenclawConfig where
  Token : String
  deriving DecidableEq, Repr

/-- The struct `config.GroupConfig`. -/
structure GroupConfig where
  Enabled : Bool := true
  AllowedIDs : List String := []
  RespondOnMention : Bool := true
  RespondOnQuestion : Bool := true
  HelpKeywords : List String := []
  deriving DecidableEq, Repr

/-- The struct `config.WhitelistConfig`. -/
structure WhitelistConfig where
  Enabled : Bool := false
  AllowedSenders : List String := []
  AllowedGroups : List String := []
  BlockedSenders : List String := []
  BlockedGroups : List String := []
  deriving DecidableEq, Repr

/-- The struct `config.Config`, with the parts that the bridge reads. -/
structure Config where
  Wildfire : WildfireConfig
  Openclaw : OpenclawConfig
  Group : GroupConfig := { }
  Whitelist : WhitelistConfig := { }
  deriving DecidableEq, Repr

/-- The method `WhitelistFilter.ShouldProcess`, on the configuration of the filter. -/
def WhitelistConfig.ShouldProcess (f : WhitelistConfig) (senderID targetID : String)
    (isGroup : Bool) : Bool :=
  if !f.Enabled then true
  else if f.BlockedSenders.any (fun blocked => blocked == senderID) then false
  else if isGroup && f.BlockedGroups.any (fun blocked => blocked == targetID) then false
  else if f.AllowedSenders.length == 0 && f.AllowedGroups.length == 0 then true
  else
    let senderAllowed :=
      f.AllowedSenders.length == 0 || f.AllowedSenders.any (fun allowed => allowed == senderID)
    if !senderAllowed then false
    else if isGroup then
      let groupAllowed :=
        f.AllowedGroups.length == 0 || f.AllowedGroups.any (fun allowed => allowed == targetID)
      if !groupAllowed then false else true
    else true

/-- The method `GroupFilter.containsMention`. -/
def GroupConfig.containsMention (msg : OpenclawOutMessage) (botID : String) : Bool :=
  if msg.Message.Mentions.any (fun mention => mention.ID == botID) then true
  else if containsText msg.Message.Text ("@" ++ botID) then true
  else false

/-- The method `GroupFilter.ShouldRespond`, on the configuration of the filter and a message
that is not nil. -/
def GroupConfig.ShouldRespond (f : GroupConfig) (msg : OpenclawOutMessage) (botID : String) :
    Bool :=
  if !msg.Channel.IsGroup then true
  else if !f.Enabled then true
  else if f.AllowedIDs.length > 0
      && !f.AllowedIDs.any (fun id => id == msg.Channel.ThreadID) then false
  else
    let text := msg.Message.Text
    if f.RespondOnMention && botID ≠ "" && GroupConfig.containsMention msg botID then true
    else if f.RespondOnQuestion && (endsWith text "?" || endsWith text "？") then true
    else if f.HelpKeywords.any (fun keyword => containsText text keyword) then true
    else false

/-! ## Message converter (`converter/message_converter.go`) -/

namespace MessageConverter

/-- The method `parseExtraJSON`, on the payload that holds the text `extra`. -/
def parseExtraJSON (payload : MessagePayload) : Option (GoMap JsonValue) :=
  if payload.Extra = "" then none else payload.decodedExtra

/-- The methods `getIntFromExtraObj` and `getInt64FromExtraObj`. -/
def getIntFromExtraObj (extraJSON : Option (GoMap JsonValue)) (field : String)
    (defaultVal : Int) : Int :=
  match extraJSON with
  | none => defaultVal
  | some obj =>
    match obj.get field with
    | some (.number v) => v
    | _ => defaultVal

/-- The method `getIntFromExtra`. -/
def getIntFromExtra (payload : MessagePayload) (field : String) (defaultVal : Int) : Int :=
  getIntFromExtraObj (parseExtraJSON payload) field defaultVal

/-- The method `hasExtraField`. -/
def hasExtraField (extraJSON : Option (GoMap JsonValue)) (field : String) : Bool :=
  match extraJSON with
  | none => false
  | some obj => (obj.get field).isSome

/-- The text that the verb `%.2f` gives for the quotient `num / den`: two decimals, rounded
to nearest, ties to even. -/
def fixed2 (num den : Nat) : String :=
  let q := num * 100 / den
  let r := num * 100 % den
  let rounded := if 2 * r > den || (2 * r == den && q % 2 == 1) then q + 1 else q
  toString (rounded / 100) ++ "." ++ (if rounded % 100 < 10 then "0" else "")
    ++ toString (rounded % 100)

/-- The method `formatFileSize`, for the sizes that `float64` holds exactly. -/
def formatFileSize (size : Int) : String :=
  if size ≤ 0 then "未知"
  else if size < 1024 then toString size ++ "B"
  else if size < 1024 * 1024 then fixed2 size.toNat 1024 ++ "KB"
  else if size < 1024 * 1024 * 1024 then fixed2 size.toNat (1024 * 1024) ++ "MB"
  else fixed2 size.toNat (1024 * 1024 * 1024) ++ "GB"

/-- The method `extractMediaURL`. -/
def extractMediaURL (payload : MessagePayload) : String :=
  if payload.RemoteMediaURL ≠ "" then payload.RemoteMediaURL
  else
    match (parseExtraJSON payload).bind (fun obj => obj.get "url") with
    | some (.text url) => url
    | _ =>
      if payload.Extra ≠ ""
          && (startsWith payload.Extra "http://" || startsWith payload.Extra "https://") then
        payload.Extra
      else ""

/-- The method `extractTextContent`. -/
def extractTextContent (data : OutputMessageData) : String :=
  match data.Payload with
  | none => ""
  | some payload =>
    if payload.type = 1 then payload.SearchableContent
    else if payload.type = 2 then
      "[语音消息] 时长:" ++ toString (getIntFromExtra payload "duration" 0) ++ "秒 URL:"
        ++ extractMediaURL payload
    else if payload.type = 3 then
      "[图片消息] " ++ (if payload.SearchableContent = "" then "图片" else payload.SearchableContent)
        ++ " URL:" ++ extractMediaURL payload
    else if payload.type = 4 then
      "[视频消息] 时长:" ++ toString (getIntFromExtraObj (parseExtraJSON payload) "duration" 0)
        ++ "秒 "
        ++ (if hasExtraField (parseExtraJSON payload) "thumbnail" then "有缩略图" else "无缩略图")
        ++ " URL:" ++ extractMediaURL payload
    else if payload.type = 5 then
      "[文件消息] "
        ++ (if payload.SearchableContent = "" then "未知文件" else payload.SearchableContent)
        ++ " 大小:" ++ formatFileSize (getIntFromExtraObj (parseExtraJSON payload) "size" 0)
        ++ " URL:" ++ extractMediaURL payload
    else "[消息类型:" ++ toString payload.type ++ "] " ++ payload.SearchableContent

/-- The method `extractMediaInfo`. -/
def extractMediaInfo (data : OutputMessageData) : String × String :=
  match data.Payload with
  | none => ("", "")
  | some payload =>
    let mediaURL := extractMediaURL payload
    if mediaURL = "" then ("", "")
    else if payload.type = 2 then (mediaURL, "audio")
    else if payload.type = 3 then (mediaURL, "image")
    else if payload.type = 4 then (mediaURL, "video")
    else if payload.type = 5 then (mediaURL, "file")
    else ("", "")

/-- The method `generateSessionID`. -/
def generateSessionID (threadID peerID : String) : String := threadID ++ ":" ++ peerID

/-- The method `ConvertToOpenclaw`: the message built, `none` for the nil result, or the
panic of the statement that logs `data.Payload.Type` on a nil payload. -/
def ConvertToOpenclaw (wildfireMsg : Option PushMessage) :
    Except Fault (Option OpenclawOutMessage) :=
  match wildfireMsg.bind (fun m => m.Data) with
  | none => .ok none
  | some data =>
    let text := extractTextContent data
    if text = "" then
      match data.Payload with
      | none => .error .nilDereference
      | some _ => .ok none
    else
      let isGroup :=
        match data.Conv with
        | some conv => conv.type == 1 || conv.type == 2
        | none => false
      let threadID :=
        match data.Conv with
        | some conv => if conv.type = 0 then data.Sender else conv.Target
        | none => ""
      let channel : OpenclawChannel :=
        { ID := "wildfire-im", ThreadID := threadID, PeerID := data.Sender,
          PeerName := data.Sender, IsGroup := isGroup }
      let media := extractMediaInfo data
      let message : OpenclawMessage :=
        if media.1 ≠ "" then
          { Text := text, Timestamp := data.Timestamp, MediaURL := media.1,
            MediaType := media.2 }
        else { Text := text, Timestamp := data.Timestamp }
      .ok (some { type := "message", Channel := channel, Message := message,
                  Session := some (generateSessionID channel.ThreadID data.Sender) })

end MessageConverter

/-! ## Bridge (`bridge/bridge.go`) -/

/-- The struct `Bridge`.  `sessionContextMgr` is the tracker made by `NewBridge`, which the
agent-side clients made by the bridge share: a new client starts from it, and a step of the
client held by the bridge writes the tracker back.  `retryLoops` lists the goroutines
started by `scheduleOpenclawReconnect` that have not returned, each with the value of its
local variable `retryCount`.  The converter and the two filters are functions of the
configuration. -/
structure Bridge where
  config : Config
  wildfireClient : Option RobotServiceClient := none
  openclawClient : Option WebSocketClient := none
  sessionContextMgr : ContextManager := NewContextManager
  running : Bool := false
  isReconnecting : Bool := false
  retryLoops : List Nat := []
  deriving DecidableEq, Repr

/-- The constructor `NewBridge`. -/
def NewBridge (cfg : Config) : Bridge := { config := cfg }

/-- What the agent-side gateway does for one connection attempt of the bridge: the dial
fails with the error text, or the connection opens and the client is not authenticated
within the wait, or the client is authenticated, its connect request `connectID` having
been accepted at the time `now`. -/
inductive AttemptOutcome where
  | dialFailed (err : String)
  | notAuthenticated
  | authenticated (now : Int) (connectID : String)
  deriving DecidableEq, Repr

/-- What one goroutine of `scheduleOpenclawReconnect` does, in order: the connection
attempt number `n`, the new client put in place of the old one, the sleep between two
attempts, and the error logged when the loop is left without a connection. -/
inductive RetryEvent where
  | attempt (n : Nat)
  | installed
  | sleep
  | gaveUp
  deriving DecidableEq, Repr

/-- How one pass through the `for` loop of the goroutine ends: the loop is left, or the loop
goes on with the new value of `retryCount`, or the goroutine returns from inside the loop
with the new client installed. -/
inductive PassResult where
  | exit (events : List RetryEvent)
  | again (retryCount : Nat) (events : List RetryEvent)
  | installed (events : List RetryEvent)
  deriving DecidableEq, Repr

/-- The local constant `maxRetries` of the goroutine. -/
def maxRetries : Nat := 10

/-- One pass through the `for` loop of the goroutine of `scheduleOpenclawReconnect`, from
the test of the loop on.  `running` and `connected` are what `b.IsRunning()` and
`b.IsOpenclawConnected()` read in the test (and after the loop), `outcome` is what happens
to the attempt, and `connectedAfter` is what `b.IsOpenclawConnected()` reads before the
sleep. -/
def retryPass (running connected : Bool) (retryCount : Nat) (outcome : AttemptOutcome)
    (connectedAfter : Bool) : PassResult :=
  if running && decide (retryCount < maxRetries) && !connected then
    match outcome with
    | .authenticated _ _ => .installed [.attempt (retryCount + 1), .installed]
    | _ =>
      if decide (retryCount + 1 < maxRetries) && !connectedAfter then
        .again (retryCount + 1) [.attempt (retryCount + 1), .sleep]
      else .again (retryCount + 1) [.attempt (retryCount + 1)]
  else if !connected then .exit [.gaveUp]
  else .exit []

/-- What the goroutine reads and meets in the pass that starts with a given value of
`retryCount`. -/
structure RetryObservation where
  running : Bool
  connected : Bool
  outcome : AttemptOutcome
  connectedAfter : Bool
  deriving DecidableEq, Repr

/-- The goroutine of `scheduleOpenclawReconnect` from the pass that starts with
`retryCount`, for at most `fuel` passes: what it does until it returns, or `none` when the
passes allowed are used up. -/
def retryLoop (env : Nat → RetryObservation) : Nat → Nat → Option (List RetryEvent)
  | 0, _ => none
  | fuel + 1, retryCount =>
    match retryPass (env retryCount).running (env retryCount).connected retryCount
        (env retryCount).outcome (env retryCount).connectedAfter with
    | .exit events => some events
    | .installed events => some events
    | .again retryCount1 events => (retryLoop env fuel retryCount1).map (fun rest => events ++ rest)

/-- The numbers of the connection attempts made, in order. -/
def attempts : List RetryEvent → List Nat
  | [] => []
  | .attempt n :: rest => n :: attempts rest
  | _ :: rest => attempts rest

namespace Bridge

/-- The method `IsRunning`. -/
def IsRunning (b : Bridge) : Bool := b.running

/-- The method `IsOpenclawConnected`. -/
def IsOpenclawConnected (b : Bridge) : Bool :=
  match b.openclawClient with
  | some c => c.IsAuthenticated
  | none => false

/-- The bridge once its agent-side client has made a step to the state `c`: the tracker that
the client shares with the bridge is written back. -/
def withOpenclawClient (b : Bridge) (c : WebSocketClient) : Bridge :=
  { b with openclawClient := some c,
           sessionContextMgr := c.sessionContextMgr.getD b.sessionContextMgr }

/-- The method `HandleWildfireMessage`; `now` is the clock and `requestID` the fresh uuid
of `SendMessage`.  The statement that logs `msg.Data.Conv.Type` panics on a nil
conversation, as do the calls on a nil client. -/
def HandleWildfireMessage (b : Bridge) (now : Int) (requestID : String)
    (msg : Option PushMessage) : Except Fault Bridge :=
  if !b.IsRunning then .ok b
  else
    match (msg.bind (fun m => m.Data)).bind (fun data => data.Payload.map (fun p => (data, p))) with
    | none => .ok b
    | some (data, payload) =>
      let msgType := payload.type
      if msgType ≤ 0 || (msgType > 15 && msgType < 100) || msgType > 200 then .ok b
      else
        match data.Conv with
        | none => .error .nilDereference
        | some conv =>
          let senderID := data.Sender
          let targetID := conv.Target
          let isGroup := conv.type == 1 || conv.type == 2
          if !b.config.Whitelist.ShouldProcess senderID targetID isGroup then .ok b
          else
            match MessageConverter.ConvertToOpenclaw msg with
            | .error fault => .error fault
            | .ok none => .ok b
            | .ok (some openclawMsg) =>
              match b.wildfireClient with
              | none => .error .nilDereference
              | some w =>
                if !b.config.Group.ShouldRespond openclawMsg w.GetRobotID then .ok b
                else if senderID = "" then .ok b
                else
                  match b.openclawClient with
                  | none => .error .nilDereference
                  | some c =>
                    match c.SendMessage now requestID openclawMsg senderID with
                    | .ok c1 => .ok (b.withOpenclawClient c1)
                    | .error _ => .ok b

/-- The method `scheduleOpenclawReconnect`, run without interruption: when the
compare-and-swap takes the flag from 0 to 1, the goroutine is started with
`retryCount = 0`, and the deferred store puts the flag back to 0 as the method returns. -/
def scheduleOpenclawReconnect (b : Bridge) : Bridge :=
  if !b.isReconnecting then
    let b1 := { b with isReconnecting := true }
    let b2 := { b1 with retryLoops := b1.retryLoops ++ [0] }
    { b2 with isReconnecting := false }
  else b

/-- The method `HandleOpenclawDisconnected`. -/
def HandleOpenclawDisconnected (b : Bridge) (_code : Int) (_reason : String) : Bridge :=
  if b.IsRunning then b.scheduleOpenclawReconnect else b

/-- The client that a connection attempt of the bridge makes and sees authenticated: made by
`NewWebSocketClient` with the token of the configuration, the handler of the bridge and the
tracker, connected, and with its connect request accepted. -/
def authenticatedClient (b : Bridge) (now : Int) (connectID : String) : WebSocketClient :=
  match (NewWebSocketClient b.config.Openclaw.Token true (some b.sessionContextMgr)).Connect
      none with
  | .ok c => ((c.handleChallenge now connectID).handleResponse now
      { id := connectID, ok := true }).1
  | .error _ => NewWebSocketClient b.config.Openclaw.Token true (some b.sessionContextMgr)

/-- One pass through the loop of the goroutine number `i` of `retryLoops`, with the outcome
of its connection attempt; the flags are read from the bridge. -/
def retryStep (b : Bridge) (i : Nat) (outcome : AttemptOutcome) : Bridge :=
  match b.retryLoops[i]? with
  | none => b
  | some retryCount =>
    match retryPass b.IsRunning b.IsOpenclawConnected retryCount outcome
        b.IsOpenclawConnected with
    | .exit _ => { b with retryLoops := b.retryLoops.eraseIdx i }
    | .again retryCount1 _ => { b with retryLoops := b.retryLoops.set i retryCount1 }
    | .installed _ =>
      match outcome with
      | .authenticated now connectID =>
        { b with openclawClient := some (b.authenticatedClient now connectID),
                 retryLoops := b.retryLoops.eraseIdx i }
      | _ => b

end Bridge

/-- What surrounds one call of `Bridge.Start`: the behaviour of the gateway of side A, the
result of the dial of side B (`none` for success), the handshake of side B, if any, as the
number of the test of the wait loop from which the read loop has handled the challenge and
the response to the connect request `connectID`, with the `ok` of that response; whether
`ctx.Done()` is ready at a given pass of the wait loop, and the text of `ctx.Err()`. -/
structure StartEnv where
  gateway : GatewayBehaviour
  openclawDial : Option String := none
  handshake : Option (Nat × Bool) := none
  cancelled : Nat → Bool := fun _ => false
  ctxErr : String := "context canceled"
  now : Int := 0
  connectID : String := "connect-1"

/-- How the wait loop of `Start` ends, with the value of `waitCount`. -/
inductive AwaitResult where
  | cancelled (waitCount : Nat)
  | finished (waitCount : Nat)
  deriving DecidableEq, Repr

/-- The wait loop of `Start`, `for !authenticated && waitCount < maxWait`, with
`remaining = maxWait - waitCount`. -/
def awaitAuthentication (authenticated cancelled : Nat → Bool) : Nat → Nat → AwaitResult
  | 0, waitCount => .finished waitCount
  | remaining + 1, waitCount =>
    if authenticated waitCount then .finished waitCount
    else if cancelled waitCount then .cancelled waitCount
    else awaitAuthentication authenticated cancelled remaining (waitCount + 1)

namespace Bridge

/-- The method `Stop`. -/
def Stop (b : Bridge) : Except Fault Bridge :=
  if !b.IsRunning then .ok b
  else
    let b1 := { b with running := false }
    let closedA : Option (Option RobotServiceClient) :=
      match b1.wildfireClient with
      | some w => w.Close.map (fun r => some r.1)
      | none => some none
    match closedA with
    | none => .error .blocksForever
    | some w1 =>
      match b1.openclawClient with
      | some c =>
        match c.CloseConnection with
        | .ok r => .ok { b1 with wildfireClient := w1, openclawClient := some r.1 }
        | .error fault => .error fault
      | none => .ok { b1 with wildfireClient := w1 }

/-- The agent-side client of `Start` at the test number `i` of the wait loop: the connected
client `c`, or what the read loop has made of it by handling the challenge and the response
to the connect request. -/
def clientAt (env : StartEnv) (c : WebSocketClient) (i : Nat) : WebSocketClient :=
  match env.handshake with
  | some (k, ok) =>
    if k ≤ i then
      ((c.handleChallenge env.now env.connectID).handleResponse env.now
        { id := env.connectID, ok := ok }).1
    else c
  | none => c

/-- The method `Start`: the bridge afterwards and the error returned, `none` for nil. -/
def Start (b : Bridge) (env : StartEnv) : Except Fault (Bridge × Option String) :=
  if b.running then .ok (b, some "bridge already running")
  else
    let b1 := { b with running := true, wildfireClient := some (NewRobotServiceClient true) }
    match (NewRobotServiceClient true).Connect b1.config.Wildfire.RobotID
        b1.config.Wildfire.RobotSecret env.gateway with
    | none => .error .blocksForever
    | some (w, connected, _) =>
      let b2 := { b1 with wildfireClient := some w }
      if !connected then
        .ok ({ b2 with running := false }, some "failed to connect to Wildfire Gateway")
      else
        let c0 := NewWebSocketClient b2.config.Openclaw.Token true (some b2.sessionContextMgr)
        let b3 := { b2 with openclawClient := some c0 }
        match c0.Connect env.openclawDial with
        | .error err =>
          match w.Close with
          | none => .error .blocksForever
          | some r =>
            .ok ({ b3 with wildfireClient := some r.1, running := false },
                 some ("failed to connect to Openclaw Gateway: " ++ err))
        | .ok c1 =>
          match awaitAuthentication (fun i => (clientAt env c1 i).IsAuthenticated)
              env.cancelled 100 0 with
          | .cancelled i =>
            (Stop { b3 with openclawClient := some (clientAt env c1 i) }).map
              (fun stopped => (stopped, some env.ctxErr))
          | .finished i =>
            if !(clientAt env c1 i).IsAuthenticated then
              (Stop { b3 with openclawClient := some (clientAt env c1 i) }).map
                (fun stopped =>
                  (stopped,
                   some "failed to authenticate with Openclaw Gateway within timeout"))
            else .ok ({ b3 with openclawClient := some (clientAt env c1 i) }, none)

/-- Whether the transport of side A is open: the client of the manager holds a connection
with its open flag up. -/
def wildfireTransportOpen (b : Bridge) : Bool :=
  match b.wildfireClient with
  | some w => w.connectionManager.conn && w.connectionManager.IsOpen
  | none => false

/-- Whether the transport of side B is open. -/
def openclawTransportOpen (b : Bridge) : Bool :=
  match b.openclawClient with
  | some c => c.conn && c.isOpen
  | none => false

end Bridge

/-! ## The heartbeat tick of the agent-side client -/

namespace WebSocketClient

/-- The method `sendPing`: whether a ping frame is written, which it is when the client
holds a connection.  The store of the heartbeat time is left out. -/
def sendPing (c : WebSocketClient) : Bool := c.conn

/-- The branch `case <-ticker.C` of `writeLoop`, with the clock at `now`: the client
afterwards, and whether a ping frame was written. -/
def writeLoopTick (c : WebSocketClient) (now : Int) : WebSocketClient × Bool :=
  (c.cleanupExpiredContexts now, if c.IsAuthenticated then c.sendPing else false)

end WebSocketClient

/-! ## Remote calls of the gateway-side client (`sdk/client/robot_service_client.go`) -/

/-- The method `IsSuccess` of `protocol.ResponseMessage`. -/
def ResponseMessage.IsSuccess (r : ResponseMessage) : Bool := r.Code == 0

/-- The struct `protocol.IMResult[T]`. -/
structure IMResult (T : Type) where
  Code : Int
  Msg : String
  Result : T
  deriving DecidableEq, Repr

/-- The struct `nestedIMResult`; `Result` is the raw JSON text, empty when absent. -/
structure nestedIMResult where
  Code : Int := 0
  Msg : String := ""
  Result : String := ""
  deriving DecidableEq, Repr

/-- The function `convertResult[T]`: `data` is the value to convert, as its JSON text
(`none` for nil), `zero` is the zero value of `T`, and `unmarshal` is what
`json.Unmarshal` makes of a JSON text for the type `T`, the value or the error text. -/
def convertResult {T : Type} (zero : T) (unmarshal : String → Except String T)
    (data : Option String) : Except String T :=
  match data with
  | none => .ok zero
  | some jsonData => unmarshal jsonData

/-- The function `invoke[T]`: the `IMResult` returned and the error returned (`none` for
nil).  `requestID` is the fresh uuid of `SendRequest`; `reply` is what the `select`
receives, the response read from the channel of the request or `none` when the timer fires
first; `unmarshalNested` and `unmarshalResult` are `json.Unmarshal` at the types
`nestedIMResult` and `T`. -/
def invoke {T : Type} (zero : T) (unmarshalNested : String → Except String nestedIMResult)
    (unmarshalResult : String → Except String T) (c : RobotServiceClient)
    (requestID method : String) (params : List String) (reply : Option ResponseMessage) :
    IMResult T × Option String :=
  if !ConnectionManager.IsConnected c.connectionManager then
    ({ Code := -1, Msg := "Not connected to gateway", Result := zero }, none)
  else
    match c.connectionManager.SendRequest requestID method params with
    | .error err => ({ Code := -1, Msg := err, Result := zero }, none)
    | .ok _ =>
      match reply with
      | none => ({ Code := -1, Msg := "Request timeout", Result := zero }, none)
      | some resp =>
        if !resp.IsSuccess then ({ Code := resp.Code, Msg := resp.Msg, Result := zero }, none)
        else
          match convertResult { } unmarshalNested resp.Result with
          | .error err =>
            ({ Code := -1, Msg := "Failed to convert nested result: " ++ err, Result := zero },
             none)
          | .ok nested =>
            if nested.Result.length > 0 then
              match unmarshalResult nested.Result with
              | .error err =>
                ({ Code := -1, Msg := "Failed to convert actual result: " ++ err,
                   Result := zero }, none)
              | .ok actualResult =>
                ({ Code := nested.Code, Msg := nested.Msg, Result := actualResult }, none)
            else ({ Code := nested.Code, Msg := nested.Msg, Result := zero }, none)

/-! ## The whitelist filter, as the specification words it -/

/-- The reference predicate of the whitelist filter: not enabled, or the sender is not
blocked, the target of a group message is not a blocked group, the sender is allowed when
there is a list of allowed senders, and the target of a group message is allowed when there
is a list of allowed groups. -/
def shouldProcessReference (f : WhitelistConfig) (senderID targetID : String)
    (isGroup : Bool) : Bool :=
  !f.Enabled
    || (decide (senderID ∉ f.BlockedSenders)
        && (!isGroup || decide (targetID ∉ f.BlockedGroups))
        && (f.AllowedSenders.isEmpty || decide (senderID ∈ f.AllowedSenders))
        && (!isGroup || f.AllowedGroups.isEmpty || decide (targetID ∈ f.AllowedGroups)))

/-! ## Replies to side A (`converter/message_converter.go`) -/

/-- The struct `WildfireSendMessage`. -/
structure WildfireSendMessage where
  Conversation : Conversation
  Payload : MessagePayload
  TargetUserID : String
  IsGroup : Bool
  Text : String
  StreamID : String
  StreamState : String
  deriving DecidableEq, Repr

namespace MessageConverter

/-- The method `buildPayload`. -/
def buildPayload (text streamID streamState : String) : MessagePayload :=
  if streamID ≠ "" && (streamState == "generating" || streamState == "start") then
    { type := 14, SearchableContent := text, Content := streamID }
  else if streamID ≠ "" && streamState == "completed" then
    { type := 15, SearchableContent := text, Content := streamID }
  else { type := 1, SearchableContent := text }

/-- The method `ConvertFromOpenclaw`; `none` is the nil message and the nil result. -/
def ConvertFromOpenclaw (openclawMsg : Option OpenclawInMessage) :
    Option WildfireSendMessage :=
  match openclawMsg with
  | none => none
  | some msg =>
    match msg.Channel with
    | none => none
    | some channel =>
      let message : OpenclawMessage := msg.Message.getD { }
      let isGroup :=
        channel.ThreadID ≠ "" && channel.PeerID ≠ "" && channel.ThreadID ≠ channel.PeerID
      let target := if channel.ThreadID = "" then channel.PeerID else channel.ThreadID
      let conv : Conversation :=
        { type := if isGroup then 1 else 0, Target := target, Line := 0 }
      let streamID := (message.Extra.get "streamId").getD ""
      let streamState := (message.Extra.get "state").getD ""
      some { Conversation := conv,
             Payload := buildPayload message.Text streamID streamState,
             TargetUserID := channel.PeerID, IsGroup := isGroup, Text := message.Text,
             StreamID := streamID, StreamState := streamState }

end MessageConverter

/-! ## Worked examples -/

/-- A tracker with a fresh default session, an idle session, and one run id on each. -/
def exampleTracker : ContextManager :=
  { sessions :=
      [("main", { SessionKey := "main", SenderID := "u1", ThreadID := "t1", IsGroup := false,
                  Timestamp := 1900 }),
       ("old", { SessionKey := "old", SenderID := "u7", ThreadID := "g7", IsGroup := true,
                 Timestamp := 10 })],
    runIDMap := [("run-1", "main"), ("run-2", "old")] }

/-- Steps on a handler: two registrations. -/
def exampleHandlerOps : List ResponseHandler.Op :=
  [.register "a", .register "b"]

/-- A response to the request `"a"`. -/
def exampleResponse : ResponseMessage :=
  { RequestID := "a", Code := 0, Msg := "success" }

/-- An authenticated client with a handler and an empty tracker. -/
def exampleClient : WebSocketClient :=
  { hasHandler := true, sessionContextMgr := some NewContextManager, isAuthenticated := true,
    pendingRequests := [], messageContexts := [] }

/-- A private message of the user `"u1"`. -/
def exampleMessage1 : OpenclawOutMessage :=
  { Channel := { ID := "wildfire", ThreadID := "t1", PeerID := "u1", IsGroup := false },
    Message := { Text := "hello" } }

/-- A group message of the user `"u2"`. -/
def exampleMessage2 : OpenclawOutMessage :=
  { Channel := { ID := "wildfire", ThreadID := "g2", PeerID := "u2", IsGroup := true },
    Message := { Text := "hi all" } }

/-- The client after the message of `"u1"` has been sent as request `"q1"`. -/
def exampleClientSent : WebSocketClient :=
  exampleClient.step (.send 1000 "q1" exampleMessage1 "u1")

/-- The response to the request `"q1"`, revealing the run id `"run-1"`. -/
def exampleFrame1 : ResponseFrame :=
  { id := "q1", ok := true, payload := some { runId := some "run-1" } }

/-- What happens next: a message of another conversation is sent and answered, its run
streams, and a cleanup runs. -/
def exampleInterleaving : List WebSocketClient.Op :=
  [.send 1100 "q2" exampleMessage2 "u2",
   .response 1200 { id := "q2", ok := true, payload := some { runId := some "run-2" } },
   .agent 1300 (WebSocketClient.agentEventOf "run-2" (some "assistant") (some "working") none),
   .cleanup 1400]

/-- The client after the response `exampleFrame1`. -/
def exampleClientRunning : WebSocketClient :=
  (exampleClientSent.handleResponse 1050 exampleFrame1).1

/-- A streaming event of the run `"run-1"`: the fragment `"partial answer"`. -/
def exampleFragment : AgentPayload :=
  { runId := some "run-1", stream := some "assistant",
    data := some { text := some "partial answer" } }

/-- The client after the fragment `"partial answer"` of the run `"run-1"`. -/
def exampleClientStreaming : WebSocketClient :=
  exampleClientRunning.step (.agent 1300 { payload := some exampleFragment })

/-- What happens after the fragment: an event of `"run-1"` without text, a message of
another conversation sent and answered, a fragment of its run, and a cleanup. -/
def exampleStreamSteps : List WebSocketClient.Op :=
  [.agent 1310 { payload := some { runId := some "run-1", stream := some "assistant",
                                   data := some { } } },
   .send 1320 "q2" exampleMessage2 "u2",
   .response 1330 { id := "q2", ok := true, payload := some { runId := some "run-2" } },
   .agent 1340 (WebSocketClient.agentEventOf "run-2" (some "assistant") (some "working") none),
   .cleanup 2000]

/-- A second request of `"u1"` whose response reveals the run id `"run-1"` again. -/
def exampleSecondReveal : List WebSocketClient.Op :=
  [.send 1320 "q3" exampleMessage1 "u1",
   .response 1330 { id := "q3", ok := true, payload := some { runId := some "run-1" } }]

/-- A `chat` event that ends the run `"run-1"`. -/
def exampleChatFinal : ChatEvent :=
  { payload := some { runId := some "run-1", state := some "final" } }

/-- An `agent` event that ends the run `"run-1"`, as payload. -/
def exampleEndPayload : AgentPayload :=
  { runId := some "run-1", stream := some "assistant",
    data := some { phase := some "end" } }

/-- An `agent` event of a run that the client has never heard of. -/
def exampleUnknownPayload : AgentPayload :=
  { runId := some "run-9", stream := some "assistant",
    data := some { text := some "late" } }

/-- A new agent-side client with the token `"secret"`, a handler and an empty tracker. -/
def exampleAgentClient : WebSocketClient :=
  NewWebSocketClient "secret" true (some NewContextManager)

/-- The client `exampleAgentClient` once it has connected and has answered the challenge of
the gateway with the connect request `"c1"`. -/
def exampleAgentClientChallenged : WebSocketClient :=
  match exampleAgentClient.Connect none with
  | .ok c => c.handleChallenge 10 "c1"
  | .error _ => exampleAgentClient

/-- The client `exampleAgentClientChallenged` once the gateway has accepted the connect
request: an open and authenticated client. -/
def exampleAgentClientOpen : WebSocketClient :=
  (exampleAgentClientChallenged.handleResponse 20 { id := "c1", ok := true }).1

/-- A gateway-side client whose manager has connected and authenticated as `"robot"`. -/
def exampleGatewayClient : RobotGatewayClient :=
  match ConnectionManager.ConnectWithTimeout (NewRobotGatewayClient (some { hasHandler := true }))
      "robot" "secret" (.answers 0 "success") with
  | some r => r.1
  | none => NewRobotGatewayClient none

/-- The client `exampleGatewayClient` after `Close` and a new `Connect`, before any new
connect request has been answered. -/
def exampleGatewayClientReopened : RobotGatewayClient :=
  match exampleGatewayClient.Close with
  | some (a1, _) =>
    match a1.Connect none with
    | .ok (a2, _) => a2
    | .error _ => a1
  | none => exampleGatewayClient

/-- A configuration with the credentials of both sides and the default filters: the
whitelist filter is disabled. -/
def exampleConfig : Config :=
  { Wildfire := { RobotID := "robot", RobotSecret := "secret" },
    Openclaw := { Token := "secret" } }

/-- Both gateways accept: side A answers the connect request with code 0, side B has
accepted the connect request by the third test of the wait loop. -/
def exampleStartEnv : StartEnv :=
  { gateway := .answers 0 "success", handshake := some (3, true) }

/-- The bridge of `exampleConfig` after a successful `Start`. -/
def exampleBridge : Bridge :=
  match (NewBridge exampleConfig).Start exampleStartEnv with
  | .ok r => r.1
  | .error _ => NewBridge exampleConfig

/-- The push of a private text message `"hello"` of the user `"u1"`. -/
def examplePush : PushMessage :=
  { type := "message",
    Data := some { Sender := "u1", Conv := some { type := 0, Target := "u1" },
                   Payload := some { type := 1, SearchableContent := "hello" } } }

/-- The frame of a `chat.send` request. -/
def chatSendFrame (requestID text : String) : RequestMessage :=
  { type := "req", ID := requestID, Method := "chat.send",
    Params := .chatSend { SessionKey := "main", Message := text } }

/-- The bridge `exampleBridge` with one hundred frames waiting in the queue of its
agent-side client. -/
def exampleBridgeBusy : Bridge :=
  { exampleBridge with
    openclawClient := exampleBridge.openclawClient.map
      (fun c => { c with sendChan := List.replicate 100 (chatSendFrame "old" "waiting") }) }

/-- The bridge `exampleBridge` after a read of its agent-side client has failed: running,
with side B closed. -/
def exampleBridgeDisconnected : Bridge :=
  { exampleBridge with
    openclawClient := exampleBridge.openclawClient.map
      (fun c =>
        match c.readLoopFailure "EOF" with
        | .ok r => r.1
        | .error _ => c) }

/-- An agent-side gateway that refuses every connection while the bridge stays running. -/
def exampleRefusing : Nat → RetryObservation :=
  fun _ => { running := true, connected := false, outcome := .dialFailed "connection refused",
             connectedAfter := false }

/-- An agent-side gateway that refuses two connections and accepts the third. -/
def exampleThirdTime : Nat → RetryObservation :=
  fun i => { running := true, connected := false,
             outcome := if i < 2 then .dialFailed "connection refused"
                        else .authenticated 5000 "connect-2",
             connectedAfter := false }

/-- An enabled whitelist filter in which the sender `"spam"` is both allowed and blocked. -/
def exampleWhitelist : WhitelistConfig :=
  { Enabled := true, AllowedSenders := ["spam", "u1"], BlockedSenders := ["spam"],
    BlockedGroups := ["g9"] }

/-- An enabled whitelist filter with blocked ids only. -/
def exampleBlocklist : WhitelistConfig :=
  { Enabled := true, BlockedSenders := ["spam"], BlockedGroups := ["g9"] }

/-- The service client of the connected and authenticated robot `"robot"`. -/
def exampleServiceClient : RobotServiceClient :=
  { connectionManager := exampleGatewayClient, timeout := 30 * 1000000000 }

/-- A decoder of nested envelopes that knows one JSON text. -/
def exampleUnmarshalNested : String → Except String nestedIMResult :=
  fun jsonData =>
    if jsonData = "\x7b\"code\":0,\"msg\":\"success\",\"result\":\x7b\"messageUid\":42\x7d\x7d" then
      .ok { Code := 0, Msg := "success", Result := "\x7b\"messageUid\":42\x7d" }
    else .error "invalid character"

/-- A decoder of results (here the message uid) that knows one JSON text. -/
def exampleUnmarshalResult : String → Except String Int :=
  fun jsonData => if jsonData = "\x7b\"messageUid\":42\x7d" then .ok 42 else .error "invalid character"

/-- A successful response whose result is a nested envelope. -/
def exampleEnvelope : ResponseMessage :=
  { RequestID := "r1", Code := 0, Msg := "success",
    Result := some "\x7b\"code\":0,\"msg\":\"success\",\"result\":\x7b\"messageUid\":42\x7d\x7d" }

/-- An authenticated client whose tracker is `exampleTracker` and which holds the contexts
of two runs, made at the times 1000 and 9900000. -/
def exampleClientTracked : WebSocketClient :=
  { hasHandler := true, sessionContextMgr := some exampleTracker, isAuthenticated := true,
    pendingRequests := [],
    messageContexts :=
      [("run-1", { SenderID := "u1", ThreadID := "t1", IsGroup := false, Timestamp := 1000 }),
       ("run-2", { SenderID := "u7", ThreadID := "g7", IsGroup := true,
                   Timestamp := 9900000 })] }

/-- The push of the text `"how are you?"` of the user `"u1"` in the conversation of the
given type and target. -/
def examplePushIn (convType : Int) (target : String) : PushMessage :=
  { type := "message",
    Data := some { Sender := "u1", Conv := some { type := convType, Target := target },
                   Payload := some { type := 1, SearchableContent := "how are you?" } } }

/-- The conversation to which the bridge `exampleBridge` addresses the reply to a push: the
push is handled and sent as the request `"q1"`, the response to `"q1"` reveals the run
`"run-1"`, an agent event of that run is handled, and the reply handed to the handler is
converted by `ConvertFromOpenclaw`. -/
def exampleReplyConversation (push : PushMessage) : Option Conversation :=
  match exampleBridge.HandleWildfireMessage 1000 "q1" (some push) with
  | .error _ => none
  | .ok b =>
    match b.openclawClient with
    | none => none
    | some c =>
      match ((c.handleResponse 1100 exampleFrame1).1.handleAgentEvent 1200
          (WebSocketClient.agentEventOf "run-1" (some "assistant") (some "fine") none)).2 with
      | [.OnResponse reply] =>
        (MessageConverter.ConvertFromOpenclaw (some reply)).map (fun w => w.Conversation)
      | _ => none

/-- A push without conversation. -/
def examplePushNoConv : PushMessage :=
  { type := "message",
    Data := some { Sender := "u1", Conv := none,
                   Payload := some { type := 1, SearchableContent := "hello" } } }

/-- A push without payload. -/
def examplePushNoPayload : PushMessage :=
  { type := "message",
    Data := some { Sender := "u1", Conv := some { type := 0, Target := "u1" },
                   Payload := none } }

/-! ## Lemmas on Go maps -/

namespace GoMap

variable {V : Type}

theorem delete_eq_filter (m : GoMap V) (k : String) :
    delete m k = m.filter (fun e => decide (e.1 ≠ k)) := by
  induction m with
  | nil => rfl
  | cons e rest ih =>
    obtain ⟨k', v⟩ := e
    by_cases h : k' = k
    · simp [delete, h, ih]
    · simp [delete, h, ih]

theorem get_delete_self (m : GoMap V) (k : String) : get (delete m k) k = none := by
  induction m with
  | nil => rfl
  | cons e rest ih =>
    obtain ⟨k', v⟩ := e
    by_cases h : k' = k
    · simp [delete, h, ih]
    · simp [delete, get, h, ih]

theorem get_delete_ne (m : GoMap V) {k k' : String} (h : k' ≠ k) :
    get (delete m k) k' = get m k' := by
  induction m with
  | nil => rfl
  | cons e rest ih =>
    obtain ⟨k0, v⟩ := e
    by_cases h0 : k0 = k
    · subst h0
      have : ¬ k0 = k' := fun e => h e.symm
      simp [delete, get, this, ih]
    · by_cases h1 : k0 = k'
      · subst h1
        simp [delete, get, h0]
      · simp [delete, get, h0, h1, ih]

theorem get_set_self (m : GoMap V) (k : String) (v : V) : get (set m k v) k = some v := by
  simp [set, get]

theorem get_set_ne (m : GoMap V) {k k' : String} (v : V) (h : k' ≠ k) :
    get (set m k v) k' = get m k' := by
  have : ¬ k = k' := fun e => h e.symm
  simp [set, get, this, get_delete_ne m h]

theorem mem_of_get {m : GoMap V} {k : String} {v : V} (h : get m k = some v) : (k, v) ∈ m := by
  induction m with
  | nil => simp [get] at h
  | cons e rest ih =>
    obtain ⟨k', v'⟩ := e
    by_cases hk : k' = k
    · subst hk
      simp [get] at h
      simp [h]
    · simp [get, hk] at h
      exact List.mem_cons_of_mem _ (ih h)

theorem get_eq_none_of_not_mem_keys {m : GoMap V} {k : String} (h : k ∉ keys m) :
    get m k = none := by
  induction m with
  | nil => rfl
  | cons e rest ih =>
    obtain ⟨k', v'⟩ := e
    simp [keys] at h
    have hk : ¬ k' = k := fun e => h.1 e.symm
    have hr : k ∉ keys rest := by
      simp [keys]; exact h.2
    simp [get, hk, ih hr]

theorem get_of_mem {m : GoMap V} (hwf : WF m) {k : String} {v : V} (h : (k, v) ∈ m) :
    get m k = some v := by
  induction m with
  | nil => simp at h
  | cons e rest ih =>
    obtain ⟨k', v'⟩ := e
    have hnd : k' ∉ keys rest ∧ (keys rest).Nodup := by
      simpa [WF, keys] using hwf
    rcases List.mem_cons.mp h with heq | hmem
    · cases heq
      simp [get]
    · have hk : ¬ k' = k := by
        intro e
        subst e
        exact hnd.1 (List.mem_map_of_mem Prod.fst hmem)
      simp [get, hk]
      exact ih hnd.2 hmem

theorem mem_keys_of_get {m : GoMap V} {k : String} {v : V} (h : get m k = some v) :
    k ∈ keys m :=
  List.mem_map_of_mem Prod.fst (mem_of_get h)

theorem wf_delete {m : GoMap V} (hwf : WF m) (k : String) : WF (delete m k) := by
  unfold WF keys at *
  rw [delete_eq_filter]
  exact (List.filter_sublist m).map Prod.fst |>.nodup hwf

theorem not_mem_keys_delete (m : GoMap V) (k : String) : k ∉ keys (delete m k) := by
  intro h
  obtain ⟨e, he, hk⟩ := List.mem_map.mp h
  rw [delete_eq_filter] at he
  have := (List.mem_filter.mp he).2
  simp [hk] at this

theorem wf_set {m : GoMap V} (hwf : WF m) (k : String) (v : V) : WF (set m k v) := by
  have h1 := wf_delete hwf k
  have h2 := not_mem_keys_delete m k
  unfold WF keys at *
  simp only [set, List.map_cons, List.nodup_cons]
  exact ⟨h2, h1⟩

theorem get_unique {m : GoMap V} (hwf : WF m) {k : String} {v v' : V}
    (h : (k, v) ∈ m) (h' : (k, v') ∈ m) : v = v' := by
  have h1 := get_of_mem hwf h
  have h2 := get_of_mem hwf h'
  rw [h1] at h2
  exact Option.some.inj h2

theorem get_filter {m : GoMap V} (hwf : WF m) (p : String × V → Bool) (k : String) :
    get (m.filter p) k = (get m k).bind (fun v => if p (k, v) then some v else none) := by
  induction m with
  | nil => rfl
  | cons e rest ih =>
    obtain ⟨k', v'⟩ := e
    have hnd : k' ∉ keys rest ∧ (keys rest).Nodup := by
      simpa [WF, keys] using hwf
    by_cases hk : k' = k
    · subst hk
      by_cases hp : p (k', v') = true
      · simp [List.filter, hp, get]
      · have hnone : get (rest.filter p) k' = none := by
          apply get_eq_none_of_not_mem_keys
          intro hmem
          obtain ⟨e, he, hke⟩ := List.mem_map.mp hmem
          exact hnd.1 (List.mem_map.mpr ⟨e, (List.mem_filter.mp he).1, hke⟩)
        simp [List.filter, hp, get, hnone]
    · by_cases hp : p (k', v') = true
      · simp [List.filter, hp, get, hk, ih hnd.2]
      · simp [List.filter, hp, get, hk, ih hnd.2]

/-- A loop that deletes the key of every visited entry satisfying `bad` leaves the entries
whose key was not deleted. -/
theorem foldl_delete_eq_filter {W : Type} (bad : String × W → Bool) (l : List (String × W))
    (a : GoMap V) :
    l.foldl (fun acc e => if bad e then delete acc e.1 else acc) a
      = a.filter (fun x => !(l.any (fun e => decide (e.1 = x.1) && bad e))) := by
  induction l generalizing a with
  | nil => simp
  | cons e rest ih =>
    simp only [List.foldl_cons]
    rw [ih]
    by_cases hb : bad e = true
    · simp only [hb, if_true, delete_eq_filter, List.filter_filter]
      apply List.filter_congr
      intro x _
      by_cases hx : e.1 = x.1
      · have : ¬ x.1 ≠ e.1 := fun h => h hx.symm
        simp [hx, hb]
      · have : x.1 ≠ e.1 := fun h => hx h.symm
        simp [hx, this]
    · simp only [hb]
      apply List.filter_congr
      intro x _
      simp [hb]

end GoMap

/-! ## Lemmas on 64-bit integers -/

theorem wrapInt64_of_inRange {x : Int} (hlo : -(2 ^ 63) ≤ x) (hhi : x < 2 ^ 63) :
    wrapInt64 x = x := by
  unfold wrapInt64
  omega

/-! ## The session context tracker -/

namespace ContextManager

theorem expire_foldl (now timeoutMs : Int) (l : List (String × SessionContext))
    (a : GoMap SessionContext) (n : Int) :
    l.foldl (expireStep now timeoutMs) (a, n)
      = (l.foldl (fun acc e => if sessionExpired now timeoutMs e.2 then GoMap.delete acc e.1
            else acc) a,
         n + (l.countP (fun e => sessionExpired now timeoutMs e.2) : Nat)) := by
  induction l generalizing a n with
  | nil => simp
  | cons e rest ih =>
    by_cases he : sessionExpired now timeoutMs e.2 = true
    · simp only [List.foldl_cons, expireStep, he, if_true, ih, List.countP_cons_of_pos]
      congr 1
      push_cast
      ring
    · simp only [List.foldl_cons, expireStep, he, ih, Bool.false_eq_true, if_false]
      congr 2
      rw [List.countP_cons_of_neg]
      simpa using he

theorem cleanup_sessions_eq (m : ContextManager) (now timeoutMs : Int)
    (hwf : m.sessions.WF) :
    (m.CleanupExpiredSessions now timeoutMs).1.sessions
      = m.sessions.filter (fun e => !sessionExpired now timeoutMs e.2) := by
  simp only [CleanupExpiredSessions, expire_foldl]
  rw [GoMap.foldl_delete_eq_filter (fun e => sessionExpired now timeoutMs e.2)]
  apply List.filter_congr
  intro x hx
  by_cases hexp : sessionExpired now timeoutMs x.2 = true
  · have : m.sessions.any (fun e => decide (e.1 = x.1) && sessionExpired now timeoutMs e.2)
        = true := by
      rw [List.any_eq_true]
      exact ⟨x, hx, by simp [hexp]⟩
    simp [this, hexp]
  · have : m.sessions.any (fun e => decide (e.1 = x.1) && sessionExpired now timeoutMs e.2)
        = false := by
      rw [List.any_eq_false]
      intro e he hc
      simp only [Bool.and_eq_true, decide_eq_true_eq] at hc
      obtain ⟨hk, hb⟩ := hc
      have hmem : (x.1, e.2) ∈ m.sessions := by
        rw [← hk]; exact he
      have := GoMap.get_unique hwf hmem (show (x.1, x.2) ∈ m.sessions from hx)
      rw [this] at hb
      exact hexp hb
    simp only [this]
    simp at hexp
    simp [hexp]

theorem cleanup_count_eq (m : ContextManager) (now timeoutMs : Int) :
    (m.CleanupExpiredSessions now timeoutMs).2
      = (m.sessions.countP (fun e => sessionExpired now timeoutMs e.2) : Nat) := by
  simp [CleanupExpiredSessions, expire_foldl]

theorem cleanup_runIDMap_eq (m : ContextManager) (now timeoutMs : Int)
    (hwf : m.runIDMap.WF) :
    (m.CleanupExpiredSessions now timeoutMs).1.runIDMap
      = m.runIDMap.filter (fun e =>
          ((m.CleanupExpiredSessions now timeoutMs).1.sessions.get e.2).isSome) := by
  simp only [CleanupExpiredSessions]
  generalize (List.foldl (expireStep now timeoutMs) (m.sessions, 0) m.sessions).1 = S
  have hfold : m.runIDMap.foldl (orphanStep S) m.runIDMap
      = m.runIDMap.foldl (fun acc e => if (fun e : String × String => (S.get e.2).isNone) e
          then GoMap.delete acc e.1 else acc) m.runIDMap := rfl
  rw [hfold, GoMap.foldl_delete_eq_filter (fun e : String × String => (S.get e.2).isNone)]
  apply List.filter_congr
  intro x hx
  by_cases hs : (S.get x.2).isNone = true
  · have : m.runIDMap.any (fun e => decide (e.1 = x.1) && (S.get e.2).isNone) = true := by
      rw [List.any_eq_true]
      exact ⟨x, hx, by simp [hs]⟩
    rw [this]
    rw [Option.isNone_iff_eq_none] at hs
    simp [hs]
  · have : m.runIDMap.any (fun e => decide (e.1 = x.1) && (S.get e.2).isNone) = false := by
      rw [List.any_eq_false]
      intro e he hc
      simp only [Bool.and_eq_true, decide_eq_true_eq] at hc
      obtain ⟨hk, hb⟩ := hc
      have hmem : (x.1, e.2) ∈ m.runIDMap := by
        rw [← hk]; exact he
      have := GoMap.get_unique hwf hmem (show (x.1, x.2) ∈ m.runIDMap from hx)
      rw [this] at hb
      exact hs hb
    rw [this]
    cases hg : S.get x.2 with
    | none => simp [hg] at hs
    | some v => simp

/-- Claim C2. A session registered under key `k` with sender `S`, thread `T` and group flag
`g`, and then associated with run id `r`, is what `GetContextByRunID r` returns: the context
found has `SenderID = S`, `ThreadID = T` and `IsGroup = g` (for `g = false` and for `g = true`
alike), whatever the tracker held before. -/
theorem registerSession_associateRunID_roundtrip (m : ContextManager) (now : Int)
    (k S T r : String) (g : Bool) :
    ∃ ctx, ((m.RegisterSession now k S T g).AssociateRunID r k).GetContextByRunID r = some ctx
      ∧ ctx.SenderID = S ∧ ctx.ThreadID = T ∧ ctx.IsGroup = g := by
  refine ⟨{ SessionKey := k, SenderID := S, ThreadID := T, IsGroup := g, Timestamp := now },
    ?_, rfl, rfl, rfl⟩
  simp [GetContextByRunID, AssociateRunID, RegisterSession, GetSession, GoMap.get_set_self]

/-- Claim C3. `CleanupExpiredSessions` at time `now` with threshold `t`, on a tracker whose
session map is a well-formed map: every session whose timestamp fails the idle test of the
code (`now - Timestamp > t`, computed in `int64`) is gone afterwards, every other session is
still stored unchanged under its key, no key is added, and the returned number is the number
of sessions removed.  The `int64` test is the plain comparison of integers whenever the
difference `now - Timestamp` fits in 64 bits. -/
theorem cleanupExpiredSessions_removes_exactly_expired (m : ContextManager) (now t : Int)
    (hwf : m.sessions.WF) :
    (∀ k s, m.GetSession k = some s → sessionExpired now t s = true →
        (m.CleanupExpiredSessions now t).1.GetSession k = none)
    ∧ (∀ k s, m.GetSession k = some s → sessionExpired now t s = false →
        (m.CleanupExpiredSessions now t).1.GetSession k = some s)
    ∧ (∀ k, m.GetSession k = none → (m.CleanupExpiredSessions now t).1.GetSession k = none)
    ∧ (m.CleanupExpiredSessions now t).2
        = m.GetSessionCount - (m.CleanupExpiredSessions now t).1.GetSessionCount
    ∧ (∀ s : SessionContext, -(2 ^ 63) ≤ now - s.Timestamp → now - s.Timestamp < 2 ^ 63 →
        (sessionExpired now t s = true ↔ now - s.Timestamp > t)) := by
  have hget : ∀ k, (m.CleanupExpiredSessions now t).1.GetSession k
      = (m.sessions.get k).bind
          (fun v => if (!sessionExpired now t v) = true then some v else none) := by
    intro k
    simp only [GetSession, cleanup_sessions_eq m now t hwf]
    exact GoMap.get_filter hwf (fun e => !sessionExpired now t e.2) k
  refine ⟨?_, ?_, ?_, ?_, ?_⟩
  · intro k s hs hexp
    rw [hget]
    simp only [GetSession] at hs
    simp [hs, hexp]
  · intro k s hs hexp
    rw [hget]
    simp only [GetSession] at hs
    simp [hs, hexp]
  · intro k hs
    rw [hget]
    simp only [GetSession] at hs
    simp [hs]
  · rw [cleanup_count_eq]
    simp only [GetSessionCount, cleanup_sessions_eq m now t hwf]
    have hlen := List.length_eq_countP_add_countP
      (fun e : String × SessionContext => sessionExpired now t e.2) m.sessions
    have hfil : (m.sessions.filter (fun e => !sessionExpired now t e.2)).length
        = m.sessions.countP (fun e => !sessionExpired now t e.2) := by
      rw [List.countP_eq_length_filter]
    rw [hfil]
    have hcongr : m.sessions.countP (fun e => !sessionExpired now t e.2)
        = m.sessions.countP (fun a => decide ¬ (sessionExpired now t a.2 = true)) := by
      apply List.countP_congr
      intro x _
      simp
    rw [hcongr]
    omega
  · intro s hlo hhi
    simp only [sessionExpired, subInt64, wrapInt64_of_inRange hlo hhi, decide_eq_true_eq]

/-- Claim C4. After `CleanupExpiredSessions`, on a tracker whose run map is a well-formed
map: every run id still in the run map refers to a session key that is still in the session
map, and every run id whose session key is still in the session map keeps its entry. -/
theorem cleanupExpiredSessions_runIDMap_no_orphans (m : ContextManager) (now t : Int)
    (hwf : m.runIDMap.WF) :
    (∀ r k, (m.CleanupExpiredSessions now t).1.runIDMap.get r = some k →
        ∃ s, (m.CleanupExpiredSessions now t).1.GetSession k = some s)
    ∧ (∀ r k s, m.runIDMap.get r = some k →
        (m.CleanupExpiredSessions now t).1.GetSession k = some s →
        (m.CleanupExpiredSessions now t).1.runIDMap.get r = some k) := by
  have hget : ∀ r, (m.CleanupExpiredSessions now t).1.runIDMap.get r
      = (m.runIDMap.get r).bind (fun k =>
          if ((m.CleanupExpiredSessions now t).1.sessions.get k).isSome = true
          then some k else none) := by
    intro r
    rw [cleanup_runIDMap_eq m now t hwf]
    exact GoMap.get_filter hwf
      (fun e => ((m.CleanupExpiredSessions now t).1.sessions.get e.2).isSome) r
  constructor
  · intro r k hr
    rw [hget] at hr
    cases hm : m.runIDMap.get r with
    | none => simp [hm] at hr
    | some k0 =>
      simp only [hm, Option.some_bind] at hr
      by_cases hsome : ((m.CleanupExpiredSessions now t).1.sessions.get k0).isSome = true
      · simp only [hsome, if_true] at hr
        cases hr
        exact Option.isSome_iff_exists.mp hsome
      · simp [hsome] at hr
  · intro r k s hr hs
    rw [hget, hr]
    simp only [GetSession] at hs
    simp [hs]

end ContextManager

/-! ## The request/response correlator -/

namespace ResponseHandler

theorem lt_length_of_getElem? {α : Type} {l : List α} {i : Nat} {a : α}
    (h : l[i]? = some a) : i < l.length := by
  by_contra hc
  rw [List.getElem?_eq_none (by omega)] at h
  cases h

theorem delete_cons_self {rest : GoMap Nat} {id : String} {ch : Nat}
    (hwf : GoMap.WF ((id, ch) :: rest)) : GoMap.delete ((id, ch) :: rest) id = rest := by
  have hnd : id ∉ GoMap.keys rest ∧ (GoMap.keys rest).Nodup := by
    simpa [GoMap.WF, GoMap.keys] using hwf
  simp only [GoMap.delete, if_true]
  rw [GoMap.delete_eq_filter]
  apply List.filter_eq_self.mpr
  intro e he
  have : e.1 ≠ id := by
    intro h
    exact hnd.1 (h ▸ List.mem_map_of_mem Prod.fst he)
  simpa using this

theorem mem_delete {m : GoMap Nat} {id id' : String} {ch : Nat}
    (h : (id', ch) ∈ GoMap.delete m id) : (id', ch) ∈ m ∧ id' ≠ id := by
  rw [GoMap.delete_eq_filter] at h
  have := List.mem_filter.mp h
  exact ⟨this.1, by simpa using this.2⟩

theorem inv_init (t : Nat) : Inv (NewResponseHandlerWithTimeout t) := by
  refine ⟨?_, ?_, ?_, ?_⟩
  · simp [NewResponseHandlerWithTimeout, GoMap.WF, GoMap.keys]
  · simp [NewResponseHandlerWithTimeout]
  · intro id ch h
    simp [NewResponseHandlerWithTimeout] at h
  · intro ch buf h
    simp [NewResponseHandlerWithTimeout] at h

theorem inv_register {h : ResponseHandler} (hinv : Inv h) (id : String) :
    Inv (h.RegisterRequest id).1 := by
  refine ⟨?_, ?_, ?_, ?_⟩
  · exact GoMap.wf_set hinv.wf id _
  · simp only [RegisterRequest, GoMap.set, List.map_cons, List.nodup_cons]
    constructor
    · intro hmem
      obtain ⟨e, he, hch⟩ := List.mem_map.mp hmem
      have he' := (mem_delete (show (e.1, e.2) ∈ GoMap.delete h.pendingRequests id from he)).1
      have := lt_length_of_getElem? (hinv.empty e.1 e.2 he')
      omega
    · rw [GoMap.delete_eq_filter]
      exact ((List.filter_sublist _).map Prod.snd).nodup hinv.inj
  · intro id' ch hmem
    simp only [RegisterRequest, GoMap.set, List.mem_cons] at hmem
    rcases hmem with heq | hmem
    · cases heq
      simp [RegisterRequest]
    · have := hinv.empty id' ch (mem_delete hmem).1
      have hlt := lt_length_of_getElem? this
      simp only [RegisterRequest]
      rw [List.getElem?_append_left hlt]
      exact this
  · intro ch buf hb
    simp only [RegisterRequest] at hb
    by_cases hlt : ch < h.chans.length
    · rw [List.getElem?_append_left hlt] at hb
      exact hinv.cap ch buf hb
    · rw [List.getElem?_append_right (by omega)] at hb
      by_cases h0 : ch - h.chans.length = 0
      · simp [h0] at hb
        subst hb
        simp
      · have : (([[]] : List (List ResponseMessage)))[ch - h.chans.length]? = none := by
          apply List.getElem?_eq_none
          simp
          omega
        rw [this] at hb
        cases hb

theorem send_delete_eq {h : ResponseHandler} (hinv : Inv h) {id : String} {ch : Nat}
    (hmem : (id, ch) ∈ h.pendingRequests) (msg : ResponseMessage) :
    (chanSend h ch msg).map
        (fun h1 => { h1 with pendingRequests := h1.pendingRequests.delete id })
      = some (delivered h id ch msg) := by
  simp [chanSend, hinv.empty id ch hmem, delivered]

theorem inv_delivered {h : ResponseHandler} (hinv : Inv h) {id : String} {ch : Nat}
    (hmem : (id, ch) ∈ h.pendingRequests) (msg : ResponseMessage) :
    Inv (delivered h id ch msg) := by
  have hlt := lt_length_of_getElem? (hinv.empty id ch hmem)
  refine ⟨?_, ?_, ?_, ?_⟩
  · exact GoMap.wf_delete hinv.wf id
  · simp only [delivered]
    rw [GoMap.delete_eq_filter]
    exact ((List.filter_sublist _).map Prod.snd).nodup hinv.inj
  · intro id' ch' hmem'
    simp only [delivered] at hmem' ⊢
    obtain ⟨hm, hne⟩ := mem_delete hmem'
    have hch : ch ≠ ch' := by
      intro heq
      subst heq
      have := List.inj_on_of_nodup_map hinv.inj hmem hm rfl
      exact hne (congrArg Prod.fst this).symm
    rw [List.getElem?_set]
    simp [hch, hinv.empty id' ch' hm]
  · intro ch' buf hb
    simp only [delivered] at hb
    rw [List.getElem?_set] at hb
    by_cases hch : ch = ch'
    · simp [hch] at hb
      rw [← hb.2]
      simp
    · simp [hch] at hb
      exact hinv.cap ch' buf hb

theorem handleResponse_eq {h : ResponseHandler} (hinv : Inv h) (r : ResponseMessage) :
    h.HandleResponse r
      = some (match h.pendingRequests.get r.RequestID with
              | some ch => delivered h r.RequestID ch r
              | none => h) := by
  unfold HandleResponse
  cases hg : h.pendingRequests.get r.RequestID with
  | none => rfl
  | some ch => exact send_delete_eq hinv (GoMap.mem_of_get hg) r

theorem timeoutWatchdog_eq {h : ResponseHandler} (hinv : Inv h) (id : String) :
    h.timeoutWatchdog id
      = some (match h.pendingRequests.get id with
              | some ch => delivered h id ch
                  { RequestID := id, Code := -1, Msg := "Request timeout" }
              | none => h) := by
  unfold timeoutWatchdog
  cases hg : h.pendingRequests.get id with
  | none => rfl
  | some ch => exact send_delete_eq hinv (GoMap.mem_of_get hg) _

theorem getElem?_set_self_of_some {α : Type} {l : List α} {i : Nat} {a b : α}
    (h : l[i]? = some a) : (l.set i b)[i]? = some b := by
  have hlt := lt_length_of_getElem? h
  simp [List.getElem?_set, hlt]

theorem clearLoop_spec : ∀ (l : List (String × Nat)) (h : ResponseHandler), Inv h →
    h.pendingRequests = l →
    ∃ h', clearLoop l h = some h' ∧ Inv h' ∧ h'.pendingRequests = [] ∧
      h'.timeout = h.timeout ∧
      (∀ (id : String) (ch : Nat), (id, ch) ∈ l → h'.chans[ch]? = some [closedResponse id]) ∧
      (∀ ch : Nat, (∀ id : String, (id, ch) ∉ l) → h'.chans[ch]? = h.chans[ch]?) := by
  intro l
  induction l with
  | nil =>
    intro h hinv hp
    exact ⟨h, rfl, hinv, hp, rfl, by simp, fun _ _ => rfl⟩
  | cons e rest ih =>
    intro h hinv hp
    obtain ⟨id, ch⟩ := e
    have hmem : (id, ch) ∈ h.pendingRequests := by simp [hp]
    have hstep : clearStep h (id, ch) = some (delivered h id ch (closedResponse id)) := by
      unfold clearStep
      exact send_delete_eq hinv hmem _
    have hp1 : (delivered h id ch (closedResponse id)).pendingRequests = rest := by
      simp only [delivered, hp]
      exact delete_cons_self (hp ▸ hinv.wf)
    have hnd : ch ∉ rest.map Prod.snd := by
      have := hinv.inj
      rw [hp] at this
      simp only [List.map_cons, List.nodup_cons] at this
      exact this.1
    obtain ⟨h', hrun, hinv', hnil, hto, hin, hout⟩ :=
      ih (delivered h id ch (closedResponse id)) (inv_delivered hinv hmem _) hp1
    refine ⟨h', ?_, hinv', hnil, ?_, ?_, ?_⟩
    · simp [clearLoop, hstep, hrun]
    · rw [hto]; rfl
    · intro id' ch' hm
      rcases List.mem_cons.mp hm with heq | hm
      · cases heq
        have hno : ∀ id'' : String, (id'', ch) ∉ rest := by
          intro id'' hc
          exact hnd (List.mem_map_of_mem Prod.snd hc)
        rw [hout ch hno]
        simp only [delivered]
        exact getElem?_set_self_of_some (hinv.empty id ch hmem)
      · exact hin id' ch' hm
    · intro ch' hno
      have hne : ch ≠ ch' := by
        intro heq
        subst heq
        exact hno id (List.mem_cons_self _ _)
      rw [hout ch' (fun id' hc => hno id' (List.mem_cons_of_mem _ hc))]
      simp [delivered, List.getElem?_set, hne]

theorem clear_spec {h : ResponseHandler} (hinv : Inv h) :
    ∃ h', h.Clear = some h' ∧ Inv h' ∧ h'.pendingRequests = [] ∧
      h'.timeout = h.timeout ∧
      (∀ (id : String) (ch : Nat), (id, ch) ∈ h.pendingRequests →
        h'.chans[ch]? = some [closedResponse id]) ∧
      (∀ ch : Nat, (∀ id : String, (id, ch) ∉ h.pendingRequests) →
        h'.chans[ch]? = h.chans[ch]?) :=
  clearLoop_spec h.pendingRequests h hinv rfl

theorem step_inv {h : ResponseHandler} (hinv : Inv h) (op : Op) :
    ∃ h', step h op = some h' ∧ Inv h' := by
  cases op with
  | register id => exact ⟨_, rfl, inv_register hinv id⟩
  | response r =>
    refine ⟨_, handleResponse_eq hinv r, ?_⟩
    cases hg : h.pendingRequests.get r.RequestID with
    | none => exact hinv
    | some ch => exact inv_delivered hinv (GoMap.mem_of_get hg) r
  | watchdog id =>
    refine ⟨_, timeoutWatchdog_eq hinv id, ?_⟩
    cases hg : h.pendingRequests.get id with
    | none => exact hinv
    | some ch => exact inv_delivered hinv (GoMap.mem_of_get hg) _
  | clear =>
    obtain ⟨h', hc, hinv', _⟩ := clear_spec hinv
    exact ⟨h', hc, hinv'⟩

theorem run_inv : ∀ (ops : List Op) (h : ResponseHandler), Inv h →
    ∃ h', run h ops = some h' ∧ Inv h' := by
  intro ops
  induction ops with
  | nil => intro h hinv; exact ⟨h, rfl, hinv⟩
  | cons op rest ih =>
    intro h hinv
    obtain ⟨h1, hs, hinv1⟩ := step_inv hinv op
    obtain ⟨h2, hr, hinv2⟩ := ih h1 hinv1
    exact ⟨h2, by simp [run, hs, hr], hinv2⟩

theorem mem_delete_of_ne {m : GoMap Nat} {id id' : String} {ch : Nat}
    (h : (id, ch) ∈ m) (hne : id ≠ id') : (id, ch) ∈ GoMap.delete m id' := by
  rw [GoMap.delete_eq_filter]
  exact List.mem_filter.mpr ⟨h, by simpa using hne⟩

/-- A channel that holds a message keeps exactly that message. -/
theorem settled_step {h h' : ResponseHandler} (hinv : Inv h) {ch : Nat} {m : ResponseMessage}
    (hs : h.chans[ch]? = some [m]) (op : Op) (hstep : step h op = some h') :
    h'.chans[ch]? = some [m] := by
  have hfree : ∀ (id : String) (ch' : Nat), (id, ch') ∈ h.pendingRequests → ch' ≠ ch := by
    intro id ch' hmem heq
    subst heq
    rw [hinv.empty id ch' hmem] at hs
    cases hs
  have hdel : ∀ (id : String) (ch' : Nat) (msg : ResponseMessage),
      (id, ch') ∈ h.pendingRequests → (delivered h id ch' msg).chans[ch]? = some [m] := by
    intro id ch' msg hmem
    simp [delivered, List.getElem?_set, hfree id ch' hmem, hs]
  cases op with
  | register id =>
    simp only [step, RegisterRequest, Option.some.injEq] at hstep
    subst hstep
    simp only
    rw [List.getElem?_append_left (lt_length_of_getElem? hs)]
    exact hs
  | response r =>
    simp only [step] at hstep
    rw [handleResponse_eq hinv r] at hstep
    cases hg : h.pendingRequests.get r.RequestID with
    | none =>
      simp only [hg, Option.some.injEq] at hstep
      subst hstep
      exact hs
    | some ch' =>
      simp only [hg, Option.some.injEq] at hstep
      subst hstep
      exact hdel _ _ _ (GoMap.mem_of_get hg)
  | watchdog id =>
    simp only [step] at hstep
    rw [timeoutWatchdog_eq hinv id] at hstep
    cases hg : h.pendingRequests.get id with
    | none =>
      simp only [hg, Option.some.injEq] at hstep
      subst hstep
      exact hs
    | some ch' =>
      simp only [hg, Option.some.injEq] at hstep
      subst hstep
      exact hdel _ _ _ (GoMap.mem_of_get hg)
  | clear =>
    obtain ⟨h2, hc, _, _, _, _, hout⟩ := clear_spec hinv
    simp only [step] at hstep
    rw [hc] at hstep
    cases hstep
    rw [hout ch (fun id hmem => hfree id ch hmem rfl)]
    exact hs

/-- A registered request stays registered under a step that does not answer it, and its
channel holds one message after a step that answers it. -/
theorem open_step {h h' : ResponseHandler} (hinv : Inv h) {id : String} {ch : Nat}
    (hmem : (id, ch) ∈ h.pendingRequests) (op : Op) (hstep : step h op = some h')
    (hreg : op ≠ .register id) :
    (answers id op = true → ∃ m, h'.chans[ch]? = some [m])
    ∧ (answers id op = false → (id, ch) ∈ h'.pendingRequests) := by
  have hget : h.pendingRequests.get id = some ch := GoMap.get_of_mem hinv.wf hmem
  have hdel_self : ∀ msg : ResponseMessage, (delivered h id ch msg).chans[ch]? = some [msg] := by
    intro msg
    simp only [delivered]
    exact getElem?_set_self_of_some (hinv.empty id ch hmem)
  cases op with
  | register id' =>
    have hne : id ≠ id' := by
      intro heq
      subst heq
      exact hreg rfl
    simp only [step, RegisterRequest, Option.some.injEq] at hstep
    subst hstep
    refine ⟨by simp [answers], fun _ => ?_⟩
    simp only [GoMap.set]
    exact List.mem_cons_of_mem _ (mem_delete_of_ne hmem hne)
  | response r =>
    simp only [step] at hstep
    rw [handleResponse_eq hinv r] at hstep
    by_cases hid : r.RequestID = id
    · rw [hid, hget] at hstep
      simp only [Option.some.injEq] at hstep
      subst hstep
      exact ⟨fun _ => ⟨r, hdel_self r⟩, by simp [answers, hid]⟩
    · refine ⟨by simp [answers, hid], fun _ => ?_⟩
      cases hg : h.pendingRequests.get r.RequestID with
      | none =>
        simp only [hg, Option.some.injEq] at hstep
        subst hstep
        exact hmem
      | some ch' =>
        simp only [hg, Option.some.injEq] at hstep
        subst hstep
        exact mem_delete_of_ne hmem (fun heq => hid heq.symm)
  | watchdog id' =>
    simp only [step] at hstep
    rw [timeoutWatchdog_eq hinv id'] at hstep
    by_cases hid : id' = id
    · rw [hid, hget] at hstep
      simp only [Option.some.injEq] at hstep
      subst hstep
      exact ⟨fun _ => ⟨_, hdel_self _⟩, by simp [answers, hid]⟩
    · refine ⟨by simp [answers, hid], fun _ => ?_⟩
      cases hg : h.pendingRequests.get id' with
      | none =>
        simp only [hg, Option.some.injEq] at hstep
        subst hstep
        exact hmem
      | some ch' =>
        simp only [hg, Option.some.injEq] at hstep
        subst hstep
        exact mem_delete_of_ne hmem (fun heq => hid heq.symm)
  | clear =>
    obtain ⟨h2, hc, _, _, _, hin, _⟩ := clear_spec hinv
    simp only [step] at hstep
    rw [hc] at hstep
    cases hstep
    exact ⟨fun _ => ⟨_, hin id ch hmem⟩, by simp [answers]⟩

theorem registeredIDs_append (a b : List Op) :
    registeredIDs (a ++ b) = registeredIDs a ++ registeredIDs b := by
  induction a with
  | nil => rfl
  | cons op rest ih => cases op <;> simp [registeredIDs, ih]

theorem not_registered_cons {id : String} {op : Op} {rest : List Op}
    (h : id ∉ registeredIDs (op :: rest)) : op ≠ .register id ∧ id ∉ registeredIDs rest := by
  cases op with
  | register id' =>
    simp only [registeredIDs, List.mem_cons, not_or] at h
    exact ⟨fun heq => h.1 (by cases heq; rfl), h.2⟩
  | response r => exact ⟨by simp, by simpa [registeredIDs] using h⟩
  | watchdog id' => exact ⟨by simp, by simpa [registeredIDs] using h⟩
  | clear => exact ⟨by simp, by simpa [registeredIDs] using h⟩

theorem received_of_getElem? {h : ResponseHandler} {ch : Nat} {buf : List ResponseMessage}
    (hb : h.chans[ch]? = some buf) : h.received ch = buf := by
  simp [received, hb]

theorem received_length_le_one {h : ResponseHandler} (hinv : Inv h) (ch : Nat) :
    (h.received ch).length ≤ 1 := by
  cases hb : h.chans[ch]? with
  | none => simp [received, hb]
  | some buf =>
    rw [received_of_getElem? hb]
    exact hinv.cap ch buf hb

/-- From a state in which the request `id` is registered with channel `ch`, or in which `ch`
already holds its message, every sequence of steps that does not register `id` again runs
through, and `ch` holds exactly one message as soon as one step has answered `id`. -/
theorem run_track (id : String) (ch : Nat) : ∀ (post : List Op) (h : ResponseHandler),
    Inv h → ((id, ch) ∈ h.pendingRequests ∨ ∃ m, h.chans[ch]? = some [m]) →
    id ∉ registeredIDs post →
    ∃ h', run h post = some h' ∧
      (((∃ m, h.chans[ch]? = some [m]) ∨ post.any (answers id) = true) →
        ∃ m, h'.chans[ch]? = some [m]) := by
  intro post
  induction post with
  | nil =>
    intro h _ _ _
    refine ⟨h, rfl, ?_⟩
    rintro (hs | hany)
    · exact hs
    · simp at hany
  | cons op rest ih =>
    intro h hinv hstate hnot
    obtain ⟨hreg, hnot'⟩ := not_registered_cons hnot
    obtain ⟨h1, hs1, hinv1⟩ := step_inv hinv op
    have hstate1 : ((id, ch) ∈ h1.pendingRequests ∨ ∃ m, h1.chans[ch]? = some [m])
        ∧ (((∃ m, h.chans[ch]? = some [m]) ∨ answers id op = true) →
            ∃ m, h1.chans[ch]? = some [m]) := by
      rcases hstate with hopen | ⟨m, hm⟩
      · obtain ⟨hyes, hno⟩ := open_step hinv hopen op hs1 hreg
        constructor
        · cases ha : answers id op with
          | true => exact Or.inr (hyes ha)
          | false => exact Or.inl (hno ha)
        · rintro (⟨m, hm⟩ | ha)
          · exact ⟨m, settled_step hinv hm op hs1⟩
          · exact hyes ha
      · have := settled_step hinv hm op hs1
        exact ⟨Or.inr ⟨m, this⟩, fun _ => ⟨m, this⟩⟩
    obtain ⟨h2, hr2, hfin⟩ := ih h1 hinv1 hstate1.1 hnot'
    refine ⟨h2, by simp [run, hs1, hr2], ?_⟩
    intro hpre
    apply hfin
    rcases hpre with hs | hany
    · exact Or.inl (hstate1.2 (Or.inl hs))
    · simp only [List.any_cons, Bool.or_eq_true] at hany
      rcases hany with ha | hany
      · exact Or.inl (hstate1.2 (Or.inr ha))
      · exact Or.inr hany

/-- Claim C1. Take any sequence of `RegisterRequest`, `HandleResponse`, watchdog firings and
`Clear` on a fresh handler, cut at the registration of a request `id`: the steps before it
and the steps after it all go through (no send blocks), the channel returned for `id` holds
at most one response at the end, whatever comes after the registration, and, when every
request id of the sequence is registered at most once, it holds exactly one response as
soon as `HandleResponse` for `id`, the watchdog of `id`, or `Clear` is among the later
steps. -/
theorem registered_channel_receives_exactly_once (t : Nat) (pre post : List Op)
    (id : String) :
    ∃ h1 h3, run (NewResponseHandlerWithTimeout t) pre = some h1 ∧
      run (h1.RegisterRequest id).1 post = some h3 ∧
      (h3.received (h1.RegisterRequest id).2).length ≤ 1 ∧
      ((registeredIDs (pre ++ Op.register id :: post)).Nodup →
        post.any (answers id) = true →
        (h3.received (h1.RegisterRequest id).2).length = 1) := by
  obtain ⟨h1, hr1, hinv1⟩ := run_inv pre _ (inv_init t)
  have hinv2 := inv_register hinv1 id
  obtain ⟨h3, hr3, hinv3⟩ := run_inv post _ hinv2
  refine ⟨h1, h3, hr1, hr3, received_length_le_one hinv3 _, ?_⟩
  intro hnd hany
  have hnot : id ∉ registeredIDs post := by
    rw [registeredIDs_append] at hnd
    have := (List.nodup_append.mp hnd).2.1
    simp only [registeredIDs, List.nodup_cons] at this
    exact this.1
  have hopen : (id, (h1.RegisterRequest id).2) ∈ (h1.RegisterRequest id).1.pendingRequests := by
    simp [RegisterRequest, GoMap.set]
  obtain ⟨h3', hr3', hfin⟩ := run_track id _ post _ hinv2 (Or.inl hopen) hnot
  rw [hr3] at hr3'
  cases hr3'
  obtain ⟨m, hm⟩ := hfin (Or.inr hany)
  rw [received_of_getElem? hm]
  rfl

/-- Claim C9. In every state `h` that a handler reaches (every sequence of steps on a fresh
handler goes through), `HandleResponse response` goes through and: when
`response.RequestID` is registered with channel `ch`, that channel, empty before, then holds
exactly `response`, the id is no longer registered, every other id is registered as before
and every other channel holds what it held; when the id is not registered the handler is
unchanged, so nothing is delivered. -/
theorem handleResponse_delivers_or_discards (t : Nat) (ops : List Op)
    (response : ResponseMessage) :
    ∃ h, run (NewResponseHandlerWithTimeout t) ops = some h ∧
      (∀ ch : Nat, h.pendingRequests.get response.RequestID = some ch →
        ∃ h', h.HandleResponse response = some h' ∧
          h.received ch = [] ∧ h'.received ch = [response] ∧
          h'.pendingRequests.get response.RequestID = none ∧
          (∀ id : String, id ≠ response.RequestID →
            h'.pendingRequests.get id = h.pendingRequests.get id) ∧
          (∀ ch' : Nat, ch' ≠ ch → h'.received ch' = h.received ch')) ∧
      (h.pendingRequests.get response.RequestID = none →
        h.HandleResponse response = some h) := by
  obtain ⟨h, hr, hinv⟩ := run_inv ops _ (inv_init t)
  refine ⟨h, hr, ?_, ?_⟩
  · intro ch hg
    have hmem := GoMap.mem_of_get hg
    refine ⟨delivered h response.RequestID ch response, ?_, ?_, ?_, ?_, ?_, ?_⟩
    · rw [handleResponse_eq hinv response, hg]
    · exact received_of_getElem? (hinv.empty _ _ hmem)
    · apply received_of_getElem?
      simp only [delivered]
      exact getElem?_set_self_of_some (hinv.empty _ _ hmem)
    · exact GoMap.get_delete_self _ _
    · intro id hne
      exact GoMap.get_delete_ne _ hne
    · intro ch' hne
      simp [received, delivered, List.getElem?_set, Ne.symm hne]
  · intro hg
    rw [handleResponse_eq hinv response, hg]

/-- Claim C10, as amended. In every state `h` that a handler reaches, `Clear` goes through;
afterwards the registry is empty and the channel of every request that was outstanding
holds exactly one response, carrying the id of that request, code -1 and the message
`"Connection closed"`. -/
theorem clear_resolves_every_pending_request (t : Nat) (ops : List Op) :
    ∃ h h', run (NewResponseHandlerWithTimeout t) ops = some h ∧ h.Clear = some h' ∧
      h'.pendingRequests = [] ∧
      (∀ (id : String) (ch : Nat), h.pendingRequests.get id = some ch →
        h'.received ch = [{ RequestID := id, Code := -1, Msg := "Connection closed" }]) := by
  obtain ⟨h, hr, hinv⟩ := run_inv ops _ (inv_init t)
  obtain ⟨h', hc, _, hnil, _, hin, _⟩ := clear_spec hinv
  refine ⟨h, h', hr, hc, hnil, ?_⟩
  intro id ch hg
  exact received_of_getElem? (hin id ch (GoMap.mem_of_get hg))

end ResponseHandler

/-! ## The agent-side client -/

namespace WebSocketClient

theorem eventState_of_end {payload : AgentPayload} {d : AgentData}
    (hd : payload.data = some d) (hp : d.phase = some "end") :
    eventState payload = "completed" := by
  simp [eventState, hd, hp]

/-- What `handleAgentEvent` does once the lookup has found a context. -/
theorem handleAgentEvent_of_lookup (c : WebSocketClient) (now : Int) (payload : AgentPayload)
    {r : String} (hr : payload.runId = some r) (hne : r ≠ "")
    {ctx0 : MessageContext} {cs0 : GoMap MessageContext}
    (hl : c.lookupContext now r = (some ctx0, cs0)) :
    c.handleAgentEvent now { payload := some payload }
      = ({ c with messageContexts :=
            if eventState payload = "completed" then
              GoMap.delete (if eventText payload ≠ "" then
                cs0.set r (if eventText payload ≠ "" then
                  { ctx0 with LastText := eventText payload } else ctx0) else cs0) r
            else (if eventText payload ≠ "" then
                cs0.set r (if eventText payload ≠ "" then
                  { ctx0 with LastText := eventText payload } else ctx0) else cs0) },
         c.notify (.OnResponse
          { type := "streaming",
            Channel := some { PeerID := ctx0.SenderID, ThreadID := ctx0.ThreadID,
                              IsGroup := ctx0.IsGroup },
            Message := some
              { Text :=
                  if eventState payload = "completed" ∧ eventText payload = ""
                      ∧ (if eventText payload ≠ "" then eventText payload
                          else ctx0.LastText) ≠ "" then
                    (if eventText payload ≠ "" then eventText payload else ctx0.LastText)
                  else eventText payload,
                Extra := [("streamId", r), ("state", eventState payload)] } })) := by
  simp only [handleAgentEvent, hr, Option.getD_some, hne, if_false, hl]
  by_cases ht : eventText payload = ""
  · simp [ht]
  · simp [ht]

theorem handleAgentEvent_of_no_context (c : WebSocketClient) (now : Int)
    (payload : AgentPayload) {r : String} (hr : payload.runId = some r)
    {cs0 : GoMap MessageContext} (hl : c.lookupContext now r = (none, cs0)) :
    c.handleAgentEvent now { payload := some payload } = (c, []) := by
  simp only [handleAgentEvent, hr, Option.getD_some, hl]
  by_cases hne : r = ""
  · simp [hne]
  · simp [hne]

theorem lookupContext_of_get {c : WebSocketClient} {r : String} {ctx : MessageContext}
    (h : c.messageContexts.get r = some ctx) (now : Int) :
    c.lookupContext now r = (some ctx, c.messageContexts) := by
  simp [lookupContext, h]

theorem lookupContext_none_get {c : WebSocketClient} {r : String} {now : Int}
    {cs0 : GoMap MessageContext} (h : c.lookupContext now r = (none, cs0)) :
    c.messageContexts.get r = none := by
  cases hg : c.messageContexts.get r with
  | none => rfl
  | some ctx => rw [lookupContext_of_get hg] at h; cases h

/-- Claim C8. An agent event carrying the run id `r` that has no message context in the
client, and either no association in the tracker or an association with a session that no
longer exists, is answered from the default session context: when the tracker holds a
default session `d`, the reply handed to the message handler is addressed to the sender,
thread and group flag of `d`; when there is no default session (or no tracker), no reply
is emitted. -/
theorem agentEvent_falls_back_to_default_session (c : WebSocketClient) (now : Int)
    (payload : AgentPayload) (r : String) (hr : payload.runId = some r) (hne : r ≠ "")
    (hctx : c.messageContexts.get r = none)
    (hassoc : ∀ m, c.sessionContextMgr = some m →
      m.runIDMap.get r = none ∨ ∃ k, m.runIDMap.get r = some k ∧ m.sessions.get k = none) :
    (∀ m d, c.sessionContextMgr = some m → m.GetDefaultSessionContext = some d →
      ∃ response,
        (c.handleAgentEvent now { payload := some payload }).2
          = c.notify (.OnResponse response)
        ∧ response.Channel
          = some { PeerID := d.SenderID, ThreadID := d.ThreadID, IsGroup := d.IsGroup })
    ∧ ((∀ m, c.sessionContextMgr = some m → m.GetDefaultSessionContext = none) →
      (c.handleAgentEvent now { payload := some payload }).2 = []) := by
  have hby : ∀ m, c.sessionContextMgr = some m → m.GetContextByRunID r = none := by
    intro m hm
    rcases hassoc m hm with h | ⟨k, hk, hs⟩
    · simp [ContextManager.GetContextByRunID, h]
    · simp [ContextManager.GetContextByRunID, hk, ContextManager.GetSession, hs]
  constructor
  · intro m d hm hd
    let ctx : MessageContext :=
      { SenderID := d.SenderID, ThreadID := d.ThreadID, IsGroup := d.IsGroup,
        Timestamp := now }
    have hl : c.lookupContext now r = (some ctx, c.messageContexts.set r ctx) := by
      simp [lookupContext, hctx, hm, hby m hm, hd, ctx]
    rw [handleAgentEvent_of_lookup c now payload hr hne hl]
    exact ⟨_, rfl, rfl⟩
  · intro hnone
    have hl : c.lookupContext now r = (none, c.messageContexts) := by
      cases hm : c.sessionContextMgr with
      | none => simp [lookupContext, hctx, hm]
      | some m => simp [lookupContext, hctx, hm, hby m hm, hnone m hm]
    rw [handleAgentEvent_of_no_context c now payload hr hl]

/-- Claim C7, as amended. A terminal event removes the run from the message-context map of
the client and leaves the tracker as it was: after an agent event with phase `"end"` for
the run id `r`, and after a chat event with state `"final"` or `"error"` for `r`, the
client holds no message context for `r` and the tracker (its run map included) is
unchanged; a chat event with any other state changes nothing. -/
theorem terminal_event_removes_message_context (c : WebSocketClient) :
    (∀ (now : Int) (payload : AgentPayload) (r : String) (d : AgentData),
      payload.runId = some r → r ≠ "" → payload.data = some d → d.phase = some "end" →
      ((c.handleAgentEvent now { payload := some payload }).1.messageContexts.get r = none
        ∧ (c.handleAgentEvent now { payload := some payload }).1.sessionContextMgr
            = c.sessionContextMgr))
    ∧ (∀ (payload : ChatPayload) (r : String), payload.runId = some r →
      (payload.state = some "final" ∨ payload.state = some "error") →
      ((c.handleChatEvent { payload := some payload }).messageContexts.get r = none
        ∧ (c.handleChatEvent { payload := some payload }).sessionContextMgr
            = c.sessionContextMgr))
    ∧ (∀ event : ChatEvent,
      (∀ p, event.payload = some p → p.state ≠ some "final" ∧ p.state ≠ some "error") →
      c.handleChatEvent event = c) := by
  refine ⟨?_, ?_, ?_⟩
  · intro now payload r d hr hne hd hp
    have hst := eventState_of_end hd hp
    cases hl : c.lookupContext now r with
    | mk o cs0 =>
      cases o with
      | none =>
        rw [handleAgentEvent_of_no_context c now payload hr hl]
        exact ⟨lookupContext_none_get hl, rfl⟩
      | some ctx0 =>
        rw [handleAgentEvent_of_lookup c now payload hr hne hl]
        refine ⟨?_, rfl⟩
        simp only [hst, if_true]
        exact GoMap.get_delete_self _ _
  · intro payload r hr hs
    have hs' : payload.state.getD "" = "final" ∨ payload.state.getD "" = "error" := by
      rcases hs with h | h
      · left; simp [h]
      · right; simp [h]
    have heq : c.handleChatEvent { payload := some payload }
        = { c with messageContexts := c.messageContexts.delete r } := by
      simp only [handleChatEvent, hr, Option.getD_some, hs', if_true]
    rw [heq]
    exact ⟨GoMap.get_delete_self _ _, rfl⟩
  · intro event hev
    cases hpl : event.payload with
    | none => simp [handleChatEvent, hpl]
    | some p =>
      obtain ⟨h1, h2⟩ := hev p hpl
      have hs' : ¬ (p.state.getD "" = "final" ∨ p.state.getD "" = "error") := by
        cases hst : p.state with
        | none => simp
        | some st =>
          rw [hst] at h1 h2
          simp only [Option.getD_some]
          intro hc
          rcases hc with hc | hc
          · exact h1 (by rw [hc])
          · exact h2 (by rw [hc])
      simp [handleChatEvent, hpl, hs']

theorem get_filter_key {V : Type} (m : GoMap V) (p : String → Bool) (k : String) :
    GoMap.get (m.filter (fun e => p e.1)) k = if p k = true then GoMap.get m k else none := by
  induction m with
  | nil => simp [GoMap.get]
  | cons e rest ih =>
    obtain ⟨k', v⟩ := e
    by_cases hp : p k' = true
    · by_cases hk : k' = k
      · subst hk
        simp [List.filter, hp, GoMap.get]
      · simp [List.filter, hp, GoMap.get, hk, ih]
    · by_cases hk : k' = k
      · subst hk
        simp [List.filter, hp, GoMap.get, ih]
      · simp [List.filter, hp, GoMap.get, hk, ih]

theorem cleanup_get (c : WebSocketClient) (now : Int) (r : String) :
    (c.cleanupExpiredContexts now).messageContexts.get r = none
    ∨ (c.cleanupExpiredContexts now).messageContexts.get r = c.messageContexts.get r := by
  have hstep : expireContextStep now
      = fun acc e => if (fun e : String × MessageContext =>
            decide (subInt64 now e.2.Timestamp > 5 * 60 * 1000)) e = true
          then GoMap.delete acc e.1 else acc := by
    funext acc e
    simp [expireContextStep]
  simp only [cleanupExpiredContexts, hstep]
  rw [GoMap.foldl_delete_eq_filter]
  rw [get_filter_key c.messageContexts
    (fun k => !(c.messageContexts.any (fun e => decide (e.1 = k)
      && decide (subInt64 now e.2.Timestamp > 5 * 60 * 1000)))) r]
  split
  · exact Or.inr rfl
  · exact Or.inl rfl

theorem lookupContext_snd_get_ne (c : WebSocketClient) (now : Int) (r' : String) {k : String}
    (hk : k ≠ r') : (c.lookupContext now r').2.get k = c.messageContexts.get k := by
  unfold lookupContext
  cases c.messageContexts.get r' with
  | some ctx => rfl
  | none =>
    cases c.sessionContextMgr with
    | none => rfl
    | some m =>
      simp only
      cases m.GetContextByRunID r' with
      | some s => simp [GoMap.get_set_ne _ _ hk]
      | none =>
        cases m.GetDefaultSessionContext with
        | some s => simp [GoMap.get_set_ne _ _ hk]
        | none => rfl

theorem lookupContext_snd_get_self {c : WebSocketClient} {now : Int} {r : String}
    {ctx0 : MessageContext} {cs0 : GoMap MessageContext}
    (hl : c.lookupContext now r = (some ctx0, cs0)) : cs0.get r = some ctx0 := by
  unfold lookupContext at hl
  cases hg : c.messageContexts.get r with
  | some ctx =>
    simp only [hg, Prod.mk.injEq, Option.some.injEq] at hl
    rw [← hl.1, ← hl.2]
    exact hg
  | none =>
    simp only [hg] at hl
    cases hm : c.sessionContextMgr with
    | none => simp [hm] at hl
    | some m =>
      simp only [hm] at hl
      cases hb : m.GetContextByRunID r with
      | some s =>
        simp only [hb, Prod.mk.injEq, Option.some.injEq] at hl
        rw [← hl.1, ← hl.2]
        exact GoMap.get_set_self _ _ _
      | none =>
        simp only [hb] at hl
        cases hd : m.GetDefaultSessionContext with
        | some s =>
          simp only [hd, Prod.mk.injEq, Option.some.injEq] at hl
          rw [← hl.1, ← hl.2]
          exact GoMap.get_set_self _ _ _
        | none => simp [hd] at hl

/-- The method `send` touches the queue of outgoing frames only. -/
theorem send_fields (c : WebSocketClient) (data : RequestMessage) :
    (c.send data).messageContexts = c.messageContexts
    ∧ (c.send data).pendingRequests = c.pendingRequests
    ∧ (c.send data).sessionContextMgr = c.sessionContextMgr
    ∧ (c.send data).isAuthenticated = c.isAuthenticated
    ∧ (c.send data).isOpen = c.isOpen
    ∧ (c.send data).token = c.token := by
  unfold send
  split <;> simp

theorem send_contexts (c : WebSocketClient) (now : Int) (requestID : String)
    (message : OpenclawOutMessage) (senderID : String) :
    (c.step (.send now requestID message senderID)).messageContexts = c.messageContexts := by
  simp only [step, SendMessage]
  cases c.isAuthenticated <;> simp [(send_fields _ _).1]

theorem response_get (c : WebSocketClient) (now : Int) (frame : ResponseFrame) (r : String)
    (hrev : reveals r (.response now frame) = false) :
    (c.handleResponse now frame).1.messageContexts.get r = c.messageContexts.get r := by
  unfold handleResponse
  cases c.pendingRequests.get frame.id with
  | none => rfl
  | some pending =>
    simp only
    by_cases h1 : pending.Method = "connect"
    · simp only [h1, if_true]
      cases frame.ok <;> rfl
    · simp only [h1, if_false]
      by_cases h2 : pending.Method = "chat.send"
      · simp only [h2, if_true]
        cases hpl : frame.payload with
        | none => rfl
        | some payload =>
          cases hrid : payload.runId with
          | none => simp only [hrid]
          | some runID =>
            have hne : r ≠ runID := by
              intro heq
              simp [reveals, hpl, hrid, heq] at hrev
            simp only [hrid]
            exact GoMap.get_set_ne _ _ hne
      · simp only [h2, if_false]

theorem agent_keeps (c : WebSocketClient) (now : Int) (event : AgentEvent) (r : String)
    (ctx : MessageContext) (hg : c.messageContexts.get r = some ctx) :
    (c.handleAgentEvent now event).1.messageContexts.get r = none
    ∨ ∃ ctx', (c.handleAgentEvent now event).1.messageContexts.get r = some ctx'
        ∧ ctx'.SenderID = ctx.SenderID ∧ ctx'.ThreadID = ctx.ThreadID
        ∧ ctx'.IsGroup = ctx.IsGroup := by
  have hsame : ∀ x : WebSocketClient × List HandlerCall, x.1 = c →
      (x.1.messageContexts.get r = none
      ∨ ∃ ctx', x.1.messageContexts.get r = some ctx'
          ∧ ctx'.SenderID = ctx.SenderID ∧ ctx'.ThreadID = ctx.ThreadID
          ∧ ctx'.IsGroup = ctx.IsGroup) := by
    intro x hx
    rw [hx]
    exact Or.inr ⟨ctx, hg, rfl, rfl, rfl⟩
  obtain ⟨pl⟩ := event
  cases pl with
  | none => exact hsame _ (by simp [handleAgentEvent])
  | some payload =>
    cases hrid : payload.runId with
    | none => exact hsame _ (by simp [handleAgentEvent, hrid])
    | some r' =>
      by_cases hne : r' = ""
      · exact hsame _ (by simp [handleAgentEvent, hrid, hne])
      · by_cases hrr : r' = r
        · subst hrr
          rw [handleAgentEvent_of_lookup c now payload hrid hne (lookupContext_of_get hg now)]
          by_cases hst : eventState payload = "completed"
          · left
            simp only [hst, if_true]
            exact GoMap.get_delete_self _ _
          · right
            simp only [hst, if_false]
            by_cases ht : eventText payload = ""
            · exact ⟨ctx, by simp [ht, hg], rfl, rfl, rfl⟩
            · refine ⟨{ ctx with LastText := eventText payload }, ?_, rfl, rfl, rfl⟩
              simp [ht, GoMap.get_set_self]
        · have hk : r ≠ r' := fun h => hrr h.symm
          cases hl : c.lookupContext now r' with
          | mk o cs0 =>
            cases o with
            | none =>
              exact hsame _ (by rw [handleAgentEvent_of_no_context c now payload hrid hl])
            | some ctx0 =>
              have hcs : cs0.get r = c.messageContexts.get r := by
                have := lookupContext_snd_get_ne c now r' hk
                rw [hl] at this
                exact this
              rw [handleAgentEvent_of_lookup c now payload hrid hne hl]
              right
              refine ⟨ctx, ?_, rfl, rfl, rfl⟩
              by_cases hst : eventState payload = "completed"
              · by_cases ht : eventText payload = ""
                · simp [hst, ht, GoMap.get_delete_ne _ hk, hcs, hg]
                · simp [hst, ht, GoMap.get_delete_ne _ hk, GoMap.get_set_ne _ _ hk, hcs, hg]
              · by_cases ht : eventText payload = ""
                · simp [hst, ht, hcs, hg]
                · simp [hst, ht, GoMap.get_set_ne _ _ hk, hcs, hg]

theorem chat_keeps (c : WebSocketClient) (event : ChatEvent) (r : String) :
    (c.handleChatEvent event).messageContexts.get r = none
    ∨ (c.handleChatEvent event).messageContexts.get r = c.messageContexts.get r := by
  obtain ⟨pl⟩ := event
  cases pl with
  | none => exact Or.inr rfl
  | some payload =>
    simp only [handleChatEvent]
    by_cases hs : payload.state.getD "" = "final" ∨ payload.state.getD "" = "error"
    · simp only [hs, if_true]
      by_cases hr : payload.runId.getD "" = r
      · left
        rw [hr]
        exact GoMap.get_delete_self _ _
      · right
        exact GoMap.get_delete_ne _ (fun h => hr h.symm)
    · right
      simp only [hs, if_false]

/-- A step that does not reveal the run id `r` either removes the message context of `r` or
keeps its sender, thread and group flag. -/
theorem step_keeps (c : WebSocketClient) (op : Op) (r : String) (ctx : MessageContext)
    (hg : c.messageContexts.get r = some ctx) (hrev : reveals r op = false) :
    (c.step op).messageContexts.get r = none
    ∨ ∃ ctx', (c.step op).messageContexts.get r = some ctx'
        ∧ ctx'.SenderID = ctx.SenderID ∧ ctx'.ThreadID = ctx.ThreadID
        ∧ ctx'.IsGroup = ctx.IsGroup := by
  cases op with
  | send now requestID message senderID =>
    right
    rw [send_contexts]
    exact ⟨ctx, hg, rfl, rfl, rfl⟩
  | response now frame =>
    right
    simp only [step]
    rw [response_get c now frame r hrev]
    exact ⟨ctx, hg, rfl, rfl, rfl⟩
  | agent now event => exact agent_keeps c now event r ctx hg
  | chat event =>
    simp only [step]
    rcases chat_keeps c event r with h | h
    · exact Or.inl h
    · right
      rw [h]
      exact ⟨ctx, hg, rfl, rfl, rfl⟩
  | cleanup now =>
    simp only [step]
    rcases cleanup_get c now r with h | h
    · exact Or.inl h
    · right
      rw [h]
      exact ⟨ctx, hg, rfl, rfl, rfl⟩

theorem contextKept_head {r : String} {c : WebSocketClient} {ops : List Op}
    (h : contextKept r c ops = true) : (c.messageContexts.get r).isSome = true := by
  cases ops with
  | nil => simpa [contextKept] using h
  | cons op rest =>
    simp only [contextKept, Bool.and_eq_true] at h
    exact h.1

theorem run_keeps (r S T : String) (G : Bool) : ∀ (ops : List Op) (c : WebSocketClient),
    (∃ ctx, c.messageContexts.get r = some ctx ∧ ctx.SenderID = S ∧ ctx.ThreadID = T
      ∧ ctx.IsGroup = G) →
    (∀ op ∈ ops, reveals r op = false) → contextKept r c ops = true →
    ∃ ctx, (c.run ops).messageContexts.get r = some ctx ∧ ctx.SenderID = S
      ∧ ctx.ThreadID = T ∧ ctx.IsGroup = G := by
  intro ops
  induction ops with
  | nil => intro c hc _ _; exact hc
  | cons op rest ih =>
    intro c hc hrev hkept
    obtain ⟨ctx, hg, hS, hT, hG⟩ := hc
    simp only [contextKept, Bool.and_eq_true] at hkept
    have hsome := contextKept_head hkept.2
    have hstep : ∃ ctx', (c.step op).messageContexts.get r = some ctx' ∧ ctx'.SenderID = S
        ∧ ctx'.ThreadID = T ∧ ctx'.IsGroup = G := by
      rcases step_keeps c op r ctx hg (hrev op (List.mem_cons_self _ _)) with hnone | h
      · rw [hnone] at hsome
        cases hsome
      · obtain ⟨ctx', hg', hS', hT', hG'⟩ := h
        exact ⟨ctx', hg', hS'.trans hS, hT'.trans hT, hG'.trans hG⟩
    have := ih (c.step op) hstep (fun o ho => hrev o (List.mem_cons_of_mem _ ho)) hkept.2
    simpa [run] using this

/-- Claim C5. Let the response to the pending `chat.send` request `p` reveal the run id `r`
and be handled; let any steps follow (messages of other conversations sent, which overwrite
the shared session of the tracker, other responses, events, cleanups) during which the
message context of `r` is never removed and no other response reveals `r` again.  Then the
reply built for an agent event carrying `r` is addressed to the sender, the thread and the
group flag of the request `p`. -/
theorem agent_reply_addressed_to_requester (c0 : WebSocketClient) (now0 : Int)
    (frame : ResponseFrame) (r : String) (p : PendingRequest)
    (hp : c0.pendingRequests.get frame.id = some p) (hm : p.Method = "chat.send")
    (hpl : frame.payload = some { runId := some r }) (hne : r ≠ "")
    (ops : List Op)
    (hkept : contextKept r (c0.handleResponse now0 frame).1 ops = true)
    (hnew : ∀ op ∈ ops, reveals r op = false)
    (now : Int) (payload : AgentPayload) (hr : payload.runId = some r) :
    ∃ response,
      (((c0.handleResponse now0 frame).1.run ops).handleAgentEvent now
          { payload := some payload }).2
        = ((c0.handleResponse now0 frame).1.run ops).notify (.OnResponse response)
      ∧ response.Channel
        = some { PeerID := p.SenderID, ThreadID := p.ThreadID, IsGroup := p.IsGroup } := by
  have hnc : ¬ p.Method = "connect" := by
    rw [hm]
    decide
  have h1 : ∃ ctx, (c0.handleResponse now0 frame).1.messageContexts.get r = some ctx
      ∧ ctx.SenderID = p.SenderID ∧ ctx.ThreadID = p.ThreadID ∧ ctx.IsGroup = p.IsGroup := by
    refine ⟨{ SenderID := p.SenderID, ThreadID := p.ThreadID, IsGroup := p.IsGroup,
              Timestamp := now0 }, ?_, rfl, rfl, rfl⟩
    simp [handleResponse, hp, hnc, hm, hpl, GoMap.get_set_self]
  obtain ⟨ctx, hg, hS, hT, hG⟩ :=
    run_keeps r p.SenderID p.ThreadID p.IsGroup ops _ h1 hnew hkept
  rw [handleAgentEvent_of_lookup _ now payload hr hne (lookupContext_of_get hg now)]
  exact ⟨_, rfl, by simp [hS, hT, hG]⟩

theorem lookupContext_isSome_indep (c : WebSocketClient) (a b : Int) (r : String) :
    (c.lookupContext a r).1.isSome = (c.lookupContext b r).1.isSome := by
  unfold lookupContext
  cases c.messageContexts.get r with
  | some ctx => rfl
  | none =>
    cases c.sessionContextMgr with
    | none => rfl
    | some m =>
      simp only
      cases m.GetContextByRunID r with
      | some s => rfl
      | none =>
        cases m.GetDefaultSessionContext with
        | some s => rfl
        | none => rfl

theorem lastNonEmpty_append_singleton (l : List String) (t : String) :
    lastNonEmpty (l ++ [t]) = if t ≠ "" then some t else lastNonEmpty l := by
  simp [lastNonEmpty, List.foldl_append]

theorem lastNonEmpty_ne_empty : ∀ (l : List String) (X : String),
    lastNonEmpty l = some X → X ≠ "" := by
  intro l
  induction l using List.reverseRecOn with
  | nil => intro X h; simp [lastNonEmpty] at h
  | append_singleton l t ih =>
    intro X h
    rw [lastNonEmpty_append_singleton] at h
    by_cases ht : t = ""
    · simp only [ht, ne_eq, not_true_eq_false, if_false] at h
      exact ih X h
    · simp only [ne_eq, ht, not_false_eq_true, if_true, Option.some.injEq] at h
      rw [← h]
      exact ht

/-- An agent event of the run `r` that is not terminal leaves the context of `r` in the map,
with the text of the event as last text when that text is not empty. -/
theorem agent_step_nonterminal (c : WebSocketClient) (now : Int) (payload : AgentPayload)
    {r : String} (hr : payload.runId = some r) (hne : r ≠ "")
    (hst : eventState payload ≠ "completed")
    {ctx0 : MessageContext} {cs0 : GoMap MessageContext}
    (hl : c.lookupContext now r = (some ctx0, cs0)) :
    (c.step (.agent now { payload := some payload })).messageContexts.get r
      = some (if eventText payload ≠ "" then { ctx0 with LastText := eventText payload }
              else ctx0) := by
  simp only [step]
  rw [handleAgentEvent_of_lookup c now payload hr hne hl]
  simp only [hst, if_false]
  by_cases ht : eventText payload = ""
  · simp [ht, lookupContext_snd_get_self hl]
  · simp [ht, GoMap.get_set_self]

theorem lastNonEmpty_foldl_getD : ∀ (l : List String) (acc : Option String) (d : String),
    (l.foldl (fun acc t => if t ≠ "" then some t else acc) acc).getD d
      = (lastNonEmpty l).getD (acc.getD d) := by
  intro l
  induction l with
  | nil => intro acc d; rfl
  | cons t l ih =>
    intro acc d
    show (l.foldl (fun acc t => if t ≠ "" then some t else acc)
            (if t ≠ "" then some t else acc)).getD d
        = (l.foldl (fun acc t => if t ≠ "" then some t else acc)
            (if t ≠ "" then some t else none)).getD (acc.getD d)
    rw [ih (if t ≠ "" then some t else acc) d, ih (if t ≠ "" then some t else none) (acc.getD d)]
    by_cases ht : t = ""
    · simp [ht]
    · simp [ht]

theorem lastNonEmpty_cons_getD (t : String) (l : List String) (d : String) :
    (lastNonEmpty (t :: l)).getD d = (lastNonEmpty l).getD (if t ≠ "" then t else d) := by
  show (l.foldl (fun acc t => if t ≠ "" then some t else acc)
          (if t ≠ "" then some t else none)).getD d = _
  rw [lastNonEmpty_foldl_getD]
  by_cases ht : t = ""
  · simp [ht]
  · simp [ht]

theorem lastNonEmpty_append_getD (l1 l2 : List String) (d : String) :
    (lastNonEmpty (l1 ++ l2)).getD d = (lastNonEmpty l2).getD ((lastNonEmpty l1).getD d) := by
  unfold lastNonEmpty
  rw [List.foldl_append]
  exact lastNonEmpty_foldl_getD l2 _ d

theorem runTexts_cons (r : String) (op : Op) (rest : List Op) :
    runTexts r (op :: rest) = runTexts r [op] ++ runTexts r rest := by
  unfold runTexts
  rw [← List.filterMap_append]
  rfl

theorem runTexts_agent (r : String) (now : Int) (payload : AgentPayload) :
    runTexts r [.agent now { payload := some payload }]
      = if payload.runId = some r then [eventText payload] else [] := by
  by_cases h : payload.runId = some r
  · simp [runTexts, h]
  · simp [runTexts, h]

/-- An agent event either removes the message context of `r` or leaves it with the last
non-empty text of the event, if the event is one of `r` and carries a text, and with the
last text it had otherwise. -/
theorem agent_tracks (c : WebSocketClient) (now : Int) (event : AgentEvent) (r : String)
    (hr0 : r ≠ "") (ctx : MessageContext) (hg : c.messageContexts.get r = some ctx) :
    (c.handleAgentEvent now event).1.messageContexts.get r = none
    ∨ ∃ ctx', (c.handleAgentEvent now event).1.messageContexts.get r = some ctx'
        ∧ ctx'.LastText = (lastNonEmpty (runTexts r [.agent now event])).getD ctx.LastText := by
  obtain ⟨pl⟩ := event
  cases pl with
  | none =>
    right
    exact ⟨ctx, by simpa [handleAgentEvent] using hg, by simp [runTexts, lastNonEmpty]⟩
  | some payload =>
    rw [runTexts_agent]
    cases hrid : payload.runId with
    | none =>
      right
      exact ⟨ctx, by simpa [handleAgentEvent, hrid] using hg, by simp [lastNonEmpty]⟩
    | some r' =>
      by_cases hne : r' = ""
      · right
        have hneq : ¬ r' = r := fun h => hr0 (h ▸ hne)
        exact ⟨ctx, by simpa [handleAgentEvent, hrid, hne] using hg,
          by simp [hneq, lastNonEmpty]⟩
      · by_cases hrr : r' = r
        · subst hrr
          rw [handleAgentEvent_of_lookup c now payload hrid hne (lookupContext_of_get hg now)]
          by_cases hst : eventState payload = "completed"
          · left
            simp only [hst, if_true]
            exact GoMap.get_delete_self _ _
          · right
            simp only [hst, if_false]
            by_cases ht : eventText payload = ""
            · exact ⟨ctx, by simp [ht, hg], by simp [ht, lastNonEmpty]⟩
            · refine ⟨{ ctx with LastText := eventText payload }, ?_, ?_⟩
              · simp [ht, GoMap.get_set_self]
              · simp [ht, lastNonEmpty]
        · have hk : r ≠ r' := fun h => hrr h.symm
          have hlt : ctx.LastText
              = (lastNonEmpty (if some r' = some r then [eventText payload] else [])).getD
                  ctx.LastText := by
            simp [hrr, lastNonEmpty]
          cases hl : c.lookupContext now r' with
          | mk o cs0 =>
            cases o with
            | none =>
              right
              rw [handleAgentEvent_of_no_context c now payload hrid hl]
              exact ⟨ctx, hg, hlt⟩
            | some ctx0 =>
              have hcs : cs0.get r = c.messageContexts.get r := by
                have := lookupContext_snd_get_ne c now r' hk
                rw [hl] at this
                exact this
              rw [handleAgentEvent_of_lookup c now payload hrid hne hl]
              right
              refine ⟨ctx, ?_, hlt⟩
              by_cases hst : eventState payload = "completed"
              · by_cases ht : eventText payload = ""
                · simp [hst, ht, GoMap.get_delete_ne _ hk, hcs, hg]
                · simp [hst, ht, GoMap.get_delete_ne _ hk, GoMap.get_set_ne _ _ hk, hcs, hg]
              · by_cases ht : eventText payload = ""
                · simp [hst, ht, hcs, hg]
                · simp [hst, ht, GoMap.get_set_ne _ _ hk, hcs, hg]

/-- A step that does not reveal the run id `r` either removes the message context of `r` or
leaves it with the text of the step as last text, when the step is an agent event of `r`
with a text, and with the last text it had otherwise. -/
theorem step_tracks (c : WebSocketClient) (op : Op) (r : String) (hr0 : r ≠ "")
    (ctx : MessageContext) (hg : c.messageContexts.get r = some ctx)
    (hrev : reveals r op = false) :
    (c.step op).messageContexts.get r = none
    ∨ ∃ ctx', (c.step op).messageContexts.get r = some ctx'
        ∧ ctx'.LastText = (lastNonEmpty (runTexts r [op])).getD ctx.LastText := by
  cases op with
  | send now requestID message senderID =>
    right
    rw [send_contexts]
    exact ⟨ctx, hg, rfl⟩
  | response now frame =>
    right
    simp only [step]
    rw [response_get c now frame r hrev]
    exact ⟨ctx, hg, rfl⟩
  | agent now event => exact agent_tracks c now event r hr0 ctx hg
  | chat event =>
    simp only [step]
    rcases chat_keeps c event r with h | h
    · exact Or.inl h
    · right
      rw [h]
      exact ⟨ctx, hg, rfl⟩
  | cleanup now =>
    simp only [step]
    rcases cleanup_get c now r with h | h
    · exact Or.inl h
    · right
      rw [h]
      exact ⟨ctx, hg, rfl⟩

/-- Along any steps during which the message context of `r` is never removed and no response
reveals `r` again, the last text of the context is the last non-empty text of the agent
events of `r` among the steps, or the last text it had at the start when there is none. -/
theorem run_tracks (r : String) (hr0 : r ≠ "") : ∀ (ops : List Op) (c : WebSocketClient)
    (ctx : MessageContext), c.messageContexts.get r = some ctx →
    (∀ op ∈ ops, reveals r op = false) → contextKept r c ops = true →
    ∃ ctx', (c.run ops).messageContexts.get r = some ctx'
      ∧ ctx'.LastText = (lastNonEmpty (runTexts r ops)).getD ctx.LastText := by
  intro ops
  induction ops with
  | nil => intro c ctx hg _ _; exact ⟨ctx, hg, rfl⟩
  | cons op rest ih =>
    intro c ctx hg hrev hkept
    simp only [contextKept, Bool.and_eq_true] at hkept
    have hsome := contextKept_head hkept.2
    rcases step_tracks c op r hr0 ctx hg (hrev op (List.mem_cons_self _ _)) with hnone | h
    · rw [hnone] at hsome
      cases hsome
    · obtain ⟨ctx1, hg1, hL1⟩ := h
      obtain ⟨ctx2, hg2, hL2⟩ :=
        ih (c.step op) ctx1 hg1 (fun o ho => hrev o (List.mem_cons_of_mem _ ho)) hkept.2
      refine ⟨ctx2, by simpa [run] using hg2, ?_⟩
      rw [hL2, hL1, runTexts_cons r op rest, lastNonEmpty_append_getD]

/-- Claim C6, amended. Let an agent event of the run `r` be handled, in any state of the
client, and let any steps follow (further events of `r`, messages sent, responses, events of
other runs, chat events, cleanups) during which the message context of `r` is never removed
and no response reveals `r` again.  If the last non-empty text among these agent events of
`r`, the first one and the later ones, is `X`, then an agent event of `r` with phase `"end"`
and empty text yields a reply with state `"completed"` and text `X`. -/
theorem end_event_completes_with_last_text (c : WebSocketClient) (r : String) (hne : r ≠ "")
    (now1 : Int) (first : AgentPayload) (hr : first.runId = some r) (ops : List Op)
    (hkept : contextKept r (c.step (.agent now1 { payload := some first })) ops = true)
    (hnew : ∀ op ∈ ops, reveals r op = false)
    (X : String) (hlast : lastNonEmpty (eventText first :: runTexts r ops) = some X)
    (now : Int) (stream text : Option String) (htext : text.getD "" = "") :
    ∃ response,
      (((c.step (.agent now1 { payload := some first })).run ops).handleAgentEvent now
          (agentEventOf r stream text (some "end"))).2
        = ((c.step (.agent now1 { payload := some first })).run ops).notify
            (.OnResponse response)
      ∧ replyTextState response = some (X, some "completed") := by
  have hhead := contextKept_head hkept
  have hfirst : ∃ ctx1, (c.step (.agent now1 { payload := some first })).messageContexts.get r
        = some ctx1
      ∧ (lastNonEmpty (runTexts r ops)).getD ctx1.LastText = X := by
    cases hl : c.lookupContext now1 r with
    | mk o cs0 =>
      cases o with
      | none =>
        have hstep : c.step (.agent now1 { payload := some first }) = c := by
          simp only [step]
          rw [handleAgentEvent_of_no_context c now1 first hr hl]
        rw [hstep, lookupContext_none_get hl] at hhead
        cases hhead
      | some ctx0 =>
        by_cases hst : eventState first = "completed"
        · have hgone : (c.step (.agent now1 { payload := some first })).messageContexts.get r
              = none := by
            simp only [step]
            rw [handleAgentEvent_of_lookup c now1 first hr hne hl]
            simp only [hst, if_true]
            exact GoMap.get_delete_self _ _
          rw [hgone] at hhead
          cases hhead
        · refine ⟨_, agent_step_nonterminal c now1 first hr hne hst hl, ?_⟩
          have hX : (lastNonEmpty (eventText first :: runTexts r ops)).getD ctx0.LastText
              = X := by
            rw [hlast]
            rfl
          rw [lastNonEmpty_cons_getD] at hX
          rw [← hX]
          by_cases ht : eventText first = ""
          · simp [ht]
          · simp [ht]
  obtain ⟨ctx1, hg1, hX1⟩ := hfirst
  obtain ⟨ctx, hg, hL⟩ := run_tracks r hne ops _ ctx1 hg1 hnew hkept
  rw [hX1] at hL
  have hX := lastNonEmpty_ne_empty _ X hlast
  have hev : agentEventOf r stream text (some "end")
      = { payload := some
            { runId := some r, stream := stream,
              data := some { text := text, phase := some "end" } } } := rfl
  rw [hev]
  generalize hpl : ({ runId := some r, stream := stream,
                      data := some { text := text, phase := some "end" } } : AgentPayload)
    = pl
  have hrp : pl.runId = some r := by rw [← hpl]
  have hstp : eventState pl = "completed" := by
    rw [← hpl]
    exact eventState_of_end rfl rfl
  have htx : eventText pl = "" := by
    rw [← hpl]
    simp [eventText, htext]
  rw [handleAgentEvent_of_lookup _ now pl hrp hne (lookupContext_of_get hg now)]
  refine ⟨_, rfl, ?_⟩
  simp [replyTextState, hstp, htx, hL, hX, GoMap.get]

end WebSocketClient

/-! ## The theorems at the worked examples -/

/-- The expiry sweep on `exampleTracker` at time 2000 with threshold 500: the idle session
`"old"` goes, the session `"main"` stays as it was, and the count returned is the number
of sessions removed. -/
theorem cleanupExpiredSessions_removes_exactly_expired_witness :
    exampleTracker.sessions.WF
    ∧ (exampleTracker.CleanupExpiredSessions 2000 500).1.GetSession "old" = none
    ∧ (exampleTracker.CleanupExpiredSessions 2000 500).1.GetSession "main"
        = exampleTracker.GetSession "main"
    ∧ (exampleTracker.CleanupExpiredSessions 2000 500).1.GetSession "none" = none
    ∧ (exampleTracker.CleanupExpiredSessions 2000 500).2
        = exampleTracker.GetSessionCount
          - (exampleTracker.CleanupExpiredSessions 2000 500).1.GetSessionCount
    ∧ (ContextManager.sessionExpired 2000 500
          { SessionKey := "old", SenderID := "u7", ThreadID := "g7", IsGroup := true,
            Timestamp := 10 } = true ↔ (2000 : Int) - 10 > 500) :=
  ⟨by decide,
   (ContextManager.cleanupExpiredSessions_removes_exactly_expired exampleTracker 2000 500
      (by decide)).1 "old" _ rfl (by decide),
   (ContextManager.cleanupExpiredSessions_removes_exactly_expired exampleTracker 2000 500
      (by decide)).2.1 "main" _ rfl (by decide),
   (ContextManager.cleanupExpiredSessions_removes_exactly_expired exampleTracker 2000 500
      (by decide)).2.2.1 "none" (by decide),
   (ContextManager.cleanupExpiredSessions_removes_exactly_expired exampleTracker 2000 500
      (by decide)).2.2.2.1,
   (ContextManager.cleanupExpiredSessions_removes_exactly_expired exampleTracker 2000 500
      (by decide)).2.2.2.2 _ (by decide) (by decide)⟩

/-- The same sweep on the run map of `exampleTracker`: `"run-1"` keeps its session and its
entry, and whatever is left in the run map refers to a session that is left. -/
theorem cleanupExpiredSessions_runIDMap_no_orphans_witness :
    exampleTracker.runIDMap.WF
    ∧ (∃ s, (exampleTracker.CleanupExpiredSessions 2000 500).1.GetSession "main" = some s)
    ∧ (exampleTracker.CleanupExpiredSessions 2000 500).1.runIDMap.get "run-1" = some "main" :=
  ⟨by decide,
   (ContextManager.cleanupExpiredSessions_runIDMap_no_orphans exampleTracker 2000 500
      (by decide)).1 "run-1" "main" (by decide),
   (ContextManager.cleanupExpiredSessions_runIDMap_no_orphans exampleTracker 2000 500
      (by decide)).2 "run-1" "main" _ (by decide) rfl⟩

/-- The request `"a"` is registered, then the request `"b"`; afterwards the watchdog of
`"b"` fires, a response to `"a"` arrives and `Clear` runs.  Every id is registered once and
the watchdog answers `"b"`, so the channel returned for `"b"` holds exactly one response. -/
theorem registered_channel_receives_exactly_once_witness :
    (ResponseHandler.registeredIDs
        ([ResponseHandler.Op.register "a"] ++ ResponseHandler.Op.register "b" ::
          [ResponseHandler.Op.watchdog "b", ResponseHandler.Op.response exampleResponse,
           ResponseHandler.Op.clear])).Nodup
    ∧ [ResponseHandler.Op.watchdog "b", ResponseHandler.Op.response exampleResponse,
        ResponseHandler.Op.clear].any (ResponseHandler.answers "b") = true
    ∧ ∃ h1 h3, ResponseHandler.run (NewResponseHandlerWithTimeout 30)
          [ResponseHandler.Op.register "a"] = some h1
        ∧ ResponseHandler.run (h1.RegisterRequest "b").1
            [ResponseHandler.Op.watchdog "b", ResponseHandler.Op.response exampleResponse,
             ResponseHandler.Op.clear] = some h3
        ∧ (h3.received (h1.RegisterRequest "b").2).length = 1 := by
  refine ⟨by decide, by decide, ?_⟩
  obtain ⟨h1, h3, hr1, hr3, _, hone⟩ :=
    ResponseHandler.registered_channel_receives_exactly_once 30
      [ResponseHandler.Op.register "a"]
      [ResponseHandler.Op.watchdog "b", ResponseHandler.Op.response exampleResponse,
       ResponseHandler.Op.clear] "b"
  exact ⟨h1, h3, hr1, hr3, hone (by decide) (by decide)⟩

/-- On the handler with the requests `"a"` and `"b"` outstanding, the response to `"a"` is
delivered to the channel of `"a"`, which is channel 0, and `"a"` leaves the registry; a
response to an id that is not registered leaves the handler as it is. -/
theorem handleResponse_delivers_or_discards_witness :
    ∃ h, ResponseHandler.run (NewResponseHandlerWithTimeout 30) exampleHandlerOps = some h
      ∧ h.pendingRequests.get exampleResponse.RequestID = some 0
      ∧ (∃ h', h.HandleResponse exampleResponse = some h'
          ∧ h'.received 0 = [exampleResponse]
          ∧ h'.pendingRequests.get "a" = none
          ∧ h'.pendingRequests.get "b" = h.pendingRequests.get "b")
      ∧ h.pendingRequests.get "zz" = none
      ∧ h.HandleResponse { RequestID := "zz", Code := 0, Msg := "late" } = some h := by
  obtain ⟨h, hr, hyes, _⟩ :=
    ResponseHandler.handleResponse_delivers_or_discards 30 exampleHandlerOps exampleResponse
  obtain ⟨h2, hr2, _, hno⟩ :=
    ResponseHandler.handleResponse_delivers_or_discards 30 exampleHandlerOps
      { RequestID := "zz", Code := 0, Msg := "late" }
  have hval : ResponseHandler.run (NewResponseHandlerWithTimeout 30) exampleHandlerOps
      = some { pendingRequests := [("b", 1), ("a", 0)], timeout := 30, chans := [[], []] } := by
    decide
  have hh : h = { pendingRequests := [("b", 1), ("a", 0)], timeout := 30, chans := [[], []] } :=
    Option.some.inj (hr.symm.trans hval)
  have hh2 : h2 = h := Option.some.inj (hr2.symm.trans hr)
  subst hh2
  have hget : h2.pendingRequests.get exampleResponse.RequestID = some 0 := by
    rw [hh]; decide
  have hzz : h2.pendingRequests.get "zz" = none := by
    rw [hh]; decide
  obtain ⟨h', hd, _, hrec, hgone, hother, _⟩ := hyes 0 hget
  exact ⟨h2, hr, hget, ⟨h', hd, hrec, hgone, hother "b" (by decide)⟩, hzz, hno hzz⟩

/-- The claim C10 fails as stated on the message text: `Clear` on the handler with the one
outstanding request `"r1"` puts into its channel the response with the message
`"Connection closed"`, which is not the response with the message `"connection closed"`. -/
theorem clear_message_counterexample :
    (NewResponseHandler.RegisterRequest "r1").1.Clear.map (fun h => h.received 0)
      = some [{ RequestID := "r1", Code := -1, Msg := "Connection closed" }]
    ∧ (NewResponseHandler.RegisterRequest "r1").1.Clear.map (fun h => h.received 0)
      ≠ some [{ RequestID := "r1", Code := -1, Msg := "connection closed" }] := by
  constructor
  · decide
  · decide

/-- `Clear` on the handler with the requests `"a"` and `"b"` outstanding: the registry is
empty afterwards and the channel of `"b"`, which is channel 1, holds the synthetic
response for `"b"`. -/
theorem clear_resolves_every_pending_request_witness :
    ∃ h h', ResponseHandler.run (NewResponseHandlerWithTimeout 30) exampleHandlerOps = some h
      ∧ h.Clear = some h' ∧ h'.pendingRequests = []
      ∧ h.pendingRequests.get "b" = some 1
      ∧ h'.received 1 = [{ RequestID := "b", Code := -1, Msg := "Connection closed" }] := by
  obtain ⟨h, h', hr, hc, hnil, hall⟩ :=
    ResponseHandler.clear_resolves_every_pending_request 30 exampleHandlerOps
  have hval : ResponseHandler.run (NewResponseHandlerWithTimeout 30) exampleHandlerOps
      = some { pendingRequests := [("b", 1), ("a", 0)], timeout := 30, chans := [[], []] } := by
    decide
  have hh : h = { pendingRequests := [("b", 1), ("a", 0)], timeout := 30, chans := [[], []] } :=
    Option.some.inj (hr.symm.trans hval)
  have hget : h.pendingRequests.get "b" = some 1 := by
    rw [hh]; decide
  exact ⟨h, h', hr, hc, hnil, hget, hall "b" 1 hget⟩

/-- The request `"q1"` of the user `"u1"` produces the run `"run-1"`; a group message of
`"u2"` is then sent and answered, which overwrites the shared session of the tracker; a
streaming event of `"run-1"` is still answered to `"u1"`, thread `"t1"`, not a group. -/
theorem agent_reply_addressed_to_requester_witness :
    exampleClientSent.pendingRequests.get exampleFrame1.id
      = some { Method := "chat.send", SenderID := "u1", ThreadID := "t1", IsGroup := false,
               Timestamp := 1000 }
    ∧ WebSocketClient.contextKept "run-1"
        (exampleClientSent.handleResponse 1050 exampleFrame1).1 exampleInterleaving = true
    ∧ (∀ op ∈ exampleInterleaving, WebSocketClient.reveals "run-1" op = false)
    ∧ ∃ response,
        (((exampleClientSent.handleResponse 1050 exampleFrame1).1.run
            exampleInterleaving).handleAgentEvent 1500
              { payload := some exampleEndPayload }).2
          = [HandlerCall.OnResponse response]
        ∧ response.Channel = some { PeerID := "u1", ThreadID := "t1", IsGroup := false } := by
  refine ⟨by decide, by decide, by decide, ?_⟩
  obtain ⟨response, hcall, hch⟩ :=
    WebSocketClient.agent_reply_addressed_to_requester exampleClientSent 1050 exampleFrame1
      "run-1"
      { Method := "chat.send", SenderID := "u1", ThreadID := "t1", IsGroup := false,
        Timestamp := 1000 }
      (by decide) rfl rfl (by decide) exampleInterleaving (by decide) (by decide) 1500
      exampleEndPayload rfl
  exact ⟨response, hcall, hch⟩

/-- The claim C6 fails as stated. The run `"run-1"` has a known context and its fragment
`"partial answer"` has been stored as last text.  When the cleanup runs more than five
minutes after the response that revealed the run, or the chat event `"final"` of the run
arrives, or a second response reveals the same run id, the context that held the fragment is
gone or replaced; the lookup of the run still succeeds, and the agent event with phase
`"end"` and no text is answered with the state `"completed"` and the empty text, not with
`"partial answer"`. -/
theorem end_event_after_lost_context_counterexample :
    (exampleClientRunning.lookupContext 1300 "run-1").1.isSome = true
    ∧ (exampleClientStreaming.messageContexts.get "run-1").map (fun ctx => ctx.LastText)
        = some "partial answer"
    ∧ (((exampleClientStreaming.run [.cleanup 400000]).lookupContext 400010 "run-1").1.isSome
        = true
      ∧ ((exampleClientStreaming.run [.cleanup 400000]).handleAgentEvent 400010
            { payload := some exampleEndPayload }).2.map
          (fun call =>
            match call with
            | .OnResponse response => WebSocketClient.replyTextState response
            | _ => none)
        = [some ("", some "completed")])
    ∧ (((exampleClientStreaming.run [.chat exampleChatFinal]).lookupContext 1320
          "run-1").1.isSome = true
      ∧ ((exampleClientStreaming.run [.chat exampleChatFinal]).handleAgentEvent 1320
            { payload := some exampleEndPayload }).2.map
          (fun call =>
            match call with
            | .OnResponse response => WebSocketClient.replyTextState response
            | _ => none)
        = [some ("", some "completed")])
    ∧ (((exampleClientStreaming.run exampleSecondReveal).lookupContext 1340
          "run-1").1.isSome = true
      ∧ ((exampleClientStreaming.run exampleSecondReveal).handleAgentEvent 1340
            { payload := some exampleEndPayload }).2.map
          (fun call =>
            match call with
            | .OnResponse response => WebSocketClient.replyTextState response
            | _ => none)
        = [some ("", some "completed")]) := by
  refine ⟨by decide, by decide, ⟨by decide, by decide⟩, ⟨by decide, by decide⟩,
    ⟨by decide, by decide⟩⟩

/-- The scenario of the streaming completion fallback, with other steps in between: after
the fragment `"partial answer"` of the run `"run-1"`, an event of the run without text, a
message of another conversation sent and answered, a fragment of that other run and a
cleanup, the event of `"run-1"` with phase `"end"` and no text yields the completed reply
with the text `"partial answer"`. -/
theorem end_event_completes_with_last_text_witness :
    exampleFragment.runId = some "run-1"
    ∧ WebSocketClient.contextKept "run-1"
        (exampleClientRunning.step (.agent 1300 { payload := some exampleFragment }))
        exampleStreamSteps = true
    ∧ (∀ op ∈ exampleStreamSteps, WebSocketClient.reveals "run-1" op = false)
    ∧ WebSocketClient.lastNonEmpty
        (WebSocketClient.eventText exampleFragment
          :: WebSocketClient.runTexts "run-1" exampleStreamSteps)
        = some "partial answer"
    ∧ ∃ response,
        (((exampleClientRunning.step (.agent 1300 { payload := some exampleFragment })).run
            exampleStreamSteps).handleAgentEvent 2010
              (WebSocketClient.agentEventOf "run-1" (some "assistant") none (some "end"))).2
          = [HandlerCall.OnResponse response]
        ∧ WebSocketClient.replyTextState response
          = some ("partial answer", some "completed") := by
  refine ⟨rfl, by decide, by decide, by decide, ?_⟩
  obtain ⟨response, hcall, hts⟩ :=
    WebSocketClient.end_event_completes_with_last_text exampleClientRunning "run-1"
      (by decide) 1300 exampleFragment rfl exampleStreamSteps (by decide) (by decide)
      "partial answer" (by decide) 2010 (some "assistant") none rfl
  exact ⟨response, hcall, hts⟩

/-- The claim C7 fails as stated on the run map of the tracker: after the run `"run-1"` has
ended with the chat event `"final"`, the client holds no message context for it, but the
run map of the tracker still associates `"run-1"` with the session `"main"`, and
`GetContextByRunID "run-1"` still finds a context. -/
theorem terminal_event_keeps_tracker_association_counterexample :
    (exampleClientRunning.handleChatEvent exampleChatFinal).messageContexts.get "run-1" = none
    ∧ (exampleClientRunning.handleChatEvent exampleChatFinal).sessionContextMgr.bind
        (fun m => m.runIDMap.get "run-1") = some "main"
    ∧ ((exampleClientRunning.handleChatEvent exampleChatFinal).sessionContextMgr.bind
        (fun m => m.GetContextByRunID "run-1")).isSome = true := by
  refine ⟨by decide, by decide, by decide⟩

/-- The terminal events of the run `"run-1"` on `exampleClientRunning`: the agent event with
phase `"end"` and the chat event `"final"` both leave no message context for `"run-1"`
and the tracker as it was; a chat event with the state `"delta"` changes nothing. -/
theorem terminal_event_removes_message_context_witness :
    ((exampleClientRunning.handleAgentEvent 1500
        { payload := some exampleEndPayload }).1.messageContexts.get "run-1" = none
      ∧ (exampleClientRunning.handleAgentEvent 1500
          { payload := some exampleEndPayload }).1.sessionContextMgr
        = exampleClientRunning.sessionContextMgr)
    ∧ ((exampleClientRunning.handleChatEvent exampleChatFinal).messageContexts.get "run-1"
        = none
      ∧ (exampleClientRunning.handleChatEvent exampleChatFinal).sessionContextMgr
        = exampleClientRunning.sessionContextMgr)
    ∧ exampleClientRunning.handleChatEvent
        { payload := some { runId := some "run-1", state := some "delta" } }
      = exampleClientRunning :=
  ⟨(WebSocketClient.terminal_event_removes_message_context exampleClientRunning).1 1500
      exampleEndPayload "run-1" { phase := some "end" } rfl (by decide) rfl rfl,
   (WebSocketClient.terminal_event_removes_message_context exampleClientRunning).2.1
      { runId := some "run-1", state := some "final" } "run-1" rfl (Or.inl rfl),
   (WebSocketClient.terminal_event_removes_message_context exampleClientRunning).2.2
      { payload := some { runId := some "run-1", state := some "delta" } }
      (by
        intro p hp
        cases hp
        exact ⟨by decide, by decide⟩)⟩

/-- An agent event of the unknown run `"run-9"` on `exampleClientRunning` is answered to the
default session, which is that of `"u1"`; on `exampleClient`, whose tracker is empty, it
is not answered at all. -/
theorem agentEvent_falls_back_to_default_session_witness :
    (∃ response,
      (exampleClientRunning.handleAgentEvent 1600 { payload := some exampleUnknownPayload }).2
        = [HandlerCall.OnResponse response]
      ∧ response.Channel = some { PeerID := "u1", ThreadID := "t1", IsGroup := false })
    ∧ (exampleClient.handleAgentEvent 1600 { payload := some exampleUnknownPayload }).2
        = [] := by
  constructor
  · obtain ⟨response, hcall, hch⟩ :=
      (WebSocketClient.agentEvent_falls_back_to_default_session exampleClientRunning 1600
        exampleUnknownPayload "run-9" rfl (by decide) (by decide)
        (by
          intro m hm
          cases hm
          exact Or.inl (by decide))).1
        { sessions :=
            [("main", { SessionKey := "main", SenderID := "u1", ThreadID := "t1",
                        IsGroup := false, Timestamp := 1000 })],
          runIDMap := [("run-1", "main")] }
        { SessionKey := "main", SenderID := "u1", ThreadID := "t1", IsGroup := false,
          Timestamp := 1000 }
        (by decide) (by decide)
    exact ⟨response, hcall, hch⟩
  · exact (WebSocketClient.agentEvent_falls_back_to_default_session exampleClient 1600
      exampleUnknownPayload "run-9" rfl (by decide) (by decide)
      (by
        intro m hm
        cases hm
        exact Or.inl (by decide))).2
      (by
        intro m hm
        cases hm
        decide)

/-! ## The timeout watchdog of a registered request -/

namespace ResponseHandler

/-- Claim C11, as amended. In every state `h` that a handler reaches, `RegisterRequest id`
records `id` with the channel it returns, a new and empty channel, and leaves every other id
as it was; the watchdog of `id` goes through and: when `id` is registered with channel `ch`,
that channel then holds exactly the response with the id, code -1 and the message
`"Request timeout"`, the id is no longer registered, every other id is registered as before
and every other channel holds what it held; when `id` is not registered the handler is
unchanged, so nothing is delivered. -/
theorem registerRequest_watchdog_delivers_request_timeout (t : Nat) (ops : List Op)
    (id : String) :
    ∃ h, run (NewResponseHandlerWithTimeout t) ops = some h ∧
      ((h.RegisterRequest id).1.pendingRequests.get id = some (h.RegisterRequest id).2 ∧
        h.chans[(h.RegisterRequest id).2]? = none ∧
        (h.RegisterRequest id).1.chans[(h.RegisterRequest id).2]? = some [] ∧
        (∀ id' : String, id' ≠ id →
          (h.RegisterRequest id).1.pendingRequests.get id' = h.pendingRequests.get id')) ∧
      (∀ ch : Nat, h.pendingRequests.get id = some ch →
        ∃ h', h.timeoutWatchdog id = some h' ∧
          h'.received ch = [{ RequestID := id, Code := -1, Msg := "Request timeout" }] ∧
          h'.pendingRequests.get id = none ∧
          (∀ id' : String, id' ≠ id →
            h'.pendingRequests.get id' = h.pendingRequests.get id') ∧
          (∀ ch' : Nat, ch' ≠ ch → h'.received ch' = h.received ch')) ∧
      (h.pendingRequests.get id = none → h.timeoutWatchdog id = some h) := by
  obtain ⟨h, hr, hinv⟩ := run_inv ops _ (inv_init t)
  refine ⟨h, hr, ⟨?_, ?_, ?_, ?_⟩, ?_, ?_⟩
  · exact GoMap.get_set_self _ _ _
  · simp [RegisterRequest]
  · simp [RegisterRequest]
  · intro id' hne
    exact GoMap.get_set_ne _ _ hne
  · intro ch hg
    have hmem := GoMap.mem_of_get hg
    refine ⟨delivered h id ch { RequestID := id, Code := -1, Msg := "Request timeout" },
      ?_, ?_, ?_, ?_, ?_⟩
    · rw [timeoutWatchdog_eq hinv id, hg]
    · apply received_of_getElem?
      simp only [delivered]
      exact getElem?_set_self_of_some (hinv.empty _ _ hmem)
    · exact GoMap.get_delete_self _ _
    · intro id' hne
      exact GoMap.get_delete_ne _ hne
    · intro ch' hne
      simp [received, delivered, List.getElem?_set, Ne.symm hne]
  · intro hg
    rw [timeoutWatchdog_eq hinv id, hg]

end ResponseHandler

/-- The claim C11 fails as stated on the message text: the watchdog of the one outstanding
request `"r1"` puts into its channel the response with the message `"Request timeout"`,
which is not the response with the message `"timeout"`. -/
theorem watchdog_message_counterexample :
    ((NewResponseHandler.RegisterRequest "r1").1.timeoutWatchdog "r1").map
        (fun h => h.received 0)
      = some [{ RequestID := "r1", Code := -1, Msg := "Request timeout" }]
    ∧ ((NewResponseHandler.RegisterRequest "r1").1.timeoutWatchdog "r1").map
        (fun h => h.received 0)
      ≠ some [{ RequestID := "r1", Code := -1, Msg := "timeout" }] := by
  constructor
  · decide
  · decide

/-- The handler with the requests `"a"` and `"b"` outstanding: the watchdog of `"b"` puts the
timeout response into channel 1 and drops `"b"`, keeping `"a"`; the watchdog of the unknown
id `"zz"` changes nothing; registering `"c"` returns the new channel 2. -/
theorem registerRequest_watchdog_delivers_request_timeout_witness :
    ∃ h h', ResponseHandler.run (NewResponseHandlerWithTimeout 30) exampleHandlerOps = some h
      ∧ h.pendingRequests.get "b" = some 1
      ∧ h.timeoutWatchdog "b" = some h'
      ∧ h'.received 1 = [{ RequestID := "b", Code := -1, Msg := "Request timeout" }]
      ∧ h'.pendingRequests.get "b" = none
      ∧ h'.pendingRequests.get "a" = h.pendingRequests.get "a"
      ∧ h.timeoutWatchdog "zz" = some h
      ∧ (h.RegisterRequest "c").2 = 2 := by
  obtain ⟨h, hr, _, hyes, _⟩ :=
    ResponseHandler.registerRequest_watchdog_delivers_request_timeout 30 exampleHandlerOps "b"
  obtain ⟨h2, hr2, _, _, hno⟩ :=
    ResponseHandler.registerRequest_watchdog_delivers_request_timeout 30 exampleHandlerOps "zz"
  have hval : ResponseHandler.run (NewResponseHandlerWithTimeout 30) exampleHandlerOps
      = some { pendingRequests := [("b", 1), ("a", 0)], timeout := 30, chans := [[], []] } := by
    decide
  have hh : h = { pendingRequests := [("b", 1), ("a", 0)], timeout := 30, chans := [[], []] } :=
    Option.some.inj (hr.symm.trans hval)
  have hh2 : h2 = h := Option.some.inj (hr2.symm.trans hr)
  subst hh2
  have hget : h2.pendingRequests.get "b" = some 1 := by
    rw [hh]; decide
  have hzz : h2.pendingRequests.get "zz" = none := by
    rw [hh]; decide
  have hc : (h2.RegisterRequest "c").2 = 2 := by
    rw [hh]; decide
  obtain ⟨h', hd, hrec, hgone, hother, _⟩ := hyes 1 hget
  exact ⟨h2, h', hr, hget, hd, hrec, hgone, hother "a" (by decide), hno hzz, hc⟩

/-! ## Closing a connection -/

namespace RobotGatewayClient

theorem close_of_not_open {a : RobotGatewayClient} (h : a.isOpen = false) :
    a.Close = some (a, []) := by
  simp [Close, h]

/-- What `Close` leaves of the flags of the client. -/
theorem close_flags {a a1 : RobotGatewayClient} {released : List GatewayEffect}
    (h : a.Close = some (a1, released)) :
    a1.isOpen = false ∧ a1.isAuth = a.isAuth := by
  by_cases ho : a.isOpen = true
  · simp only [Close, ho, Bool.not_true, Bool.false_eq_true, if_false] at h
    cases hc : a.responseHandler.Clear with
    | none => simp [hc] at h
    | some hd =>
      simp only [hc] at h
      cases hm : a.connManager with
      | none =>
        simp only [hm, Option.some.injEq, Prod.mk.injEq] at h
        rw [← h.1]
        exact ⟨rfl, rfl⟩
      | some cm =>
        simp only [hm, Option.some.injEq, Prod.mk.injEq] at h
        rw [← h.1]
        exact ⟨rfl, rfl⟩
  · have ho' : a.isOpen = false := by simpa using ho
    rw [close_of_not_open ho'] at h
    simp only [Option.some.injEq, Prod.mk.injEq] at h
    rw [← h.1]
    exact ⟨ho', rfl⟩

theorem close_returns {a : RobotGatewayClient} (hinv : a.responseHandler.Inv) :
    ∃ r, a.Close = some r := by
  obtain ⟨h', hc, _⟩ := ResponseHandler.clear_spec hinv
  by_cases ho : a.isOpen = true
  · cases hm : a.connManager with
    | none => exact ⟨_, by simp only [Close, ho, hc, hm]; rfl⟩
    | some cm => exact ⟨_, by simp only [Close, ho, hc, hm]; rfl⟩
  · have ho' : a.isOpen = false := by simpa using ho
    exact ⟨_, close_of_not_open ho'⟩

end RobotGatewayClient

namespace WebSocketClient

theorem closeConnection_of_not_open {b : WebSocketClient} (h : b.isOpen = false) :
    b.CloseConnection = .ok (b, []) := by
  simp [CloseConnection, h]

/-- What `CloseConnection` leaves of the flags of the client. -/
theorem closeConnection_flags {b b1 : WebSocketClient} {released : List Effect}
    (h : b.CloseConnection = .ok (b1, released)) :
    b1.isOpen = false ∧ (b.isOpen = true → b1.isAuthenticated = false) := by
  by_cases ho : b.isOpen = true
  · simp only [CloseConnection, ho, Bool.not_true, Bool.false_eq_true, if_false] at h
    split at h
    · cases h
    · split at h
      · simp only [Except.ok.injEq, Prod.mk.injEq] at h
        rw [← h.1]
        exact ⟨rfl, fun _ => rfl⟩
      · simp only [Except.ok.injEq, Prod.mk.injEq] at h
        rw [← h.1]
        exact ⟨rfl, fun _ => rfl⟩
  · have ho' : b.isOpen = false := by simpa using ho
    rw [closeConnection_of_not_open ho'] at h
    simp only [Except.ok.injEq, Prod.mk.injEq] at h
    rw [← h.1]
    exact ⟨ho', fun hc => absurd hc ho⟩

theorem closeConnection_returns {b : WebSocketClient} (hs : b.stopChanClosed = false)
    (hh : b.heartbeatStopChanClosed = false) : ∃ r, b.CloseConnection = .ok r := by
  simp only [CloseConnection, hs, hh]
  by_cases ho : b.isOpen = true
  · by_cases hc : b.conn = true
    · exact ⟨_, by simp only [ho, hc]; rfl⟩
    · exact ⟨_, by simp only [ho, hc]; rfl⟩
  · have ho' : b.isOpen = false := by simpa using ho
    exact ⟨_, by simp only [ho']; rfl⟩

end WebSocketClient

/-- Claim C17. On the gateway-side engine and on the agent-side engine alike: whenever a
first `Close` returns, a second `Close` returns the very state left by the first and
releases nothing (its list of effects is empty: no stop channel closed, no close frame, no
connection closed, no call of the owner); `Close` on an engine whose open flag is down, such
as one that was never opened, returns the state unchanged with no effect; and the first
`Close` does return, on the gateway side when the correlator satisfies its invariant and on
the agent side when the two stop channels have not been closed. -/
theorem close_twice_releases_nothing :
    (∀ (a a1 : RobotGatewayClient) (released : List GatewayEffect),
        a.Close = some (a1, released) → a1.Close = some (a1, []))
    ∧ (∀ a : RobotGatewayClient, a.isOpen = false → a.Close = some (a, []))
    ∧ (∀ a : RobotGatewayClient, a.responseHandler.Inv → ∃ r, a.Close = some r)
    ∧ (∀ (b b1 : WebSocketClient) (released : List Effect),
        b.CloseConnection = .ok (b1, released) → b1.CloseConnection = .ok (b1, []))
    ∧ (∀ b : WebSocketClient, b.isOpen = false → b.CloseConnection = .ok (b, []))
    ∧ (∀ b : WebSocketClient, b.stopChanClosed = false → b.heartbeatStopChanClosed = false →
        ∃ r, b.CloseConnection = .ok r) := by
  refine ⟨?_, ?_, ?_, ?_, ?_, ?_⟩
  · intro a a1 released h
    exact RobotGatewayClient.close_of_not_open (RobotGatewayClient.close_flags h).1
  · intro a h
    exact RobotGatewayClient.close_of_not_open h
  · intro a hinv
    exact RobotGatewayClient.close_returns hinv
  · intro b b1 released h
    exact WebSocketClient.closeConnection_of_not_open (WebSocketClient.closeConnection_flags h).1
  · intro b h
    exact WebSocketClient.closeConnection_of_not_open h
  · intro b hs hh
    exact WebSocketClient.closeConnection_returns hs hh

/-- The first `Close` of the connected gateway-side client releases the stop channel and the
connection and tells the manager, the second releases nothing; the same for the connected
agent-side client; and a new client of either side is closed without any effect. -/
theorem close_twice_releases_nothing_witness :
    (exampleGatewayClient.Close).map Prod.snd
        = some [.closeStopChan, .writeCloseMessage, .closeConn, .onDisconnected,
                .connectionChanged false, .scheduleReconnect]
    ∧ ((exampleGatewayClient.Close).bind (fun r => r.1.Close)).map Prod.snd = some []
    ∧ (exampleGatewayClient.Close).bind (fun r => r.1.Close)
        = (exampleGatewayClient.Close).map (fun r => (r.1, []))
    ∧ (NewRobotGatewayClient none).Close = some (NewRobotGatewayClient none, [])
    ∧ (exampleAgentClientOpen.CloseConnection).map Prod.snd
        = .ok [.closeStopChan, .closeHeartbeatStopChan, .writeCloseMessage, .closeConn]
    ∧ (exampleAgentClientOpen.CloseConnection).bind (fun r => r.1.CloseConnection)
        = (exampleAgentClientOpen.CloseConnection).map (fun r => (r.1, []))
    ∧ exampleAgentClient.CloseConnection = .ok (exampleAgentClient, []) := by
  obtain ⟨hA, hA0, _, hB, hB0, hBr⟩ := close_twice_releases_nothing
  have h1 : (exampleGatewayClient.Close).map Prod.snd
      = some [.closeStopChan, .writeCloseMessage, .closeConn, .onDisconnected,
              .connectionChanged false, .scheduleReconnect] := by decide
  have h5 : (exampleAgentClientOpen.CloseConnection).map Prod.snd
      = .ok [.closeStopChan, .closeHeartbeatStopChan, .writeCloseMessage, .closeConn] := by
    rfl
  refine ⟨h1, ?_, ?_, hA0 _ rfl, h5, ?_, hB0 _ rfl⟩
  · cases hx : exampleGatewayClient.Close with
    | none => rw [hx] at h1; cases h1
    | some r => simp [hA _ r.1 r.2 hx]
  · cases hx : exampleGatewayClient.Close with
    | none => rw [hx] at h1; cases h1
    | some r => simp [hA _ r.1 r.2 hx]
  · obtain ⟨r, hr⟩ := hBr exampleAgentClientOpen rfl rfl
    rw [hr]
    show r.1.CloseConnection = _
    rw [hB _ r.1 r.2 hr]
    rfl


/-- Claim C18 fails on the gateway-side engine. `Close` on the connected and authenticated
client `exampleGatewayClient` returns with the open flag down and the flag read by
`IsAuthenticated` still up; once the client has connected again, and before any connect
request has been answered (the manager reads as not authenticated), `SendRequest` is not
refused as "not authenticated": it registers the request and queues its frame.  On the
agent-side engine `CloseConnection` takes both flags down. -/
theorem close_leaves_gateway_client_authenticated :
    exampleGatewayClient.IsOpen = true ∧ exampleGatewayClient.IsAuthenticated = true
    ∧ (exampleGatewayClient.Close).map (fun r => (r.1.IsOpen, r.1.IsAuthenticated))
        = some (false, true)
    ∧ exampleGatewayClientReopened.IsOpen = true
    ∧ ConnectionManager.authenticated? exampleGatewayClientReopened = false
    ∧ exampleGatewayClientReopened.IsAuthenticated = true
    ∧ (exampleGatewayClientReopened.SendRequest "r1" "getProfile" []).map
          (fun r => (r.1.responseHandler.pendingRequests.keys, r.1.sendChan.getLast?))
        = .ok (["r1"], some (.request "r1" "getProfile" []))
    ∧ (exampleAgentClientOpen.IsAuthenticated = true
        ∧ (exampleAgentClientOpen.CloseConnection).map
              (fun r => (r.1.isOpen, r.1.IsAuthenticated))
            = .ok (false, false)) := by
  refine ⟨by decide, by decide, by decide, by decide, by decide, by decide, ?_, by decide, ?_⟩
  · rfl
  · rfl

/-- Claim C14 fails. On the connected and authenticated agent-side client, which has a
handler, the failure `"EOF"` of a read makes the read loop call `OnError("EOF")` and then
`CloseConnection`, which closes the two stop channels and the connection; and
`CloseConnection` called directly does only the latter.  In both cases no call of
`OnDisconnected` is made, the only call that leads to `HandleOpenclawDisconnected`. -/
theorem teardown_makes_no_disconnected_call :
    exampleAgentClientOpen.hasHandler = true
    ∧ (exampleAgentClientOpen.readLoopFailure "EOF").map Prod.snd
        = .ok [.handler (.OnError "EOF"), .closeStopChan, .closeHeartbeatStopChan,
               .writeCloseMessage, .closeConn]
    ∧ (exampleAgentClientOpen.CloseConnection).map Prod.snd
        = .ok [.closeStopChan, .closeHeartbeatStopChan, .writeCloseMessage, .closeConn]
    ∧ (exampleAgentClientOpen.readLoopFailure "EOF").map
          (fun r => (r.1.isOpen, r.1.isAuthenticated, r.1.conn))
        = .ok (false, false, false) := by
  refine ⟨rfl, rfl, rfl, rfl⟩


namespace WebSocketClient

/-- `CloseConnection` makes no call on the handler, whatever the client. -/
theorem closeConnection_calls_no_handler {b b1 : WebSocketClient} {released : List Effect}
    (h : b.CloseConnection = .ok (b1, released)) (call : HandlerCall) :
    Effect.handler call ∉ released := by
  unfold CloseConnection at h
  split at h
  · simp only [Except.ok.injEq, Prod.mk.injEq] at h
    rw [← h.2]
    simp
  · split at h
    · cases h
    · split at h
      · simp only [Except.ok.injEq, Prod.mk.injEq] at h
        rw [← h.2]
        simp
      · simp only [Except.ok.injEq, Prod.mk.injEq] at h
        rw [← h.2]
        simp

/-- The only call that the failure of a read makes on the handler is `OnError`. -/
theorem readLoopFailure_calls_onError_only {b b1 : WebSocketClient} {effects : List Effect}
    {err : String} (h : b.readLoopFailure err = .ok (b1, effects)) (call : HandlerCall)
    (hc : Effect.handler call ∈ effects) : call = .OnError err := by
  unfold readLoopFailure at h
  split at h
  · rename_i c1 released hcl
    simp only [Except.ok.injEq, Prod.mk.injEq] at h
    rw [← h.2] at hc
    rcases List.mem_append.1 hc with hm | hm
    · unfold notify at hm
      split at hm
      · simpa using hm
      · simp at hm
    · exact absurd hm (closeConnection_calls_no_handler hcl call)
  · cases h

/-- Claim C15, as amended. When the response to a pending connect request has `ok = false`,
the request is no longer pending, the handler is told `OnError("Authentication failed")`
and nothing else, `IsAuthenticated` reads false if the flag was down before, the token of
the configuration is what it was, no frame is queued and the open flag is what it was. -/
theorem rejected_connect_reports_error_and_keeps_token (c : WebSocketClient) (now : Int)
    (frame : ResponseFrame) (pending : PendingRequest)
    (hp : c.pendingRequests.get frame.id = some pending) (hm : pending.Method = "connect")
    (hok : frame.ok = false) :
    (c.handleResponse now frame).1.pendingRequests.get frame.id = none
    ∧ (c.handleResponse now frame).2 = c.notify (.OnError "Authentication failed")
    ∧ (c.isAuthenticated = false → (c.handleResponse now frame).1.IsAuthenticated = false)
    ∧ (c.handleResponse now frame).1.token = c.token
    ∧ (c.handleResponse now frame).1.sendChan = c.sendChan
    ∧ (c.handleResponse now frame).1.isOpen = c.isOpen := by
  have heq : c.handleResponse now frame
      = ({ c with pendingRequests := c.pendingRequests.delete frame.id },
         c.notify (.OnError "Authentication failed")) := by
    simp [handleResponse, hp, hm, hok]
  rw [heq]
  exact ⟨GoMap.get_delete_self _ _, rfl, fun h => h, rfl, rfl, rfl⟩

end WebSocketClient

/-- The claim C15 fails as stated. The client with the token `"secret"` has sent the connect
request `"c1"`; the response with `ok = false` is reported to the handler, and afterwards
the token is still `"secret"` and the connect request sent at the next challenge carries it
again.  And on the authenticated client, a second connect request answered with
`ok = false` leaves `IsAuthenticated` true. -/
theorem rejected_connect_keeps_token_counterexample :
    exampleAgentClientChallenged.token = "secret"
    ∧ (exampleAgentClientChallenged.pendingRequests.get "c1").map (fun p => p.Method)
        = some "connect"
    ∧ (exampleAgentClientChallenged.handleResponse 20 { id := "c1", ok := false }).2
        = [.OnError "Authentication failed"]
    ∧ (exampleAgentClientChallenged.handleResponse 20 { id := "c1", ok := false }).1.token
        = "secret"
    ∧ (((exampleAgentClientChallenged.handleResponse 20 { id := "c1", ok := false }).1.handleChallenge
          30 "c2").sendChan.getLast?).map (fun req => (req.Method, req.Params))
        = some ("connect", .connect
            { MinProtocol := 3, MaxProtocol := 3,
              Client := { ID := "cli", Version := "1.0.0", Platform := "go", Mode := "cli" },
              Role := "operator", Scopes := ["operator.read", "operator.write"],
              Auth := some "secret", UserAgent := "openclaw-adapter/1.0.0" })
    ∧ exampleAgentClientOpen.IsAuthenticated = true
    ∧ ((exampleAgentClientOpen.handleChallenge 30 "c2").handleResponse 40
          { id := "c2", ok := false }).1.IsAuthenticated = true := by
  refine ⟨by decide, by decide, by decide, by decide, by decide, by decide, by decide⟩

/-- The client that has sent the connect request `"c1"` gets the response with `ok = false`:
the request is forgotten, the handler hears of the failure, the client stays
unauthenticated and keeps its token. -/
theorem rejected_connect_reports_error_and_keeps_token_witness :
    (exampleAgentClientChallenged.handleResponse 20 { id := "c1", ok := false }).1.pendingRequests.get
        "c1" = none
    ∧ (exampleAgentClientChallenged.handleResponse 20 { id := "c1", ok := false }).2
        = [.OnError "Authentication failed"]
    ∧ (exampleAgentClientChallenged.handleResponse 20 { id := "c1", ok := false }).1.IsAuthenticated
        = false
    ∧ (exampleAgentClientChallenged.handleResponse 20 { id := "c1", ok := false }).1.token
        = "secret" := by
  obtain ⟨h1, h2, h3, h4, _, _⟩ :=
    WebSocketClient.rejected_connect_reports_error_and_keeps_token exampleAgentClientChallenged
      20 { id := "c1", ok := false } { Method := "connect", Timestamp := 10 }
      (by decide) rfl rfl
  exact ⟨h1, h2, h3 (by decide), h4⟩


/-! ## A rejected connect request on the gateway side -/

namespace ConnectionManager

/-- When `onDisconnected` schedules a reconnect, the manager is running and holds both
credentials. -/
theorem onDisconnected_schedules_only_with_credentials (cm : ConnectionManager)
    (h : GatewayEffect.scheduleReconnect ∈ cm.onDisconnected.2) :
    cm.running = true ∧ cm.robotID ≠ "" ∧ cm.robotSecret ≠ "" := by
  simp only [onDisconnected, IsRunning, IsAuthenticated] at h
  split at h
  · rename_i hcond
    simp only [Bool.and_eq_true, decide_eq_true_eq, ne_eq] at hcond
    exact ⟨hcond.1, hcond.2.1, hcond.2.2⟩
  · simp only [notify] at h
    split at h
    · split at h <;> simp at h
    · simp at h

theorem onDisconnected_of_stopped (cm : ConnectionManager) (h : cm.running = false) :
    GatewayEffect.scheduleReconnect ∉ cm.onDisconnected.2 := by
  intro hmem
  have := (onDisconnected_schedules_only_with_credentials cm hmem).1
  rw [h] at this
  cases this

end ConnectionManager

namespace RobotGatewayClient

/-- Claim C16. When the client of a manager handles a connect response whose code is not
zero, afterwards the robot id and the secret of the manager are empty, its authenticated
and running flags are down, as is the flag of the client itself; `onDisconnected` on that
manager, and `Close` on that client, schedule no reconnect.  In general `onDisconnected`
schedules a reconnect only when the manager is running and holds both credentials. -/
theorem rejected_connect_clears_credentials_and_stops (c : RobotGatewayClient)
    (cm : ConnectionManager) (msg : ConnectMessage) (code : Int)
    (hcm : c.connManager = some cm) (hcode : msg.Code = some code) (hne : code ≠ 0) :
    ∃ cm', (c.handleConnectResponse msg).1.connManager = some cm'
      ∧ cm'.robotID = "" ∧ cm'.robotSecret = ""
      ∧ cm'.IsAuthenticated = false ∧ cm'.IsRunning = false
      ∧ (c.handleConnectResponse msg).1.IsAuthenticated = false
      ∧ GatewayEffect.scheduleReconnect ∉ cm'.onDisconnected.2
      ∧ (∀ (c2 : RobotGatewayClient) (effects : List GatewayEffect),
          (c.handleConnectResponse msg).1.Close = some (c2, effects) →
            GatewayEffect.scheduleReconnect ∉ effects)
      ∧ (∀ m : ConnectionManager, GatewayEffect.scheduleReconnect ∈ m.onDisconnected.2 →
          m.running = true ∧ m.robotID ≠ "" ∧ m.robotSecret ≠ "") := by
  have hs : msg.IsSuccess = false := by
    simp [ConnectMessage.IsSuccess, hcode, hne]
  have heq : c.handleConnectResponse msg
      = ({ c with isAuth := false, connManager := some cm.onAuthenticationFailed.1 },
         cm.onAuthenticationFailed.2) := by
    simp [handleConnectResponse, hs, callManager, setAuthenticated, hcm]
  have hrun : cm.onAuthenticationFailed.1.running = false := rfl
  refine ⟨cm.onAuthenticationFailed.1, ?_, rfl, rfl, rfl, rfl, ?_, ?_, ?_, ?_⟩
  · rw [heq]
  · rw [heq]; rfl
  · exact ConnectionManager.onDisconnected_of_stopped _ hrun
  · intro c2 effects hclose
    rw [heq] at hclose
    simp only [Close] at hclose
    split at hclose
    · simp only [Option.some.injEq, Prod.mk.injEq] at hclose
      rw [← hclose.2]
      simp
    · split at hclose
      · cases hclose
      · simp only [Option.some.injEq, Prod.mk.injEq] at hclose
        rw [← hclose.2]
        intro hmem
        rcases List.mem_append.1 hmem with hm | hm
        · split at hm <;> simp at hm
        · rcases List.mem_cons.1 hm with hm | hm
          · cases hm
          · exact ConnectionManager.onDisconnected_of_stopped _ hrun hm
  · intro m hm
    exact ConnectionManager.onDisconnected_schedules_only_with_credentials m hm

end RobotGatewayClient

/-- The connected client of the robot `"robot"` gets a connect response with code 3: the
credentials are gone, the flags are down, and the `Close` that follows tells the manager
without scheduling a reconnect (the same `Close` before the response schedules one). -/
theorem rejected_connect_clears_credentials_and_stops_witness :
    ∃ cm', (exampleGatewayClient.handleConnectResponse (NewConnectResponse 3 "denied")).1.connManager
        = some cm'
      ∧ cm'.robotID = "" ∧ cm'.robotSecret = ""
      ∧ cm'.IsAuthenticated = false ∧ cm'.IsRunning = false
      ∧ GatewayEffect.scheduleReconnect ∉ cm'.onDisconnected.2
      ∧ ((exampleGatewayClient.handleConnectResponse (NewConnectResponse 3 "denied")).1.Close).map
            Prod.snd
          = some [.closeStopChan, .writeCloseMessage, .closeConn, .onDisconnected]
      ∧ GatewayEffect.scheduleReconnect ∈
          ((exampleGatewayClient.Close).map Prod.snd).getD [] := by
  obtain ⟨cm', h1, h2, h3, h4, h5, _, h7, _, _⟩ :=
    RobotGatewayClient.rejected_connect_clears_credentials_and_stops exampleGatewayClient
      { hasHandler := true, running := true, connected := true, authenticated := true,
        robotID := "robot", robotSecret := "secret" }
      (NewConnectResponse 3 "denied") 3 (by decide) rfl (by decide)
  exact ⟨cm', h1, h2, h3, h4, h5, h7, by decide, by decide⟩


/-! ## From a push of side A to a request of side B -/

namespace MessageConverter

/-- What `ConvertToOpenclaw` makes of a private text message with a text. -/
theorem convertToOpenclaw_private_text (msg : PushMessage) (data : OutputMessageData)
    (conv : Conversation) (payload : MessagePayload)
    (hd : msg.Data = some data) (hconv : data.Conv = some conv) (hpriv : conv.type = 0)
    (hp : data.Payload = some payload) (htext : payload.type = 1)
    (hne : payload.SearchableContent ≠ "") :
    ConvertToOpenclaw (some msg)
      = .ok (some { type := "message",
                    Channel := { ID := "wildfire-im", ThreadID := data.Sender,
                                 PeerID := data.Sender, PeerName := data.Sender,
                                 IsGroup := false },
                    Message := { Text := payload.SearchableContent,
                                 Timestamp := data.Timestamp },
                    Session := some (generateSessionID data.Sender data.Sender) }) := by
  have ht : extractTextContent data = payload.SearchableContent := by
    simp [extractTextContent, hp, htext]
  have hm : extractMediaInfo data = ("", "") := by
    simp only [extractMediaInfo, hp, htext]
    split <;> simp
  simp [ConvertToOpenclaw, hd, ht, hne, hconv, hpriv, hm]

end MessageConverter

namespace Bridge

/-- Claim C20, as amended. With the bridge running, both clients in place, side B
authenticated, the whitelist filter disabled and room in the queue of outgoing frames of
side B, every push of a private text message (conversation type 0, payload type 1) with a
sender and a text that are not empty is handled without fault and adds exactly one frame to
that queue, at its end: the request with the fresh id, the method `"chat.send"` and the
message equal to the `searchableContent` of the push, without attachment; the request is
recorded as pending for the sender. -/
theorem private_text_push_queues_one_chat_send (b : Bridge) (now : Int) (requestID : String)
    (w : RobotServiceClient) (c : WebSocketClient) (msg : PushMessage)
    (data : OutputMessageData) (conv : Conversation) (payload : MessagePayload)
    (hrun : b.IsRunning = true) (hw : b.wildfireClient = some w)
    (hc : b.openclawClient = some c) (hauth : c.IsAuthenticated = true)
    (hwl : b.config.Whitelist.Enabled = false)
    (hroom : c.sendChan.length < sendChanCapacity)
    (hd : msg.Data = some data) (hconv : data.Conv = some conv) (hpriv : conv.type = 0)
    (hp : data.Payload = some payload) (htext : payload.type = 1)
    (hs : data.Sender ≠ "") (hne : payload.SearchableContent ≠ "") :
    ∃ b' c', b.HandleWildfireMessage now requestID (some msg) = .ok b'
      ∧ b'.openclawClient = some c'
      ∧ c'.sendChan = c.sendChan ++ [chatSendFrame requestID payload.SearchableContent]
      ∧ c'.pendingRequests.get requestID
          = some { Method := "chat.send", SenderID := data.Sender, ThreadID := data.Sender,
                   IsGroup := false, Timestamp := now } := by
  have hcv := MessageConverter.convertToOpenclaw_private_text msg data conv payload hd hconv
    hpriv hp htext hne
  have hauth' : c.isAuthenticated = true := hauth
  have hrun' : b.running = true := hrun
  simp only [HandleWildfireMessage, IsRunning, hrun', hd, hp, hconv, hcv, hw, hc, htext, hpriv,
    WhitelistConfig.ShouldProcess, hwl, GroupConfig.ShouldRespond, hs,
    WebSocketClient.SendMessage, hauth', Option.bind, Option.map]
  simp [WebSocketClient.send, hroom, withOpenclawClient, chatSendFrame]
  exact GoMap.get_set_self _ _ _

end Bridge


/-- The claim C20 fails as stated. The bridge `exampleBridgeBusy` is running, its side B is
authenticated and its whitelist filter is disabled, but one hundred frames wait in the
queue of side B.  The push of the private text `"hello"` of `"u1"` is handled without
fault and recorded as the pending request `"q1"`, yet the queue afterwards is the queue
before: no request is produced. -/
theorem full_queue_drops_chat_send_counterexample :
    exampleBridgeBusy.IsRunning = true ∧ exampleBridgeBusy.IsOpenclawConnected = true
    ∧ exampleBridgeBusy.config.Whitelist.Enabled = false
    ∧ exampleBridgeBusy.openclawClient.map (fun c => c.sendChan.length) = some 100
    ∧ (exampleBridgeBusy.HandleWildfireMessage 1000 "q1" (some examplePush)).map
          (fun b => b.openclawClient.map (fun c => c.sendChan))
        = .ok (exampleBridgeBusy.openclawClient.map (fun c => c.sendChan))
    ∧ (exampleBridgeBusy.HandleWildfireMessage 1000 "q1" (some examplePush)).map
          (fun b => b.openclawClient.map (fun c =>
            (c.sendChan.any (fun r => r.ID == "q1"),
             (c.pendingRequests.get "q1").map (fun p => p.Method))))
        = .ok (some (false, some "chat.send")) := by
  refine ⟨by decide, by decide, by decide, by decide, ?_, ?_⟩
  · rfl
  · rfl

/-- The bridge `exampleBridge` handles the push of the private text `"hello"` of `"u1"`: the
queue of side B, which held the connect request, then holds two frames, the last one being
the request `"q1"` with the method `"chat.send"` and the message `"hello"`. -/
theorem private_text_push_queues_one_chat_send_witness :
    ∃ b' c', exampleBridge.HandleWildfireMessage 1000 "q1" (some examplePush) = .ok b'
      ∧ b'.openclawClient = some c'
      ∧ c'.sendChan.map (fun r => (r.ID, r.Method)) = [("connect-1", "connect"), ("q1", "chat.send")]
      ∧ c'.sendChan.getLast?
          = some { type := "req", ID := "q1", Method := "chat.send",
                   Params := .chatSend { SessionKey := "main", Message := "hello" } } := by
  obtain ⟨b', c', h1, h2, h3, _⟩ :=
    Bridge.private_text_push_queues_one_chat_send exampleBridge 1000 "q1" _ _ examplePush
      { Sender := "u1", Conv := some { type := 0, Target := "u1" },
        Payload := some { type := 1, SearchableContent := "hello" } }
      { type := 0, Target := "u1" } { type := 1, SearchableContent := "hello" }
      rfl rfl rfl rfl rfl (by decide) rfl rfl rfl rfl rfl (by decide) (by decide)
  refine ⟨b', c', h1, h2, ?_, ?_⟩
  · rw [h3]; rfl
  · rw [h3]; rfl


/-! ## The reconnection loop of the bridge -/

theorem attempts_append (xs ys : List RetryEvent) :
    attempts (xs ++ ys) = attempts xs ++ attempts ys := by
  induction xs with
  | nil => rfl
  | cons x xs ih =>
    cases x <;> simp [attempts, ih]

/-- The three ways in which a pass through the loop ends. -/
theorem retryPass_cases (running connected : Bool) (k : Nat) (outcome : AttemptOutcome)
    (connectedAfter : Bool) :
    (∃ events, retryPass running connected k outcome connectedAfter = .exit events
        ∧ attempts events = [] ∧ RetryEvent.installed ∉ events
        ∧ (connected = false → events = [.gaveUp])
        ∧ ¬ (running = true ∧ k < maxRetries ∧ connected = false))
    ∨ (∃ events, retryPass running connected k outcome connectedAfter = .installed events
        ∧ attempts events = [k + 1] ∧ k < maxRetries
        ∧ ∃ now id, outcome = .authenticated now id)
    ∨ (∃ events, retryPass running connected k outcome connectedAfter = .again (k + 1) events
        ∧ attempts events = [k + 1] ∧ RetryEvent.installed ∉ events ∧ k < maxRetries) := by
  unfold retryPass
  by_cases hc : (running && decide (k < maxRetries) && !connected) = true
  · have hk : k < maxRetries := by
      simp only [Bool.and_eq_true, decide_eq_true_eq] at hc
      exact hc.1.2
    rw [if_pos hc]
    cases outcome with
    | authenticated now id =>
      exact Or.inr (Or.inl ⟨_, rfl, rfl, hk, now, id, rfl⟩)
    | dialFailed err =>
      refine Or.inr (Or.inr ?_)
      by_cases hs : (decide (k + 1 < maxRetries) && !connectedAfter) = true
      · refine ⟨[.attempt (k + 1), .sleep], ?_, rfl, by simp, hk⟩
        show (if _ then _ else _) = _
        rw [if_pos hs]
      · refine ⟨[.attempt (k + 1)], ?_, rfl, by simp, hk⟩
        show (if _ then _ else _) = _
        rw [if_neg hs]
    | notAuthenticated =>
      refine Or.inr (Or.inr ?_)
      by_cases hs : (decide (k + 1 < maxRetries) && !connectedAfter) = true
      · refine ⟨[.attempt (k + 1), .sleep], ?_, rfl, by simp, hk⟩
        show (if _ then _ else _) = _
        rw [if_pos hs]
      · refine ⟨[.attempt (k + 1)], ?_, rfl, by simp, hk⟩
        show (if _ then _ else _) = _
        rw [if_neg hs]
  · rw [if_neg hc]
    have hnot : ¬ (running = true ∧ k < maxRetries ∧ connected = false) := by
      intro h
      apply hc
      simp [h.1, h.2.1, h.2.2]
    refine Or.inl ?_
    cases connected with
    | false => exact ⟨_, rfl, rfl, by simp, fun _ => rfl, hnot⟩
    | true => exact ⟨_, rfl, rfl, by simp, fun h => Bool.noConfusion h, hnot⟩

/-- The loop returns within `maxRetries - k + 1` passes when it starts with
`retryCount = k`, and every attempt it makes has a number between `k + 1` and
`maxRetries`. -/
theorem retryLoop_returns (env : Nat → RetryObservation) :
    ∀ (fuel k : Nat), k ≤ maxRetries → maxRetries - k < fuel →
      ∃ events, retryLoop env fuel k = some events
        ∧ (attempts events).length ≤ maxRetries - k := by
  intro fuel
  induction fuel with
  | zero => intro k _ h; omega
  | succ fuel ih =>
    intro k hk hf
    rcases retryPass_cases (env k).running (env k).connected k (env k).outcome
        (env k).connectedAfter with
      ⟨ev, hp, ha, _, _, _⟩ | ⟨ev, hp, ha, hlt, _⟩ | ⟨ev, hp, ha, _, hlt⟩
    · exact ⟨ev, by simp only [retryLoop, hp], by simp [ha]⟩
    · exact ⟨ev, by simp only [retryLoop, hp], by simp only [ha, List.length_singleton]; omega⟩
    · obtain ⟨rest, hr, hl⟩ := ih (k + 1) hlt (by omega)
      refine ⟨ev ++ rest, by simp only [retryLoop, hp, hr, Option.map_some'], ?_⟩
      rw [attempts_append, List.length_append, ha, List.length_singleton]
      omega

/-- More passes allowed change nothing once the loop has returned. -/
theorem retryLoop_fuel_mono (env : Nat → RetryObservation) :
    ∀ (fuel k : Nat) (events : List RetryEvent), retryLoop env fuel k = some events →
      ∀ fuel1, fuel ≤ fuel1 → retryLoop env fuel1 k = some events := by
  intro fuel
  induction fuel with
  | zero => intro k events h; simp [retryLoop] at h
  | succ fuel ih =>
    intro k events h fuel1 hle
    obtain ⟨f, rfl⟩ : ∃ f, fuel1 = f + 1 := ⟨fuel1 - 1, by omega⟩
    rcases retryPass_cases (env k).running (env k).connected k (env k).outcome
        (env k).connectedAfter with ⟨ev, hp, _⟩ | ⟨ev, hp, _⟩ | ⟨ev, hp, _⟩
    · simp only [retryLoop, hp] at h ⊢
      exact h
    · simp only [retryLoop, hp] at h ⊢
      exact h
    · simp only [retryLoop, hp] at h ⊢
      cases hr : retryLoop env fuel (k + 1) with
      | none => rw [hr] at h; cases h
      | some rest =>
        rw [hr] at h
        rw [ih (k + 1) rest hr f (by omega)]
        exact h

/-- When the bridge stays running, the side stays disconnected and no attempt ends with an
authenticated client, the loop that starts with `retryCount = k` makes the attempts
`k + 1, ..., maxRetries`, installs nothing and ends by logging its failure. -/
theorem retryLoop_exhausts (env : Nat → RetryObservation)
    (hfail : ∀ i, (env i).running = true ∧ (env i).connected = false
      ∧ ∀ (now : Int) (id : String), (env i).outcome ≠ .authenticated now id) :
    ∀ (fuel k : Nat), k ≤ maxRetries → maxRetries - k < fuel →
      ∃ events, retryLoop env fuel k = some events
        ∧ attempts events = List.range' (k + 1) (maxRetries - k)
        ∧ RetryEvent.installed ∉ events
        ∧ events.getLast? = some .gaveUp := by
  intro fuel
  induction fuel with
  | zero => intro k _ h; omega
  | succ fuel ih =>
    intro k hk hf
    obtain ⟨hrun, hconn, hout⟩ := hfail k
    rcases retryPass_cases (env k).running (env k).connected k (env k).outcome
        (env k).connectedAfter with
      ⟨ev, hp, ha, hni, hg, hnot⟩ | ⟨ev, hp, ha, hlt, now, id, ho⟩ | ⟨ev, hp, ha, hni, hlt⟩
    · have hk10 : k = maxRetries := by
        by_contra hne
        exact hnot ⟨hrun, by omega, hconn⟩
      refine ⟨ev, by simp only [retryLoop, hp], ?_, hni, ?_⟩
      · rw [ha, hk10]; simp
      · rw [hg hconn]; rfl
    · exact absurd ho (hout now id)
    · obtain ⟨rest, hr, hat, hnr, hlast⟩ := ih (k + 1) hlt (by omega)
      refine ⟨ev ++ rest, by simp only [retryLoop, hp, hr, Option.map_some'], ?_, ?_, ?_⟩
      · rw [attempts_append, ha, hat]
        have : maxRetries - k = (maxRetries - (k + 1)) + 1 := by omega
        rw [this, List.range'_succ]
        rfl
      · intro hmem
        rcases List.mem_append.1 hmem with h | h
        · exact hni h
        · exact hnr h
      · have hne : rest ≠ [] := by
          intro h
          rw [h] at hlast
          cases hlast
        rw [List.getLast?_append_of_ne_nil _ hne]
        exact hlast


/-- Claim C13. Whatever the goroutine of `scheduleOpenclawReconnect` reads and meets, it
returns within `maxRetries + 1 = 11` passes through its loop (more passes allowed give the
same result) and makes at most 10 connection attempts.  When at every pass the bridge is
running, side B is not connected and the attempt does not end with an authenticated client,
the attempts made are exactly the ten attempts 1, ..., 10, no client is installed, and the
last thing the goroutine does is to log its failure: it returns without another attempt. -/
theorem reconnect_loop_stops_after_ten_attempts (env : Nat → RetryObservation) :
    ∃ events, retryLoop env (maxRetries + 1) 0 = some events
      ∧ (∀ fuel, maxRetries + 1 ≤ fuel → retryLoop env fuel 0 = some events)
      ∧ (attempts events).length ≤ 10
      ∧ ((∀ i, (env i).running = true ∧ (env i).connected = false
            ∧ ∀ (now : Int) (id : String), (env i).outcome ≠ .authenticated now id) →
          attempts events = [1, 2, 3, 4, 5, 6, 7, 8, 9, 10]
          ∧ RetryEvent.installed ∉ events
          ∧ events.getLast? = some .gaveUp) := by
  obtain ⟨events, hr, hlen⟩ :=
    retryLoop_returns env (maxRetries + 1) 0 (Nat.zero_le _) (Nat.lt_succ_self _)
  refine ⟨events, hr, fun fuel hle => retryLoop_fuel_mono env _ 0 events hr fuel hle, hlen, ?_⟩
  intro hfail
  obtain ⟨events', hr', hat, hni, hlast⟩ :=
    retryLoop_exhausts env hfail (maxRetries + 1) 0 (Nat.zero_le _) (Nat.lt_succ_self _)
  have heq : events = events' := Option.some.inj (hr.symm.trans hr')
  subst heq
  exact ⟨hat, hni, hlast⟩

/-- Against a gateway that refuses every connection the goroutine makes ten attempts, sleeps
between them, and gives up; against one that accepts the third connection it makes three
attempts and installs the new client. -/
theorem reconnect_loop_stops_after_ten_attempts_witness :
    retryLoop exampleRefusing 11 0
        = some [.attempt 1, .sleep, .attempt 2, .sleep, .attempt 3, .sleep, .attempt 4, .sleep,
                .attempt 5, .sleep, .attempt 6, .sleep, .attempt 7, .sleep, .attempt 8, .sleep,
                .attempt 9, .sleep, .attempt 10, .gaveUp]
    ∧ retryLoop exampleRefusing 50 0 = retryLoop exampleRefusing 11 0
    ∧ retryLoop exampleThirdTime 11 0
        = some [.attempt 1, .sleep, .attempt 2, .sleep, .attempt 3, .installed]
    ∧ (∃ events, retryLoop exampleRefusing 11 0 = some events
        ∧ attempts events = [1, 2, 3, 4, 5, 6, 7, 8, 9, 10]
        ∧ RetryEvent.installed ∉ events ∧ events.getLast? = some .gaveUp) := by
  obtain ⟨events, hr, hfuel, _, hall⟩ := reconnect_loop_stops_after_ten_attempts exampleRefusing
  obtain ⟨hat, hni, hlast⟩ := hall (fun _ => ⟨rfl, rfl, fun _ _ h => by cases h⟩)
  refine ⟨by decide, ?_, by decide, events, hr, hat, hni, hlast⟩
  rw [hfuel 50 (by decide)]
  exact hr.symm

/-- Claim C12 fails. The running bridge whose side B is closed gets a first disconnect
trigger: the goroutine is started and, the method having returned, the flag
`isReconnecting` is down again.  The goroutine makes its first attempt, which fails; it is
in progress, with nine attempts to go.  A second trigger then finds the flag down and
starts a second goroutine: two retry loops are active, and both go on making attempts. -/
theorem second_trigger_starts_second_retry_loop :
    exampleBridgeDisconnected.IsRunning = true
    ∧ exampleBridgeDisconnected.IsOpenclawConnected = false
    ∧ exampleBridgeDisconnected.retryLoops = []
    ∧ (exampleBridgeDisconnected.HandleOpenclawDisconnected 1006 "EOF").retryLoops = [0]
    ∧ (exampleBridgeDisconnected.HandleOpenclawDisconnected 1006 "EOF").isReconnecting = false
    ∧ ((exampleBridgeDisconnected.HandleOpenclawDisconnected 1006 "EOF").retryStep 0
          (.dialFailed "connection refused")).retryLoops = [1]
    ∧ (((exampleBridgeDisconnected.HandleOpenclawDisconnected 1006 "EOF").retryStep 0
          (.dialFailed "connection refused")).HandleOpenclawDisconnected 1006 "EOF").retryLoops
        = [1, 0]
    ∧ (((((exampleBridgeDisconnected.HandleOpenclawDisconnected 1006 "EOF").retryStep 0
          (.dialFailed "connection refused")).HandleOpenclawDisconnected 1006 "EOF").retryStep 0
          (.dialFailed "connection refused")).retryStep 1
          (.dialFailed "connection refused")).retryLoops
        = [2, 1] := by
  refine ⟨by decide, by decide, by decide, by decide, by decide, by decide, by decide,
    by decide⟩

/-- Claim C19 fails when the gateway of side A rejects the connect request. `Start` on a new
bridge then returns the error `"failed to connect to Wildfire Gateway"` with the running
flag down, but the connection of side A opened during `Start` is still open: the rejection
has already taken the running flag of the manager down, so the `Stop` of the manager at the
end of `ConnectWithTimeout` returns at once, without closing the client.  For the other
causes of an error (side A unreachable or silent, side B refusing the connection, the
context cancelled, side B never authenticated) nothing is left open. -/
theorem start_leaves_rejected_gateway_connection_open :
    ((NewBridge exampleConfig).Start { gateway := .answers 1 "invalid secret" }).map
        (fun r => (r.2, r.1.IsRunning, r.1.wildfireTransportOpen, r.1.openclawTransportOpen))
      = .ok (some "failed to connect to Wildfire Gateway", false, true, false)
    ∧ ((NewBridge exampleConfig).Start { gateway := .unreachable "connection refused" }).map
        (fun r => (r.2, r.1.IsRunning, r.1.wildfireTransportOpen, r.1.openclawTransportOpen))
      = .ok (some "failed to connect to Wildfire Gateway", false, false, false)
    ∧ ((NewBridge exampleConfig).Start { gateway := .silent }).map
        (fun r => (r.2, r.1.IsRunning, r.1.wildfireTransportOpen, r.1.openclawTransportOpen))
      = .ok (some "failed to connect to Wildfire Gateway", false, false, false)
    ∧ ((NewBridge exampleConfig).Start
          { gateway := .answers 0 "success", openclawDial := some "connection refused" }).map
        (fun r => (r.2, r.1.IsRunning, r.1.wildfireTransportOpen, r.1.openclawTransportOpen))
      = .ok (some "failed to connect to Openclaw Gateway: failed to connect: connection refused",
             false, false, false)
    ∧ ((NewBridge exampleConfig).Start
          { gateway := .answers 0 "success", cancelled := fun i => decide (2 ≤ i) }).map
        (fun r => (r.2, r.1.IsRunning, r.1.wildfireTransportOpen, r.1.openclawTransportOpen))
      = .ok (some "context canceled", false, false, false)
    ∧ ((NewBridge exampleConfig).Start { gateway := .answers 0 "success" }).map
        (fun r => (r.2, r.1.IsRunning, r.1.wildfireTransportOpen, r.1.openclawTransportOpen))
      = .ok (some "failed to authenticate with Openclaw Gateway within timeout",
             false, false, false)
    ∧ ((NewBridge exampleConfig).Start exampleStartEnv).map
        (fun r => (r.2, r.1.IsRunning, r.1.wildfireTransportOpen, r.1.openclawTransportOpen))
      = .ok (none, true, true, true) := by
  refine ⟨rfl, rfl, rfl, rfl, rfl, rfl, rfl⟩


/-! ## Registration of the conversation and association of the run -/

namespace WebSocketClient

/-- Claim C21. On a client with a tracker `m`, a `SendMessage` by an authenticated client
with a sender that is not empty succeeds, and its result is the call of `send` on a client
`c1` whose queue is still the queue before the call and whose tracker is `m` with the
session registered: under the session key `"main"` the tracker then holds the sender, the
thread id of the message (the sender when that is empty), the group flag of the message and
the time of the call, and `send` leaves the tracker as it is.  A `SendMessage` on a client
that is not authenticated returns the error `"not authenticated"` and the client is
unchanged: nothing is registered and no request is recorded as pending. -/
theorem sendMessage_registers_session_before_enqueue (c : WebSocketClient) (now : Int)
    (requestID : String) (message : OpenclawOutMessage) (senderID : String) :
    (∀ m : ContextManager, c.sessionContextMgr = some m → c.IsAuthenticated = true →
      senderID ≠ "" →
      ∃ (c1 : WebSocketClient) (req : RequestMessage),
        c.SendMessage now requestID message senderID = .ok (c1.send req)
        ∧ c1.sendChan = c.sendChan
        ∧ c1.sessionContextMgr
            = some (m.RegisterSession now DefaultSessionKey senderID
                (if message.Channel.ThreadID = "" then senderID else message.Channel.ThreadID)
                message.Channel.IsGroup)
        ∧ (c1.send req).sessionContextMgr = c1.sessionContextMgr
        ∧ (m.RegisterSession now DefaultSessionKey senderID
                (if message.Channel.ThreadID = "" then senderID else message.Channel.ThreadID)
                message.Channel.IsGroup).GetSession DefaultSessionKey
            = some { SessionKey := DefaultSessionKey, SenderID := senderID,
                     ThreadID := if message.Channel.ThreadID = "" then senderID
                                 else message.Channel.ThreadID,
                     IsGroup := message.Channel.IsGroup, Timestamp := now })
    ∧ (c.IsAuthenticated = false →
        c.SendMessage now requestID message senderID = .error "not authenticated"
        ∧ c.step (.send now requestID message senderID) = c) := by
  constructor
  · intro m hm hauth hs
    have hauth' : c.isAuthenticated = true := hauth
    let pending : PendingRequest :=
      { Method := "chat.send", SenderID := senderID, ThreadID := message.Channel.ThreadID,
        IsGroup := message.Channel.IsGroup, Timestamp := now }
    let c1 : WebSocketClient :=
      { c with
        sessionContextMgr :=
          some (m.RegisterSession now DefaultSessionKey senderID
            (if message.Channel.ThreadID = "" then senderID else message.Channel.ThreadID)
            message.Channel.IsGroup),
        pendingRequests := c.pendingRequests.set requestID pending }
    let params : ChatSendParams :=
      { SessionKey := "main", Message := message.Message.Text,
        Attachments :=
          if message.Message.MediaURL ≠ "" then
            [{ type := message.Message.MediaType, URL := message.Message.MediaURL }]
          else [] }
    let req : RequestMessage :=
      { type := "req", ID := requestID, Method := "chat.send", Params := .chatSend params }
    refine ⟨c1, req, ?_, rfl, rfl, (send_fields _ _).2.2.1, ?_⟩
    · have h1 : (!c.isAuthenticated) = false := by simp [hauth']
      unfold SendMessage
      rw [h1, if_neg (by decide), hm]
      simp only [if_pos hs]
    · simp [ContextManager.RegisterSession, ContextManager.GetSession, GoMap.get_set_self]
  · intro hauth
    have hauth' : c.isAuthenticated = false := hauth
    constructor
    · simp [SendMessage, hauth']
    · simp [step, SendMessage, hauth']

/-- Claim C22. When the response `frame` answers a pending `chat.send` request and its
payload carries the run id `r`, afterwards the request is no longer pending and the tracker
is the tracker before with `r` associated with the session key `"main"`, the key under which
every request is registered: `GetContextByRunID(r)` returns the context stored under that
key.  A response whose id matches no pending request returns the client unchanged and makes
no call. -/
theorem chatSend_response_associates_run (c : WebSocketClient) (now : Int)
    (frame : ResponseFrame) :
    (∀ (pending : PendingRequest) (payload : ResponsePayload) (r : String)
        (m : ContextManager),
        c.pendingRequests.get frame.id = some pending → pending.Method = "chat.send" →
        frame.payload = some payload → payload.runId = some r →
        c.sessionContextMgr = some m →
        (c.handleResponse now frame).1.pendingRequests.get frame.id = none
        ∧ (c.handleResponse now frame).1.sessionContextMgr
            = some (m.AssociateRunID r DefaultSessionKey)
        ∧ (m.AssociateRunID r DefaultSessionKey).GetContextByRunID r
            = m.GetSession DefaultSessionKey
        ∧ (m.AssociateRunID r DefaultSessionKey).GetSession DefaultSessionKey
            = m.GetSession DefaultSessionKey)
    ∧ (c.pendingRequests.get frame.id = none → c.handleResponse now frame = (c, [])) := by
  constructor
  · intro pending payload r m hp hmeth hpl hr hm
    have hnc : pending.Method ≠ "connect" := by rw [hmeth]; decide
    have heq : c.handleResponse now frame
        = ({ c with
              pendingRequests := c.pendingRequests.delete frame.id,
              messageContexts := (c.messageContexts).set r
                { SenderID := pending.SenderID, ThreadID := pending.ThreadID,
                  IsGroup := pending.IsGroup, Timestamp := now },
              sessionContextMgr := some (m.AssociateRunID r DefaultSessionKey) }, []) := by
      simp [handleResponse, hp, hnc, hmeth, hpl, hr, hm]
    rw [heq]
    refine ⟨GoMap.get_delete_self _ _, rfl, ?_, rfl⟩
    simp [ContextManager.GetContextByRunID, ContextManager.AssociateRunID,
      ContextManager.GetSession, GoMap.get_set_self]
  · intro hp
    simp [handleResponse, hp]

end WebSocketClient


/-- The authenticated client `exampleClient` sends the private message of `"u1"`: the
session `"main"` of the tracker then holds `"u1"`, the thread `"t1"` and the time of the
call, and the queue of the client on which `send` is called is still empty.  The client
`exampleAgentClient`, which is not authenticated, refuses the message and is unchanged. -/
theorem sendMessage_registers_session_before_enqueue_witness :
    (∃ (c1 : WebSocketClient) (req : RequestMessage),
        exampleClient.SendMessage 1000 "q1" exampleMessage1 "u1" = .ok (c1.send req)
        ∧ c1.sendChan = []
        ∧ c1.sessionContextMgr.bind (fun m => m.GetSession "main")
            = some { SessionKey := "main", SenderID := "u1", ThreadID := "t1",
                     IsGroup := false, Timestamp := 1000 })
    ∧ exampleAgentClient.SendMessage 1000 "q1" exampleMessage1 "u1"
        = .error "not authenticated"
    ∧ exampleAgentClient.step (.send 1000 "q1" exampleMessage1 "u1") = exampleAgentClient := by
  obtain ⟨hyes, hno⟩ :=
    WebSocketClient.sendMessage_registers_session_before_enqueue exampleClient 1000 "q1"
      exampleMessage1 "u1"
  obtain ⟨_, hno'⟩ :=
    WebSocketClient.sendMessage_registers_session_before_enqueue exampleAgentClient 1000 "q1"
      exampleMessage1 "u1"
  obtain ⟨c1, req, h1, h2, h3, _, h5⟩ := hyes NewContextManager rfl rfl (by decide)
  refine ⟨⟨c1, req, h1, h2, ?_⟩, (hno' rfl).1, (hno' rfl).2⟩
  rw [h3]
  exact h5

/-- The client `exampleClientSent` gets the response to its request `"q1"` with the run id
`"run-1"`: the request is forgotten and `GetContextByRunID("run-1")` returns the session of
`"u1"`; a response with the unknown id `"zz"` changes nothing. -/
theorem chatSend_response_associates_run_witness :
    (exampleClientSent.handleResponse 1050 exampleFrame1).1.pendingRequests.get "q1" = none
    ∧ (exampleClientSent.handleResponse 1050 exampleFrame1).1.sessionContextMgr.bind
          (fun m => m.GetContextByRunID "run-1")
        = some { SessionKey := "main", SenderID := "u1", ThreadID := "t1", IsGroup := false,
                 Timestamp := 1000 }
    ∧ exampleClientSent.handleResponse 1050
          { id := "zz", ok := true, payload := some { runId := some "run-9" } }
        = (exampleClientSent, []) := by
  obtain ⟨hyes, _⟩ :=
    WebSocketClient.chatSend_response_associates_run exampleClientSent 1050 exampleFrame1
  obtain ⟨_, hno⟩ :=
    WebSocketClient.chatSend_response_associates_run exampleClientSent 1050
      { id := "zz", ok := true, payload := some { runId := some "run-9" } }
  obtain ⟨h1, h2, h3, _⟩ := hyes
    { Method := "chat.send", SenderID := "u1", ThreadID := "t1", IsGroup := false,
      Timestamp := 1000 }
    { runId := some "run-1" } "run-1"
    (NewContextManager.RegisterSession 1000 "main" "u1" "t1" false)
    (by decide) rfl rfl rfl (by decide)
  refine ⟨h1, ?_, hno (by decide)⟩
  rw [h2]
  simp only [Option.bind]
  rw [h3]
  decide


/-! ## The state carried by a streaming reply -/

namespace WebSocketClient

/-- The state computed by `handleAgentEvent`, by the phase read from
`payload["data"]["phase"]` and the stream. -/
theorem eventState_cases (payload : AgentPayload) :
    (payload.data.bind (fun d => d.phase) = some "start" → eventState payload = "start")
    ∧ (payload.data.bind (fun d => d.phase) = some "end" → eventState payload = "completed")
    ∧ (payload.data.bind (fun d => d.phase) ≠ some "start" →
        payload.data.bind (fun d => d.phase) ≠ some "end" →
        payload.stream = some "assistant" → eventState payload = "generating")
    ∧ (payload.data.bind (fun d => d.phase) ≠ some "start" →
        payload.data.bind (fun d => d.phase) ≠ some "end" →
        payload.stream ≠ some "assistant" → eventState payload = "") := by
  obtain ⟨rid, stream, data⟩ := payload
  cases data with
  | none =>
    refine ⟨fun h => by simp at h, fun h => by simp at h, ?_, ?_⟩
    · intro _ _ hs
      simp only at hs
      simp [eventState, hs]
    · intro _ _ hs
      simp only at hs
      cases stream with
      | none => simp [eventState]
      | some s =>
        have : s ≠ "assistant" := fun h => hs (by rw [h])
        simp [eventState, this]
  | some d =>
    obtain ⟨text, phase⟩ := d
    cases phase with
    | none =>
      refine ⟨fun h => by simp at h, fun h => by simp at h, ?_, ?_⟩
      · intro _ _ hs
        simp only at hs
        simp [eventState, hs]
      · intro _ _ hs
        simp only at hs
        cases stream with
        | none => simp [eventState]
        | some s =>
          have : s ≠ "assistant" := fun h => hs (by rw [h])
          simp [eventState, this]
    | some p =>
      refine ⟨?_, ?_, ?_, ?_⟩
      · intro h
        have hp : p = "start" := by simpa using h
        simp [eventState, hp]
      · intro h
        have hp : p = "end" := by simpa using h
        simp [eventState, hp]
      · intro h1 h2 hs
        have hp1 : p ≠ "start" := fun h => h1 (by simp [h])
        have hp2 : p ≠ "end" := fun h => h2 (by simp [h])
        simp only at hs
        simp [eventState, hp1, hp2, hs]
      · intro h1 h2 hs
        have hp1 : p ≠ "start" := fun h => h1 (by simp [h])
        have hp2 : p ≠ "end" := fun h => h2 (by simp [h])
        simp only at hs
        cases stream with
        | none => simp [eventState, hp1, hp2]
        | some s =>
          have : s ≠ "assistant" := fun h => hs (by rw [h])
          simp [eventState, hp1, hp2, this]

/-- Every reply that `handleAgentEvent` hands to the handler carries the state computed by
`eventState` from the payload of the event. -/
theorem reply_carries_eventState (c : WebSocketClient) (now : Int) (event : AgentEvent)
    (response : OpenclawInMessage)
    (h : HandlerCall.OnResponse response ∈ (c.handleAgentEvent now event).2) :
    ∃ payload, event.payload = some payload
      ∧ response.Message.bind (fun m => m.Extra.get "state") = some (eventState payload) := by
  obtain ⟨pl⟩ := event
  cases pl with
  | none => simp [handleAgentEvent] at h
  | some payload =>
    refine ⟨payload, rfl, ?_⟩
    cases hrid : payload.runId with
    | none => simp [handleAgentEvent, hrid] at h
    | some r =>
      by_cases hne : r = ""
      · simp [handleAgentEvent, hrid, hne] at h
      · cases hl : c.lookupContext now r with
        | mk o cs0 =>
          cases o with
          | none =>
            rw [handleAgentEvent_of_no_context c now payload hrid hl] at h
            simp at h
          | some ctx0 =>
            simp only [handleAgentEvent, hrid, Option.getD_some, hne, if_false, hl] at h
            unfold notify at h
            split at h
            · simp only [List.mem_singleton, HandlerCall.OnResponse.injEq] at h
              rw [h]
              simp [GoMap.get]
            · simp at h

end WebSocketClient


namespace WebSocketClient

/-- Claim C23, as amended. Every reply that `handleAgentEvent` hands to the handler for an
agent event carries a state, and that state is `"start"` when the phase of the event is
`"start"`, `"completed"` when the phase is `"end"`, and for every other event (another
phase, or none) `"generating"` when the stream of the event is `"assistant"` and the empty
text otherwise. -/
theorem agent_reply_state_follows_phase_and_stream (c : WebSocketClient) (now : Int)
    (event : AgentEvent) (response : OpenclawInMessage)
    (h : HandlerCall.OnResponse response ∈ (c.handleAgentEvent now event).2) :
    ∃ (payload : AgentPayload) (state : String), event.payload = some payload
      ∧ response.Message.bind (fun m => m.Extra.get "state") = some state
      ∧ (payload.data.bind (fun d => d.phase) = some "start" → state = "start")
      ∧ (payload.data.bind (fun d => d.phase) = some "end" → state = "completed")
      ∧ (payload.data.bind (fun d => d.phase) ≠ some "start" →
          payload.data.bind (fun d => d.phase) ≠ some "end" →
          payload.stream = some "assistant" → state = "generating")
      ∧ (payload.data.bind (fun d => d.phase) ≠ some "start" →
          payload.data.bind (fun d => d.phase) ≠ some "end" →
          payload.stream ≠ some "assistant" → state = "") := by
  obtain ⟨payload, hp, hs⟩ := reply_carries_eventState c now event response h
  obtain ⟨h1, h2, h3, h4⟩ := eventState_cases payload
  exact ⟨payload, eventState payload, hp, hs, h1, h2, h3, h4⟩

end WebSocketClient

/-- The claim C23 fails as stated. The client `exampleClientRunning` holds the context of
the run `"run-1"`; the agent event of that run with the stream `"tool"`, the text
`"calling search"` and no phase is answered with one reply, whose state is the empty text:
not one of `"start"`, `"generating"`, `"completed"`. -/
theorem agent_reply_state_counterexample :
    (exampleClientRunning.handleAgentEvent 1300
        (WebSocketClient.agentEventOf "run-1" (some "tool") (some "calling search") none)).2.map
          (fun call =>
            match call with
            | .OnResponse response => WebSocketClient.replyTextState response
            | _ => none)
      = [some ("calling search", some "")]
    ∧ "" ∉ ["start", "generating", "completed"] := by
  constructor
  · decide
  · decide

/-- The run `"run-1"` streams on the stream `"assistant"`: the reply to the event with the
phase `"start"` carries the state `"start"`, and the reply to a fragment without phase
carries the state `"generating"`. -/
theorem agent_reply_state_follows_phase_and_stream_witness :
    (∃ response, (exampleClientRunning.handleAgentEvent 1300
          (WebSocketClient.agentEventOf "run-1" (some "assistant") none (some "start"))).2
        = [.OnResponse response]
      ∧ response.Message.bind (fun m => m.Extra.get "state") = some "start")
    ∧ (∃ response, (exampleClientRunning.handleAgentEvent 1300
          (WebSocketClient.agentEventOf "run-1" (some "assistant") (some "partial") none)).2
        = [.OnResponse response]
      ∧ response.Message.bind (fun m => m.Extra.get "state") = some "generating") := by
  have e1 : ∃ response, (exampleClientRunning.handleAgentEvent 1300
      (WebSocketClient.agentEventOf "run-1" (some "assistant") none (some "start"))).2
        = [.OnResponse response] := ⟨_, rfl⟩
  have e2 : ∃ response, (exampleClientRunning.handleAgentEvent 1300
      (WebSocketClient.agentEventOf "run-1" (some "assistant") (some "partial") none)).2
        = [.OnResponse response] := ⟨_, rfl⟩
  obtain ⟨r1, hr1⟩ := e1
  obtain ⟨r2, hr2⟩ := e2
  obtain ⟨p1, s1, hp1, hs1, hstart, _, _, _⟩ :=
    WebSocketClient.agent_reply_state_follows_phase_and_stream exampleClientRunning 1300
      (WebSocketClient.agentEventOf "run-1" (some "assistant") none (some "start")) r1
      (by rw [hr1]; exact List.mem_singleton.2 rfl)
  obtain ⟨p2, s2, hp2, hs2, _, _, hgen, _⟩ :=
    WebSocketClient.agent_reply_state_follows_phase_and_stream exampleClientRunning 1300
      (WebSocketClient.agentEventOf "run-1" (some "assistant") (some "partial") none) r2
      (by rw [hr2]; exact List.mem_singleton.2 rfl)
  have hp1' : p1 = { runId := some "run-1", stream := some "assistant",
                     data := some { text := none, phase := some "start" } } :=
    (Option.some.inj hp1).symm
  have hp2' : p2 = { runId := some "run-1", stream := some "assistant",
                     data := some { text := some "partial", phase := none } } :=
    (Option.some.inj hp2).symm
  refine ⟨⟨r1, hr1, ?_⟩, ⟨r2, hr2, ?_⟩⟩
  · rw [hs1, hstart (by rw [hp1']; rfl)]
  · rw [hs2, hgen (by rw [hp2']; decide) (by rw [hp2']; decide) (by rw [hp2'])]


/-! ## The whitelist filter -/

theorem any_beq_eq_decide_mem (l : List String) (a : String) :
    l.any (fun x => x == a) = decide (a ∈ l) := by
  induction l with
  | nil => simp
  | cons x xs ih =>
    simp only [List.any_cons, ih, List.mem_cons]
    by_cases hx : x = a
    · simp [hx]
    · have hx' : a ≠ x := fun h => hx h.symm
      simp [hx, hx']

theorem length_beq_zero_eq_isEmpty (l : List String) : (l.length == 0) = l.isEmpty := by
  cases l <;> rfl

/-- The code of `ShouldProcess` as a formula of its tests. -/
theorem shouldProcess_eq (f : WhitelistConfig) (senderID targetID : String) (isGroup : Bool) :
    f.ShouldProcess senderID targetID isGroup
      = (!f.Enabled
          || (!decide (senderID ∈ f.BlockedSenders)
              && (!isGroup || !decide (targetID ∈ f.BlockedGroups))
              && (f.AllowedSenders.isEmpty || decide (senderID ∈ f.AllowedSenders))
              && (!isGroup || f.AllowedGroups.isEmpty
                  || decide (targetID ∈ f.AllowedGroups)))) := by
  unfold WhitelistConfig.ShouldProcess
  simp only [any_beq_eq_decide_mem, length_beq_zero_eq_isEmpty]
  generalize f.Enabled = e
  generalize decide (senderID ∈ f.BlockedSenders) = bs
  generalize decide (targetID ∈ f.BlockedGroups) = bg
  generalize f.AllowedSenders.isEmpty = es
  generalize decide (senderID ∈ f.AllowedSenders) = as
  generalize f.AllowedGroups.isEmpty = eg
  generalize decide (targetID ∈ f.AllowedGroups) = ag
  cases e <;> cases bs <;> cases isGroup <;> cases bg <;> cases es <;> cases as <;> cases eg
    <;> cases ag <;> rfl

/-- Claim C27. For every configuration of the filter and every sender, target and group
flag, `ShouldProcess` returns what the reference predicate returns.  In particular, with
the filter enabled, a blocked sender is rejected whether or not it is also allowed, and when
both lists of allowed ids are empty a message is processed exactly when its sender is not
blocked and, for a group message, its target is not a blocked group. -/
theorem shouldProcess_eq_reference (f : WhitelistConfig) (senderID targetID : String)
    (isGroup : Bool) :
    f.ShouldProcess senderID targetID isGroup
      = shouldProcessReference f senderID targetID isGroup
    ∧ (f.Enabled = true → senderID ∈ f.BlockedSenders →
        f.ShouldProcess senderID targetID isGroup = false)
    ∧ (f.Enabled = true → f.AllowedSenders = [] → f.AllowedGroups = [] →
        (f.ShouldProcess senderID targetID isGroup = true ↔
          senderID ∉ f.BlockedSenders ∧ (isGroup = true → targetID ∉ f.BlockedGroups))) := by
  have h := shouldProcess_eq f senderID targetID isGroup
  refine ⟨?_, ?_, ?_⟩
  · rw [h]
    simp [shouldProcessReference]
  · intro he hb
    rw [h]
    simp [he, hb]
  · intro he ha hg
    rw [h]
    simp [he, ha, hg]
    cases isGroup <;> simp


/-! ## Remote calls -/

theorem string_length_pos_iff (s : String) : s.length > 0 ↔ s ≠ "" := by
  constructor
  · intro h hs
    rw [hs] at h
    exact absurd h (by decide)
  · intro h
    rcases Nat.eq_zero_or_pos s.length with h0 | h0
    · have hd : s.data = [] := List.length_eq_zero.1 h0
      exact absurd (String.ext hd) h
    · exact h0

/-- Claim C24. Whatever the client, the request and what the `select` receives, `invoke`
returns a nil error.  The `IMResult` returned is: code -1 with `"Not connected to gateway"`
when the manager is not connected; code -1 with `"not authenticated"` when the client is
connected and not authenticated; and for a connected and authenticated client, code -1 with
`"Request timeout"` when the timer fires first, the code and the message of the response
with the zero result when the code of the response is not 0, and when it is 0 what the
conversion of the result of the response to a nested envelope gives: on failure code -1, on
success the code and the message of the nested envelope, with the zero result when the
nested result is empty, the decoded nested result when it decodes, and code -1 when it does
not decode. -/
theorem invoke_unwraps_envelope_twice {T : Type} (zero : T)
    (unmarshalNested : String → Except String nestedIMResult)
    (unmarshalResult : String → Except String T) (c : RobotServiceClient)
    (requestID method : String) (params : List String) (reply : Option ResponseMessage) :
    (invoke zero unmarshalNested unmarshalResult c requestID method params reply).2 = none
    ∧ (ConnectionManager.IsConnected c.connectionManager = false →
        (invoke zero unmarshalNested unmarshalResult c requestID method params reply).1
          = { Code := -1, Msg := "Not connected to gateway", Result := zero })
    ∧ (ConnectionManager.IsConnected c.connectionManager = true →
        c.connectionManager.IsAuthenticated = false →
        (invoke zero unmarshalNested unmarshalResult c requestID method params reply).1
          = { Code := -1, Msg := "not authenticated", Result := zero })
    ∧ (ConnectionManager.IsConnected c.connectionManager = true →
        c.connectionManager.IsAuthenticated = true →
        (reply = none →
          (invoke zero unmarshalNested unmarshalResult c requestID method params reply).1
            = { Code := -1, Msg := "Request timeout", Result := zero })
        ∧ (∀ resp, reply = some resp → resp.Code ≠ 0 →
          (invoke zero unmarshalNested unmarshalResult c requestID method params reply).1
            = { Code := resp.Code, Msg := resp.Msg, Result := zero })
        ∧ (∀ resp, reply = some resp → resp.Code = 0 →
          (∀ err, convertResult { } unmarshalNested resp.Result = .error err →
            (invoke zero unmarshalNested unmarshalResult c requestID method params reply).1
              = { Code := -1, Msg := "Failed to convert nested result: " ++ err,
                  Result := zero })
          ∧ (∀ nested, convertResult { } unmarshalNested resp.Result = .ok nested →
            (nested.Result = "" →
              (invoke zero unmarshalNested unmarshalResult c requestID method params reply).1
                = { Code := nested.Code, Msg := nested.Msg, Result := zero })
            ∧ (∀ actual, nested.Result ≠ "" → unmarshalResult nested.Result = .ok actual →
              (invoke zero unmarshalNested unmarshalResult c requestID method params reply).1
                = { Code := nested.Code, Msg := nested.Msg, Result := actual })
            ∧ (∀ err, nested.Result ≠ "" → unmarshalResult nested.Result = .error err →
              (invoke zero unmarshalNested unmarshalResult c requestID method params reply).1
                = { Code := -1, Msg := "Failed to convert actual result: " ++ err,
                    Result := zero })))) := by
  refine ⟨?_, ?_, ?_, ?_⟩
  · unfold invoke
    split
    · rfl
    · split
      · rfl
      · split
        · rfl
        · split
          · rfl
          · split
            · rfl
            · split
              · split <;> rfl
              · rfl
  · intro hc
    simp [invoke, hc]
  · intro hc ha
    have ha' : c.connectionManager.isAuth = false := ha
    simp [invoke, hc, RobotGatewayClient.SendRequest, RobotGatewayClient.IsAuthenticated, ha']
  · intro hc ha
    have ha' : c.connectionManager.isAuth = true := ha
    have hsend : ∃ r, c.connectionManager.SendRequest requestID method params = .ok r := by
      simp [RobotGatewayClient.SendRequest, RobotGatewayClient.IsAuthenticated, ha']
    obtain ⟨r, hr⟩ := hsend
    refine ⟨?_, ?_, ?_⟩
    · intro hreply
      simp [invoke, hc, hr, hreply]
    · intro resp hreply hcode
      simp [invoke, hc, hr, hreply, ResponseMessage.IsSuccess, hcode]
    · intro resp hreply hcode
      refine ⟨?_, ?_⟩
      · intro err herr
        simp [invoke, hc, hr, hreply, ResponseMessage.IsSuccess, hcode, herr]
      · intro nested hn
        refine ⟨?_, ?_, ?_⟩
        · intro hempty
          have hlen : ¬ (nested.Result.length > 0) := by
            rw [string_length_pos_iff]; simp [hempty]
          simp only [invoke, hc, hr, hreply, ResponseMessage.IsSuccess, hcode, hn]
          simp [hlen]
        · intro actual hne hdec
          have hlen : nested.Result.length > 0 := (string_length_pos_iff _).2 hne
          simp only [invoke, hc, hr, hreply, ResponseMessage.IsSuccess, hcode, hn]
          simp [hlen, hdec]
        · intro err hne hdec
          have hlen : nested.Result.length > 0 := (string_length_pos_iff _).2 hne
          simp only [invoke, hc, hr, hreply, ResponseMessage.IsSuccess, hcode, hn]
          simp [hlen, hdec]


/-- The connected robot calls `sendMessage`: a response with code 0 and a nested envelope
gives the code, the message and the decoded result of the nested envelope; a response with
code 253 gives that code and its message; no response gives code -1; and a client that is
not connected gives code -1 at once.  The error returned is nil every time. -/
theorem invoke_unwraps_envelope_twice_witness :
    invoke 0 exampleUnmarshalNested exampleUnmarshalResult exampleServiceClient "r1"
        "sendMessage" [] (some exampleEnvelope)
      = ({ Code := 0, Msg := "success", Result := 42 }, none)
    ∧ invoke 0 exampleUnmarshalNested exampleUnmarshalResult exampleServiceClient "r1"
        "sendMessage" [] (some { RequestID := "r1", Code := 253, Msg := "not in group" })
      = ({ Code := 253, Msg := "not in group", Result := 0 }, none)
    ∧ invoke 0 exampleUnmarshalNested exampleUnmarshalResult exampleServiceClient "r1"
        "sendMessage" [] none
      = ({ Code := -1, Msg := "Request timeout", Result := 0 }, none)
    ∧ invoke 0 exampleUnmarshalNested exampleUnmarshalResult (NewRobotServiceClient true) "r1"
        "sendMessage" [] none
      = ({ Code := -1, Msg := "Not connected to gateway", Result := 0 }, none) := by
  obtain ⟨e1, _, _, h1⟩ :=
    invoke_unwraps_envelope_twice 0 exampleUnmarshalNested exampleUnmarshalResult
      exampleServiceClient "r1" "sendMessage" [] (some exampleEnvelope)
  obtain ⟨e2, _, _, h2⟩ :=
    invoke_unwraps_envelope_twice 0 exampleUnmarshalNested exampleUnmarshalResult
      exampleServiceClient "r1" "sendMessage" []
      (some { RequestID := "r1", Code := 253, Msg := "not in group" })
  obtain ⟨e3, _, _, h3⟩ :=
    invoke_unwraps_envelope_twice 0 exampleUnmarshalNested exampleUnmarshalResult
      exampleServiceClient "r1" "sendMessage" [] none
  obtain ⟨e4, h4, _, _⟩ :=
    invoke_unwraps_envelope_twice 0 exampleUnmarshalNested exampleUnmarshalResult
      (NewRobotServiceClient true) "r1" "sendMessage" [] none
  have hc : ConnectionManager.IsConnected exampleServiceClient.connectionManager = true := by
    decide
  have ha : exampleServiceClient.connectionManager.IsAuthenticated = true := by decide
  refine ⟨Prod.ext ?_ e1, Prod.ext ?_ e2, Prod.ext ?_ e3, Prod.ext (h4 (by decide)) e4⟩
  · exact ((((h1 hc ha).2.2 exampleEnvelope rfl rfl).2
      { Code := 0, Msg := "success", Result := "\x7b\"messageUid\":42\x7d" } rfl).2.1 42
      (by decide) rfl)
  · exact (h2 hc ha).2.1 _ rfl (by decide)
  · exact (h3 hc ha).1 rfl

/-- The sender `"spam"`, allowed and blocked at once, is rejected; with blocked ids only, the
sender `"u5"` is processed in the group `"g1"` and rejected in the blocked group `"g9"`;
and the code and the reference predicate agree on these inputs. -/
theorem shouldProcess_eq_reference_witness :
    exampleWhitelist.ShouldProcess "spam" "u1" false = false
    ∧ shouldProcessReference exampleWhitelist "spam" "u1" false = false
    ∧ exampleBlocklist.ShouldProcess "u5" "g1" true = true
    ∧ exampleBlocklist.ShouldProcess "u5" "g9" true = false
    ∧ shouldProcessReference exampleBlocklist "u5" "g9" true = false := by
  obtain ⟨r1, b1, _⟩ := shouldProcess_eq_reference exampleWhitelist "spam" "u1" false
  obtain ⟨_, _, a2⟩ := shouldProcess_eq_reference exampleBlocklist "u5" "g1" true
  obtain ⟨r3, _, a3⟩ := shouldProcess_eq_reference exampleBlocklist "u5" "g9" true
  have h1 : exampleWhitelist.ShouldProcess "spam" "u1" false = false := b1 rfl (by decide)
  have h3 : exampleBlocklist.ShouldProcess "u5" "g9" true = false := by
    cases hx : exampleBlocklist.ShouldProcess "u5" "g9" true with
    | false => rfl
    | true => exact absurd (((a3 rfl rfl rfl).1 hx).2 rfl) (by decide)
  refine ⟨h1, ?_, (a2 rfl rfl rfl).2 ⟨by decide, fun _ => by decide⟩, h3, ?_⟩
  · rw [← r1]; exact h1
  · rw [← r3]; exact h3


/-! ## The cleanup of run contexts -/

namespace WebSocketClient

/-- The context of `r` after `cleanupExpiredContexts`: gone when an entry of `r` fails the
age test, and unchanged otherwise. -/
theorem cleanup_get_eq (c : WebSocketClient) (now : Int) (r : String) :
    (c.cleanupExpiredContexts now).messageContexts.get r
      = if c.messageContexts.any (fun e => decide (e.1 = r)
            && decide (subInt64 now e.2.Timestamp > 5 * 60 * 1000)) = true
        then none else c.messageContexts.get r := by
  have hstep : expireContextStep now
      = fun acc e => if (fun e : String × MessageContext =>
            decide (subInt64 now e.2.Timestamp > 5 * 60 * 1000)) e = true
          then GoMap.delete acc e.1 else acc := by
    funext acc e
    simp [expireContextStep]
  simp only [cleanupExpiredContexts, hstep]
  rw [GoMap.foldl_delete_eq_filter]
  rw [get_filter_key c.messageContexts
    (fun k => !(c.messageContexts.any (fun e => decide (e.1 = k)
      && decide (subInt64 now e.2.Timestamp > 5 * 60 * 1000)))) r]
  cases c.messageContexts.any (fun e => decide (e.1 = r)
      && decide (subInt64 now e.2.Timestamp > 5 * 60 * 1000)) <;> simp

/-- No context that fails the age test is left by `cleanupExpiredContexts`. -/
theorem cleanup_leaves_no_old_context (c : WebSocketClient) (now : Int) (r : String)
    (ctx : MessageContext)
    (h : (c.cleanupExpiredContexts now).messageContexts.get r = some ctx) :
    ¬ (subInt64 now ctx.Timestamp > 300000) := by
  rw [cleanup_get_eq] at h
  split at h
  · cases h
  · rename_i hany
    intro hold
    apply hany
    rw [List.any_eq_true]
    exact ⟨(r, ctx), GoMap.mem_of_get h, by simpa using hold⟩

/-- On a well-formed map, `cleanupExpiredContexts` removes the context of `r` exactly when
it fails the age test. -/
theorem cleanup_get_of_wf (c : WebSocketClient) (now : Int) (hwf : c.messageContexts.WF)
    (r : String) (ctx : MessageContext) (hg : c.messageContexts.get r = some ctx) :
    (c.cleanupExpiredContexts now).messageContexts.get r
      = if subInt64 now ctx.Timestamp > 300000 then none else some ctx := by
  rw [cleanup_get_eq]
  by_cases hold : subInt64 now ctx.Timestamp > 300000
  · have hany : c.messageContexts.any (fun e => decide (e.1 = r)
        && decide (subInt64 now e.2.Timestamp > 5 * 60 * 1000)) = true := by
      rw [List.any_eq_true]
      exact ⟨(r, ctx), GoMap.mem_of_get hg, by simpa using hold⟩
    rw [if_pos hany, if_pos hold]
  · have hany : ¬ (c.messageContexts.any (fun e => decide (e.1 = r)
        && decide (subInt64 now e.2.Timestamp > 5 * 60 * 1000)) = true) := by
      rw [List.any_eq_true]
      rintro ⟨⟨k, v⟩, hmem, hp⟩
      simp only [Bool.and_eq_true, decide_eq_true_eq] at hp
      obtain ⟨hk, hv⟩ := hp
      subst hk
      have hv' : v = ctx := Option.some.inj ((GoMap.get_of_mem hwf hmem).symm.trans hg)
      rw [hv'] at hv
      exact hold (by simpa using hv)
    rw [if_neg hany, if_neg hold, hg]

/-- An agent event leaves the timestamp of a context that it keeps. -/
theorem agent_keeps_timestamp (c : WebSocketClient) (now : Int) (event : AgentEvent)
    (r : String) (ctx : MessageContext) (hg : c.messageContexts.get r = some ctx) :
    (c.handleAgentEvent now event).1.messageContexts.get r = none
    ∨ ∃ ctx', (c.handleAgentEvent now event).1.messageContexts.get r = some ctx'
        ∧ ctx'.Timestamp = ctx.Timestamp := by
  have hsame : ∀ x : WebSocketClient × List HandlerCall, x.1 = c →
      (x.1.messageContexts.get r = none
      ∨ ∃ ctx', x.1.messageContexts.get r = some ctx' ∧ ctx'.Timestamp = ctx.Timestamp) := by
    intro x hx
    rw [hx]
    exact Or.inr ⟨ctx, hg, rfl⟩
  obtain ⟨pl⟩ := event
  cases pl with
  | none => exact hsame _ (by simp [handleAgentEvent])
  | some payload =>
    cases hrid : payload.runId with
    | none => exact hsame _ (by simp [handleAgentEvent, hrid])
    | some r' =>
      by_cases hne : r' = ""
      · exact hsame _ (by simp [handleAgentEvent, hrid, hne])
      · by_cases hrr : r' = r
        · subst hrr
          rw [handleAgentEvent_of_lookup c now payload hrid hne (lookupContext_of_get hg now)]
          by_cases hst : eventState payload = "completed"
          · left
            simp only [hst, if_true]
            exact GoMap.get_delete_self _ _
          · right
            simp only [hst, if_false]
            by_cases ht : eventText payload = ""
            · exact ⟨ctx, by simp [ht, hg], rfl⟩
            · refine ⟨{ ctx with LastText := eventText payload }, ?_, rfl⟩
              simp [ht, GoMap.get_set_self]
        · have hk : r ≠ r' := fun h => hrr h.symm
          cases hl : c.lookupContext now r' with
          | mk o cs0 =>
            cases o with
            | none =>
              exact hsame _ (by rw [handleAgentEvent_of_no_context c now payload hrid hl])
            | some ctx0 =>
              have hcs : cs0.get r = c.messageContexts.get r := by
                have := lookupContext_snd_get_ne c now r' hk
                rw [hl] at this
                exact this
              rw [handleAgentEvent_of_lookup c now payload hrid hne hl]
              right
              refine ⟨ctx, ?_, rfl⟩
              by_cases hst : eventState payload = "completed"
              · by_cases ht : eventText payload = ""
                · simp [hst, ht, GoMap.get_delete_ne _ hk, hcs, hg]
                · simp [hst, ht, GoMap.get_delete_ne _ hk, GoMap.get_set_ne _ _ hk, hcs, hg]
              · by_cases ht : eventText payload = ""
                · simp [hst, ht, hcs, hg]
                · simp [hst, ht, GoMap.get_set_ne _ _ hk, hcs, hg]

end WebSocketClient


namespace WebSocketClient

/-- Claim C25, as amended. The heartbeat tick of the write loop, whether or not the client
is authenticated, leaves the client as `cleanupExpiredContexts` leaves it: no run context
whose age `now - Timestamp` (computed in `int64`) exceeds 300000 ms remains among the
message contexts of the client.  The tracker of session contexts is not touched by the
tick.  A ping is written exactly when the client is authenticated and holds a
connection. -/
theorem tick_cleans_run_contexts_only (c : WebSocketClient) (now : Int) :
    (c.writeLoopTick now).1 = c.cleanupExpiredContexts now
    ∧ (∀ (r : String) (ctx : MessageContext),
        (c.writeLoopTick now).1.messageContexts.get r = some ctx →
          ¬ (subInt64 now ctx.Timestamp > 300000))
    ∧ (c.writeLoopTick now).1.sessionContextMgr = c.sessionContextMgr
    ∧ ((c.writeLoopTick now).2 = true ↔ c.IsAuthenticated = true ∧ c.conn = true) := by
  refine ⟨rfl, ?_, rfl, ?_⟩
  · intro r ctx h
    exact cleanup_leaves_no_old_context c now r ctx h
  · simp only [writeLoopTick, sendPing]
    cases c.IsAuthenticated <;> simp

/-- Claim C26. On a client whose message contexts form a well-formed map,
`cleanupExpiredContexts` at time `now` removes every run context whose age
`now - Timestamp`, computed in `int64`, exceeds 300000 ms, leaves every other run context
stored unchanged under its run id, and adds none; the `int64` test is the plain comparison
of integers whenever the difference fits in 64 bits.  An agent event or a chat event never
changes the timestamp of a context that it keeps, so the age of a context counts from its
creation whatever streams on the run. -/
theorem cleanupExpiredContexts_removes_exactly_old_contexts (c : WebSocketClient) (now : Int)
    (hwf : c.messageContexts.WF) :
    (∀ (r : String) (ctx : MessageContext), c.messageContexts.get r = some ctx →
        subInt64 now ctx.Timestamp > 300000 →
        (c.cleanupExpiredContexts now).messageContexts.get r = none)
    ∧ (∀ (r : String) (ctx : MessageContext), c.messageContexts.get r = some ctx →
        ¬ (subInt64 now ctx.Timestamp > 300000) →
        (c.cleanupExpiredContexts now).messageContexts.get r = some ctx)
    ∧ (∀ r : String, c.messageContexts.get r = none →
        (c.cleanupExpiredContexts now).messageContexts.get r = none)
    ∧ (∀ ctx : MessageContext, -(2 ^ 63) ≤ now - ctx.Timestamp →
        now - ctx.Timestamp < 2 ^ 63 →
        (subInt64 now ctx.Timestamp > 300000 ↔ now - ctx.Timestamp > 300000))
    ∧ (∀ (t : Int) (event : AgentEvent) (r : String) (ctx ctx' : MessageContext),
        c.messageContexts.get r = some ctx →
        (c.handleAgentEvent t event).1.messageContexts.get r = some ctx' →
        ctx'.Timestamp = ctx.Timestamp)
    ∧ (∀ (event : ChatEvent) (r : String) (ctx ctx' : MessageContext),
        c.messageContexts.get r = some ctx →
        (c.handleChatEvent event).messageContexts.get r = some ctx' →
        ctx' = ctx) := by
  refine ⟨?_, ?_, ?_, ?_, ?_, ?_⟩
  · intro r ctx hg hold
    rw [cleanup_get_of_wf c now hwf r ctx hg, if_pos hold]
  · intro r ctx hg hyoung
    rw [cleanup_get_of_wf c now hwf r ctx hg, if_neg hyoung]
  · intro r hg
    rcases cleanup_get c now r with h | h
    · exact h
    · rw [h, hg]
  · intro ctx hlo hhi
    unfold subInt64
    rw [wrapInt64_of_inRange hlo hhi]
  · intro t event r ctx ctx' hg hg'
    rcases agent_keeps_timestamp c t event r ctx hg with h | ⟨ctx2, h, ht⟩
    · rw [h] at hg'
      cases hg'
    · rw [h] at hg'
      cases hg'
      exact ht
  · intro event r ctx ctx' hg hg'
    rcases chat_keeps c event r with h | h
    · rw [h] at hg'
      cases hg'
    · rw [h, hg] at hg'
      exact (Option.some.inj hg').symm

end WebSocketClient

/-- The claim C25 fails as stated. The tracker of the client `exampleClientTracked` holds the
session `"old"` with the timestamp 10.  After the heartbeat tick at the time 10000000 the
old run context `"run-1"` is gone from the client, but the tracker is what it was: the
session `"old"`, idle for 9999990 ms, far beyond the default session timeout of 30 minutes
(1800000 ms), is still stored. -/
theorem tick_leaves_idle_session_counterexample :
    (exampleClientTracked.writeLoopTick 10000000).1.messageContexts.keys = ["run-2"]
    ∧ (exampleClientTracked.writeLoopTick 10000000).1.sessionContextMgr = some exampleTracker
    ∧ ((exampleClientTracked.writeLoopTick 10000000).1.sessionContextMgr.bind
          (fun m => m.GetSession "old")).map (fun s => s.Timestamp) = some 10
    ∧ (10000000 : Int) - 10 > 1800000 := by
  refine ⟨by decide, by decide, by decide, by decide⟩

/-- The tick at the time 10000000 on the client `exampleClientTracked`, which has no
connection: the run context made at the time 1000 is gone, the one made at 9900000 stays,
and no ping is written. -/
theorem tick_cleans_run_contexts_only_witness :
    (exampleClientTracked.writeLoopTick 10000000).1.messageContexts.get "run-1" = none
    ∧ ((exampleClientTracked.writeLoopTick 10000000).1.messageContexts.get "run-2").map
          (fun ctx => ctx.Timestamp) = some 9900000
    ∧ (exampleClientTracked.writeLoopTick 10000000).1.sessionContextMgr
        = exampleClientTracked.sessionContextMgr
    ∧ (exampleClientTracked.writeLoopTick 10000000).2 = false := by
  obtain ⟨_, hno, htr, hping⟩ :=
    WebSocketClient.tick_cleans_run_contexts_only exampleClientTracked 10000000
  refine ⟨?_, by decide, htr, ?_⟩
  · cases hx : (exampleClientTracked.writeLoopTick 10000000).1.messageContexts.get "run-1" with
    | none => rfl
    | some ctx =>
      have hold := hno "run-1" ctx hx
      have hctx : ctx = { SenderID := "u1", ThreadID := "t1", IsGroup := false,
                          Timestamp := 1000 } := by
        have hdec : (exampleClientTracked.writeLoopTick 10000000).1.messageContexts.get "run-1"
            = none := by decide
        rw [hdec] at hx
        cases hx
      rw [hctx] at hold
      exact absurd (by decide) hold
  · cases hx : (exampleClientTracked.writeLoopTick 10000000).2 with
    | false => rfl
    | true => exact absurd (hping.1 hx).2 (by decide)

/-- The cleanup at the time 10000000 on the client `exampleClientTracked`: the context of
`"run-1"`, made at 1000, is removed; the context of `"run-2"`, made at 9900000, is kept as
it is, also after a streaming event of that run has been handled at 9950000. -/
theorem cleanupExpiredContexts_removes_exactly_old_contexts_witness :
    (exampleClientTracked.cleanupExpiredContexts 10000000).messageContexts.get "run-1" = none
    ∧ (exampleClientTracked.cleanupExpiredContexts 10000000).messageContexts.get "run-2"
        = some { SenderID := "u7", ThreadID := "g7", IsGroup := true, Timestamp := 9900000 }
    ∧ (exampleClientTracked.cleanupExpiredContexts 10000000).messageContexts.get "run-3" = none
    ∧ (((exampleClientTracked.handleAgentEvent 9950000
          (WebSocketClient.agentEventOf "run-2" (some "assistant") (some "more") none)).1.messageContexts.get
            "run-2").map (fun ctx => (ctx.Timestamp, ctx.LastText))) = some (9900000, "more") := by
  obtain ⟨hold, hyoung, hnone, _, _, _⟩ :=
    WebSocketClient.cleanupExpiredContexts_removes_exactly_old_contexts exampleClientTracked
      10000000 (by decide)
  refine ⟨hold "run-1" _ rfl (by decide), hyoung "run-2" _ rfl (by decide),
    hnone "run-3" rfl, by decide⟩


/-! ## The conversation of a reply, and pushes with nil parts -/

namespace MessageConverter

/-- The conversation built by `ConvertFromOpenclaw` is of type 0 or 1, never 2. -/
theorem convertFromOpenclaw_type (msg : Option OpenclawInMessage) (w : WildfireSendMessage)
    (h : ConvertFromOpenclaw msg = some w) :
    w.Conversation.type = 0 ∨ w.Conversation.type = 1 := by
  unfold ConvertFromOpenclaw at h
  split at h
  · cases h
  · split at h
    · cases h
    · simp only [Option.some.injEq] at h
      rw [← h]
      simp only
      split
      · exact Or.inr rfl
      · exact Or.inl rfl

theorem append_ne_empty (a b : String) (h : a ≠ "") : a ++ b ≠ "" := by
  intro hab
  apply h
  have hd : (a ++ b).data = [] := by rw [hab]
  rw [String.data_append] at hd
  exact String.ext (List.append_eq_nil.1 hd).1

/-- The text extracted from a payload is empty only for a text message with an empty
`searchableContent`. -/
theorem extractTextContent_eq_empty_iff (data : OutputMessageData) (payload : MessagePayload)
    (hp : data.Payload = some payload) :
    extractTextContent data = "" ↔ payload.type = 1 ∧ payload.SearchableContent = "" := by
  simp only [extractTextContent, hp]
  by_cases h1 : payload.type = 1
  · simp [h1]
  · simp only [h1, if_false, false_and, iff_false]
    split
    · exact append_ne_empty _ _ (append_ne_empty _ _ (append_ne_empty _ _ (by decide)))
    · split
      · exact append_ne_empty _ _ (append_ne_empty _ _ (append_ne_empty _ _ (by decide)))
      · split
        · exact append_ne_empty _ _ (append_ne_empty _ _ (append_ne_empty _ _
            (append_ne_empty _ _ (append_ne_empty _ _ (by decide)))))
        · split
          · exact append_ne_empty _ _ (append_ne_empty _ _ (append_ne_empty _ _
              (append_ne_empty _ _ (append_ne_empty _ _ (by decide)))))
          · exact append_ne_empty _ _ (append_ne_empty _ _ (append_ne_empty _ _ (by decide)))

/-- `ConvertToOpenclaw` panics exactly on a message whose data has no payload; on every other
message it returns, and the result is nil exactly when the message or its data is nil or the
message is a text message with an empty `searchableContent`. -/
theorem convertToOpenclaw_result (wildfireMsg : Option PushMessage) :
    (∀ data, wildfireMsg.bind (fun m => m.Data) = some data → data.Payload = none →
        ConvertToOpenclaw wildfireMsg = .error .nilDereference)
    ∧ (wildfireMsg.bind (fun m => m.Data) = none → ConvertToOpenclaw wildfireMsg = .ok none)
    ∧ (∀ data payload, wildfireMsg.bind (fun m => m.Data) = some data →
        data.Payload = some payload →
        ∃ r, ConvertToOpenclaw wildfireMsg = .ok r
          ∧ (r = none ↔ payload.type = 1 ∧ payload.SearchableContent = "")) := by
  refine ⟨?_, ?_, ?_⟩
  · intro data hd hp
    simp [ConvertToOpenclaw, hd, extractTextContent, hp]
  · intro hd
    simp [ConvertToOpenclaw, hd]
  · intro data payload hd hp
    have hiff := extractTextContent_eq_empty_iff data payload hp
    by_cases ht : extractTextContent data = ""
    · exact ⟨none, by simp [ConvertToOpenclaw, hd, ht, hp], by simp [hiff.1 ht]⟩
    · refine ⟨_, by simp only [ConvertToOpenclaw, hd, ht, if_false]; rfl, ?_⟩
      constructor
      · intro h
        cases h
      · intro h
        exact absurd (hiff.2 h) ht

end MessageConverter

namespace Bridge

/-- On a running bridge, every push with a payload of a supported type and no conversation
makes `HandleWildfireMessage` panic. -/
theorem handleWildfireMessage_nil_conversation (b : Bridge) (now : Int) (requestID : String)
    (msg : PushMessage) (data : OutputMessageData) (payload : MessagePayload)
    (hrun : b.IsRunning = true) (hd : msg.Data = some data) (hp : data.Payload = some payload)
    (hc : data.Conv = none) (h1 : 0 < payload.type) (h2 : payload.type ≤ 15) :
    b.HandleWildfireMessage now requestID (some msg) = .error .nilDereference := by
  have hrun' : b.running = true := hrun
  have hf : (decide (payload.type ≤ 0)
      || (decide (payload.type > 15) && decide (payload.type < 100))
      || decide (payload.type > 200)) = false := by
    have a1 : ¬ payload.type ≤ 0 := by omega
    have a2 : ¬ payload.type > 15 := by omega
    have a3 : ¬ payload.type > 200 := by omega
    simp [a1, a2, a3]
  simp only [HandleWildfireMessage, IsRunning, hrun', hd, hp, hc, Option.bind, Option.map]
  simp [hf]

end Bridge

/-- Claim C28 fails for super groups. For the push of `"u1"` in the super group `"g1"`
(conversation type 2) the reply is addressed to the conversation of type 1 with the target
`"g1"`: `ConvertToOpenclaw` keeps of the type only the group flag, and
`ConvertFromOpenclaw` gives every group reply the type 1.  For the private conversation
(type 0) and for the group `"g1"` (type 1) the reply goes to the conversation of the same
type, with the sender and the group as targets. -/
theorem super_group_reply_goes_to_group_conversation :
    exampleReplyConversation (examplePushIn 2 "g1") = some { type := 1, Target := "g1" }
    ∧ exampleReplyConversation (examplePushIn 1 "g1") = some { type := 1, Target := "g1" }
    ∧ exampleReplyConversation (examplePushIn 0 "u1") = some { type := 0, Target := "u1" } := by
  refine ⟨by decide, by decide, by decide⟩

/-- Claim C29 fails. The running bridge `exampleBridge` handles a push with data and a text
payload but no conversation: the statement that logs `msg.Data.Conv.Type` dereferences the
nil conversation, before the nil test of the conversation is reached.  The same push with
the conversation of a private chat is handled without fault. -/
theorem push_without_conversation_faults :
    exampleBridge.IsRunning = true
    ∧ exampleBridge.HandleWildfireMessage 1000 "q1" (some examplePushNoConv)
        = .error .nilDereference
    ∧ (exampleBridge.HandleWildfireMessage 1000 "q1" (some examplePush)).toBool = true := by
  refine ⟨by decide, rfl, rfl⟩

/-- Claim C30 fails on the nil payload. For a push whose data has no payload,
`extractTextContent` returns the empty text and `ConvertToOpenclaw` then evaluates
`data.Payload.Type` for its log line, which dereferences the nil payload.  A nil message, a
message without data and a text message with an empty text give the nil result without
fault. -/
theorem convert_without_payload_faults :
    MessageConverter.ConvertToOpenclaw (some examplePushNoPayload) = .error .nilDereference
    ∧ MessageConverter.ConvertToOpenclaw none = .ok none
    ∧ MessageConverter.ConvertToOpenclaw (some { Data := none }) = .ok none
    ∧ MessageConverter.ConvertToOpenclaw
        (some { Data := some { Sender := "u1", Conv := none,
                               Payload := some { type := 1, SearchableContent := "" } } })
      = .ok none
    ∧ (MessageConverter.ConvertToOpenclaw (some examplePush)).map (fun r => r.isSome)
      = .ok true := by
  refine ⟨rfl, rfl, rfl, rfl, rfl⟩


end RobotGateway
